import Mathlib

/-!
# Aircraft tracker (`airplane-tracker/src/main.cpp`): acquisition, filter, rank, settings

A shallow embedding of the acquisition cycle `updateAircraftData`, the route lookup
`fetchRouteInfo`, the `/api/settings` and `/api/status` handlers, `calculateDistance`,
`getCompassDirection`, `loop` and the reads of `drawSummary` of the sketch.

Modelling conventions

* The cycle (`parseState` to `updateAircraftData`) is written over any number type `F` with
  a zero, a one, a negation, a decidable `<` and a decidable equality: the `float` values
  the variables hold after the conversion from the JSON number, with the comparisons `<`,
  `>`, `==` of the source.  Most statements take `F` to be a linearly ordered ring, the
  integers or the reals for instance, where every two numbers compare; NaN and the
  infinities are then outside the model.  The statements on the bounding box, on the range
  of `calculateDistance` in `float` arithmetic and on the sort in the presence of a NaN
  take `F` to be `Ieee`, the values of IEEE 754 with their rounding and their comparisons.
* The network, the JSON parser and `millis()` are inputs (`Env`): a response is a status code
  together with the document `deserializeJson` produced, or `none` when it reported an error.
  The request URL does not enter the state; the bounding box it carries is embedded on its
  own (`boundingBox`, over `Ieee`).
* `calculateDistance` calls `sin`, `cos`, `atan2`, `sqrt`; the cycle takes it from `Env`, and
  every statement on the scan and the sort holds for any such function.  The function itself
  is embedded twice over a record `Libm` of those library functions: over a field, where
  `realLibm` is the library in exact real arithmetic, and over `Ieee`
  (`Ieee.calculateDistance`), operation by operation in the precision of its C++ type.  The
  library is not part of the sketch: a statement over `Ieee` names the values it takes from
  the library as hypotheses, and `libmTable` holds those values for the worked examples.
* `unsigned long` is 32 bits wide on the target; the time differences of `loop()` are taken
  modulo `2 ^ 32`.  The drawing functions write no global; a pass of `loop()` records which
  one it called.
* The global array `aircraft[MAX_AIRCRAFT]` is a map from indices to records; the registry is
  its first `aircraftCount` cells.
* `Serial` output is kept as a list of events, one constructor for each message of the cycle
  and of the settings handler; the two lines that echo the URL and the response size are
  left out.
* `int aircraftCount` only takes the values `0 .. MAX_AIRCRAFT` and is a natural number; the
  loop bound `aircraftCount - 1` of the sort is then the truncated difference, which gives the
  same (zero) number of iterations when the count is 0.
-/

set_option linter.unusedSectionVars false

namespace AirplaneTracker

/-- A value of an ArduinoJson document. -/
inductive JsonVariant (F : Type) where
  | null : JsonVariant F
  | bool (b : Bool) : JsonVariant F
  | number (x : F) : JsonVariant F
  | string (s : String) : JsonVariant F
  | array (xs : List (JsonVariant F)) : JsonVariant F
  | object (kvs : List (String × JsonVariant F)) : JsonVariant F

namespace JsonVariant

variable {F : Type}

/-- Lookup `doc[key]`: the member of an object, the null variant when the key is absent or
the value is not an object. -/
def member (doc : JsonVariant F) (key : String) : JsonVariant F :=
  match doc with
  | object kvs =>
    match kvs.find? (fun kv => kv.1 == key) with
    | some kv => kv.2
    | none => null
  | _ => null

/-- The test `doc.containsKey(key)`. -/
def containsKey (doc : JsonVariant F) (key : String) : Bool :=
  match doc with
  | object kvs => kvs.any (fun kv => kv.1 == key)
  | _ => false

/-- The test `v.is<JsonArray>()`. -/
def isArray : JsonVariant F → Bool
  | array _ => true
  | _ => false

/-- Conversion to `JsonArray`: `none` is the null array (the value was not an array). -/
def asArray : JsonVariant F → Option (List (JsonVariant F))
  | array xs => some xs
  | _ => none

/-- Element access `state[i]` on a `JsonArray` that may be null: the null variant when the
array is null or `i` is past its end. -/
def elem (state : Option (List (JsonVariant F))) (i : Nat) : JsonVariant F :=
  match state with
  | some xs => xs.getD i null
  | none => null

/-- The expression `v | d` with a string default. -/
def orString (v : JsonVariant F) (d : String) : String :=
  match v with
  | string s => s
  | _ => d

/-- The expression `v | d` with a floating default. -/
def orFloat (v : JsonVariant F) (d : F) : F :=
  match v with
  | number x => x
  | _ => d

/-- The expression `v | d` with a boolean default. -/
def orBool (v : JsonVariant F) (d : Bool) : Bool :=
  match v with
  | bool b => b
  | _ => d

/-- The conversion `v.as<String>()`: the text of a string value, the serialised JSON of any
other value (`ser`, supplied by the library). -/
def asString (ser : JsonVariant F → String) (v : JsonVariant F) : String :=
  match v with
  | string s => s
  | other => ser other

end JsonVariant

/-- The test `isspace` of the C library. -/
def isspace (c : Char) : Bool :=
  c == ' ' || c == '\t' || c == '\n' || c == '\x0b' || c == '\x0c' || c == '\r'

/-- The method `String::trim`: leading and trailing white space removed. -/
def trim (s : String) : String :=
  String.mk (((s.data.dropWhile isspace).reverse.dropWhile isspace).reverse)

/-- The record `struct Aircraft`. -/
structure Aircraft (F : Type) where
  callsign : String
  icao24 : String
  latitude : F
  longitude : F
  altitude : F
  velocity : F
  heading : F
  verticalRate : F
  distance : F
  onGround : Bool
  lastSeen : Nat
  valid : Bool
  origin : String
  destination : String
deriving DecidableEq

/-- The local variables of one iteration of the scan loop, read from a state vector. -/
structure StateVector (F : Type) where
  icao24 : String
  callsign : String
  lon : F
  lat : F
  altitude : F
  onGround : Bool
  velocity : F
  heading : F
  vertRate : F
deriving DecidableEq

/-- The capacity `MAX_AIRCRAFT`. -/
def MAX_AIRCRAFT : Nat := 10

/-- One message written to `Serial` by the cycle (the formatted text is not kept). -/
inductive SerialEvent (F : Type) where
  | fetching : SerialEvent F
  | noAircraftFound : SerialEvent F
  | found (n : Nat) : SerialEvent F
  | stored (index : Nat) (callsign : String) (altitude : F) (dist : F) (onGround : Bool) :
      SerialEvent F
  | tracking (n : Nat) : SerialEvent F
  | jsonParseError : SerialEvent F
  | httpError (code : Int) : SerialEvent F
  | rateLimited : SerialEvent F
  | routeFetching (callsign : String) : SerialEvent F
  | routeFound (origin destination : String) : SerialEvent F
  | routeHttpError (code : Int) : SerialEvent F
  | radiusUpdated (value : F) : SerialEvent F
  | altitudeUpdated (value : F) : SerialEvent F
  | intervalUpdated (value : Int) : SerialEvent F
deriving DecidableEq

/-- Whether a `Serial` message reports a failed request. -/
def SerialEvent.isError {F : Type} : SerialEvent F → Bool
  | jsonParseError => true
  | httpError _ => true
  | rateLimited => true
  | _ => false

/-- The global variables the cycle and the handlers read and write. -/
structure Globals (F : Type) where
  currentSearchRadius : F
  currentMaxAltitude : F
  currentUpdateInterval : Int
  aircraft : Nat → Aircraft F
  aircraftCount : Nat
  lastUpdate : Nat
  lastDisplayRotation : Nat
  serial : List (SerialEvent F)

/-- An HTTP exchange: the status code `http.GET()` returned and the document parsed from
the body, `none` when `deserializeJson` reported an error. -/
structure HttpResponse (F : Type) where
  code : Int
  body : Option (JsonVariant F)

/-- Everything a cycle takes from outside the program. -/
structure Env (F : Type) where
  MY_LATITUDE : F
  MY_LONGITUDE : F
  calculateDistance : F → F → F → F → F
  wifiConnected : Bool
  feed : HttpResponse F
  route : String → HttpResponse F
  serializeJson : JsonVariant F → String
  millis : Nat

section Cycle

variable {F : Type} [Zero F] [One F] [Neg F] [LT F] [DecidableEq F]
  [DecidableRel (fun a b : F => a < b)]

/-- The registry: the first `aircraftCount` cells of the array, in index order. -/
def registry (g : Globals F) : List (Aircraft F) :=
  (List.range g.aircraftCount).map g.aircraft

/-- The body of the `route.size() >= 2` branch of `fetchRouteInfo`. -/
def applyRoute (env : Env F) (route : List (JsonVariant F)) (plane : Aircraft F) :
    Aircraft F × List (SerialEvent F) :=
  if route.length ≥ 2 then
    let origin := (route.getD 0 JsonVariant.null).asString env.serializeJson
    let destination := (route.getD (route.length - 1) JsonVariant.null).asString env.serializeJson
    ({ plane with origin := origin, destination := destination },
      [SerialEvent.routeFound origin destination])
  else (plane, [])

/-- The function `fetchRouteInfo(Aircraft &plane)`: the record after the call and the
messages printed. -/
def fetchRouteInfo (env : Env F) (plane : Aircraft F) : Aircraft F × List (SerialEvent F) :=
  if plane.callsign.length = 0 then (plane, [])
  else
    let cleanCallsign := trim plane.callsign
    if cleanCallsign.length = 0 then (plane, [])
    else
      let resp := env.route cleanCallsign
      if resp.code = 200 then
        match resp.body with
        | some doc =>
          if doc.containsKey "route" && (doc.member "route").isArray then
            match (doc.member "route").asArray with
            | some route =>
              let r := applyRoute env route plane
              (r.1, SerialEvent.routeFetching cleanCallsign :: r.2)
            | none => (plane, [SerialEvent.routeFetching cleanCallsign])
          else (plane, [SerialEvent.routeFetching cleanCallsign])
        | none => (plane, [SerialEvent.routeFetching cleanCallsign])
      else
        (plane, [SerialEvent.routeFetching cleanCallsign, SerialEvent.routeHttpError resp.code])

/-- The block `// Parse state vector`: the local variables read from one element of
`states`, each with the default its `|` gives. -/
def parseState (state : Option (List (JsonVariant F))) : StateVector F :=
  { icao24 := (JsonVariant.elem state 0).orString ""
    callsign := (JsonVariant.elem state 1).orString ""
    lon := (JsonVariant.elem state 5).orFloat 0
    lat := (JsonVariant.elem state 6).orFloat 0
    altitude := (JsonVariant.elem state 7).orFloat (-1)
    onGround := (JsonVariant.elem state 8).orBool false
    velocity := (JsonVariant.elem state 9).orFloat (-1)
    heading := (JsonVariant.elem state 10).orFloat (-1)
    vertRate := (JsonVariant.elem state 11).orFloat 0 }

/-- The block `// Store aircraft`: the assignments to the fields of `aircraft[aircraftCount]`
(`slot` is the cell before them; `lastSeen` is not assigned). -/
def storeAircraft (env : Env F) (slot : Aircraft F) (sv : StateVector F) : Aircraft F :=
  { slot with
    icao24 := sv.icao24
    callsign := trim sv.callsign
    latitude := sv.lat
    longitude := sv.lon
    altitude := sv.altitude
    velocity := sv.velocity
    heading := sv.heading
    verticalRate := sv.vertRate
    distance := env.calculateDistance env.MY_LATITUDE env.MY_LONGITUDE sv.lat sv.lon
    onGround := sv.onGround
    valid := true
    origin := ""
    destination := "" }

/-- The statements of the scan loop body that follow `if(aircraftCount >= MAX_AIRCRAFT) break;`:
parse the state vector, skip it (`continue`) or store it in `aircraft[aircraftCount]`. -/
def scanBody (env : Env F) (state : Option (List (JsonVariant F))) (g : Globals F) :
    Globals F :=
  let sv := parseState state
  if sv.lat = 0 ∧ sv.lon = 0 then g
  else
    if sv.onGround = false ∧ sv.altitude > g.currentMaxAltitude then g
    else
      let stored := storeAircraft env (g.aircraft g.aircraftCount) sv
      { g with
        aircraft := Function.update g.aircraft g.aircraftCount stored
        serial := g.serial ++
          [SerialEvent.stored g.aircraftCount stored.callsign sv.altitude stored.distance
            sv.onGround]
        aircraftCount := g.aircraftCount + 1 }

/-- The loop `for(JsonArray state : states)` with its `break` at capacity. -/
def scanLoop (env : Env F) : List (JsonVariant F) → Globals F → Globals F
  | [], g => g
  | state :: rest, g =>
    if g.aircraftCount ≥ MAX_AIRCRAFT then g
    else scanLoop env rest (scanBody env state.asArray g)

/-- Exchange of `aircraft[i]` and `aircraft[j]` through `temp`. -/
def swapAircraft (a : Nat → Aircraft F) (i j : Nat) : Nat → Aircraft F :=
  let temp := a i
  let a1 := Function.update a i (a j)
  Function.update a1 j temp

/-- The inner loop of the sort, `for(j; j < aircraftCount; j++)`, with `k` iterations left. -/
def sortInner (i : Nat) : Nat → Nat → (Nat → Aircraft F) → (Nat → Aircraft F)
  | 0, _, a => a
  | k + 1, j, a =>
    sortInner i k (j + 1) (if (a j).distance < (a i).distance then swapAircraft a i j else a)

/-- The outer loop of the sort, `for(i; i < aircraftCount - 1; i++)`, with `k` iterations
left; each runs the inner loop from `j = i + 1` to `aircraftCount - 1`. -/
def sortOuter (n : Nat) : Nat → Nat → (Nat → Aircraft F) → (Nat → Aircraft F)
  | 0, _, a => a
  | k + 1, i, a => sortOuter n k (i + 1) (sortInner i (n - (i + 1)) (i + 1) a)

/-- The block `// Sort by distance (closest first)`. -/
def sortByDistance (g : Globals F) : Globals F :=
  { g with aircraft := sortOuter g.aircraftCount (g.aircraftCount - 1) 0 g.aircraft }

/-- The block `if(aircraftCount > 0) fetchRouteInfo(aircraft[0]);`. -/
def enrichClosest (env : Env F) (g : Globals F) : Globals F :=
  if g.aircraftCount > 0 then
    let r := fetchRouteInfo env (g.aircraft 0)
    { g with aircraft := Function.update g.aircraft 0 r.1, serial := g.serial ++ r.2 }
  else g

/-- The branch of `updateAircraftData` taken when the body parsed: `doc` is the document. -/
def rebuild (env : Env F) (doc : JsonVariant F) (g : Globals F) : Globals F :=
  match (doc.member "states").asArray with
  | none => { g with serial := g.serial ++ [SerialEvent.noAircraftFound], aircraftCount := 0 }
  | some states =>
    if states.length = 0 then
      { g with serial := g.serial ++ [SerialEvent.noAircraftFound], aircraftCount := 0 }
    else
      let g1 : Globals F :=
        { g with serial := g.serial ++ [SerialEvent.found states.length], aircraftCount := 0 }
      let g2 := scanLoop env states g1
      let g3 := sortByDistance g2
      let g4 : Globals F := { g3 with serial := g3.serial ++ [SerialEvent.tracking g3.aircraftCount] }
      enrichClosest env g4

/-- The function `updateAircraftData()`. -/
def updateAircraftData (env : Env F) (g : Globals F) : Globals F :=
  if env.wifiConnected = false then g
  else
    let g0 : Globals F := { g with serial := g.serial ++ [SerialEvent.fetching] }
    let g1 : Globals F :=
      if env.feed.code = 200 then
        match env.feed.body with
        | some doc => rebuild env doc g0
        | none => { g0 with serial := g0.serial ++ [SerialEvent.jsonParseError] }
      else
        { g0 with
          serial := g0.serial ++ SerialEvent.httpError env.feed.code ::
            (if env.feed.code = 429 then [SerialEvent.rateLimited] else []) }
    { g1 with lastUpdate := env.millis }

end Cycle

section Settings

variable {F : Type}

/-- The body of a `POST /api/settings` request as the handler reads it: a field is `some v`
when `doc.containsKey` holds for its key, and `v` is what `doc[key].as<float>()` (for
`interval`, `as<int>()`) returns; a body that does not parse has no key. -/
structure SettingsDoc (F : Type) where
  radius : Option F
  altitude : Option F
  interval : Option Int

/-- The body handler of `POST /api/settings`. -/
def apiSettings (doc : SettingsDoc F) (g : Globals F) : Globals F :=
  let g1 : Globals F :=
    match doc.radius with
    | some v =>
      { g with currentSearchRadius := v, serial := g.serial ++ [SerialEvent.radiusUpdated v] }
    | none => g
  let g2 : Globals F :=
    match doc.altitude with
    | some v =>
      { g1 with currentMaxAltitude := v, serial := g1.serial ++ [SerialEvent.altitudeUpdated v] }
    | none => g1
  match doc.interval with
  | some v =>
    { g2 with currentUpdateInterval := v, serial := g2.serial ++ [SerialEvent.intervalUpdated v] }
  | none => g2

/-- The JSON object `GET /api/status` answers with. -/
structure StatusResponse (F : Type) where
  aircraft : Nat
  radius : F
  altitude : F
  interval : Int

/-- The handler of `GET /api/status`. -/
def apiStatus (g : Globals F) : StatusResponse F :=
  { aircraft := g.aircraftCount, radius := g.currentSearchRadius,
    altitude := g.currentMaxAltitude, interval := g.currentUpdateInterval }

/-- The state after a sequence of configuration writes, applied in order. -/
def applyWrites (docs : List (SettingsDoc F)) (g : Globals F) : Globals F :=
  docs.foldl (fun s doc => apiSettings doc s) g

/-- The value constraints of the settings as the specification words them:
`0 < search_radius_km <= 250`, `max_altitude_m > 0`, `poll_interval_s >= 1`. -/
def validSettings [LinearOrderedRing F] (g : Globals F) : Prop :=
  (0 < g.currentSearchRadius ∧ g.currentSearchRadius ≤ 250) ∧
    0 < g.currentMaxAltitude ∧ 1 ≤ g.currentUpdateInterval

/-- A write every present value of which meets the constraint of its setting. -/
def validWrite [LinearOrderedRing F] (doc : SettingsDoc F) : Prop :=
  (∀ v ∈ doc.radius, 0 < v ∧ v ≤ 250) ∧ (∀ v ∈ doc.altitude, 0 < v) ∧
    (∀ v ∈ doc.interval, 1 ≤ v)

end Settings

/-! ## What a cycle retains, stated on the feed -/

section Retained

variable {F : Type} [LinearOrderedRing F]

/-- The two tests of the scan loop body on a parsed state vector: it has a position, and it
is not an airborne record above the altitude ceiling. -/
def passes (maxAlt : F) (sv : StateVector F) : Bool :=
  decide (¬ (sv.lat = 0 ∧ sv.lon = 0)) && decide (¬ (sv.onGround = false ∧ sv.altitude > maxAlt))

/-- The elements of `states` a response carries: none when `states` is absent, null or not
an array. -/
def feedStates (doc : JsonVariant F) : List (JsonVariant F) :=
  ((doc.member "states").asArray).getD []

/-- The parsed state vectors of a feed that pass both tests, in feed order. -/
def survivors (maxAlt : F) (states : List (JsonVariant F)) : List (StateVector F) :=
  (states.map (fun s => parseState s.asArray)).filter (passes maxAlt)

/-- The first `MAX_AIRCRAFT` survivors, in feed order. -/
def retained (maxAlt : F) (states : List (JsonVariant F)) : List (StateVector F) :=
  (survivors maxAlt states).take MAX_AIRCRAFT

/-- The records of the retained state vectors: the `k`-th is stored over cell `k`. -/
def scanRecords (env : Env F) (g : Globals F) (states : List (JsonVariant F)) :
    List (Aircraft F) :=
  (retained g.currentMaxAltitude states).enum.map
    (fun p => storeAircraft env (g.aircraft p.1) p.2)

/-- A record with its route fields emptied. -/
def eraseRoute (r : Aircraft F) : Aircraft F :=
  { r with origin := "", destination := "" }

end Retained

/-! ## Worked feeds

Concrete inputs with whole-number coordinates and altitudes (`F = ℤ`).  The observer is at the origin and the squared planar distance
stands in for `calculateDistance` (the statements below hold for every distance function);
it gives record `a1` the distance 50 and record `b2` the distance 10. -/

section Scenarios

/-- One element of `states`: the twelve leading fields of a state vector, the unused ones
null. -/
def stateOf (icao24 callsign : String) (lon lat altitude : ℤ) (onGround : Bool) :
    JsonVariant ℤ :=
  .array [.string icao24, .string callsign, .null, .null, .null, .number lon, .number lat,
    .number altitude, .bool onGround, .number 200, .number 90, .number 0]

/-- A response body with the given `states`. -/
def feedOf (states : List (JsonVariant ℤ)) : JsonVariant ℤ :=
  .object [("time", .number 0), ("states", .array states)]

/-- State vector A: airborne at 9000 m, distance 50. -/
def stateA : JsonVariant ℤ := stateOf "a1" "ALPHA1  " 1 7 9000 false

/-- State vector B: airborne at 9000 m, distance 10. -/
def stateB : JsonVariant ℤ := stateOf "b2" "BRAVO2  " 1 3 9000 false

/-- State vector H: airborne at 13000 m, above a 12000 m ceiling. -/
def stateH : JsonVariant ℤ := stateOf "h4" "HOTEL4  " 2 1 13000 false

/-- State vector G: on the ground, reported altitude 20000 m, distance 8. -/
def stateG : JsonVariant ℤ := stateOf "g3" "GOLF3   " 2 2 20000 true

/-- State vector Z: no position (both coordinates null). -/
def stateZ : JsonVariant ℤ :=
  .array [.string "z5", .string "ZULU5   ", .null, .null, .null, .null, .null,
    .number 1000, .bool false]

/-- State vector D: a second vector with the identifier of A, distance 2. -/
def stateD : JsonVariant ℤ := stateOf "a1" "ALPHA1  " 1 1 9000 false

/-- An environment whose feed request answers 200 with the given states and whose route
lookup answers 404. -/
def envOf (states : List (JsonVariant ℤ)) : Env ℤ :=
  { MY_LATITUDE := 0
    MY_LONGITUDE := 0
    calculateDistance :=
      (fun lat1 lon1 lat2 lon2 => (lat2 - lat1) * (lat2 - lat1) + (lon2 - lon1) * (lon2 - lon1))
    wifiConnected := true
    feed := { code := 200, body := some (feedOf states) }
    route := (fun _ => { code := 404, body := none })
    serializeJson := (fun _ => "")
    millis := 60000 }

/-- A feed with one vector of each kind: A, H, Z, G, B, then D repeating the identifier
of A. -/
def mixedStates : List (JsonVariant ℤ) := [stateA, stateH, stateZ, stateG, stateB, stateD]

/-- A zero-initialised record. -/
def blankAircraft : Aircraft ℤ :=
  { callsign := "", icao24 := "", latitude := 0, longitude := 0, altitude := 0, velocity := 0,
    heading := 0, verticalRate := 0, distance := 0, onGround := false, lastSeen := 0,
    valid := false, origin := "", destination := "" }

/-- The globals at start-up with radius 100 km, ceiling 12000 m and a 30 s interval. -/
def startGlobals : Globals ℤ :=
  { currentSearchRadius := 100
    currentMaxAltitude := 12000
    currentUpdateInterval := 30
    aircraft := (fun _ => blankAircraft)
    aircraftCount := 0
    lastUpdate := 0
    lastDisplayRotation := 0
    serial := [] }

/-- The globals after one successful cycle over the feed A then B. -/
def trackedGlobals : Globals ℤ :=
  updateAircraftData (envOf [stateA, stateB]) startGlobals

/-- An environment whose feed request answers HTTP 429. -/
def envRateLimited : Env ℤ :=
  { envOf [] with feed := { code := 429, body := none }, millis := 90000 }

/-- The write `{"radius": 50}`. -/
def writeRadius50 : SettingsDoc ℤ := { radius := some 50, altitude := none, interval := none }

/-- The write `{"altitude": 8000, "interval": 10}`. -/
def writeAltitudeInterval : SettingsDoc ℤ :=
  { radius := none, altitude := some 8000, interval := some 10 }

/-- The write `{"radius": -5}`. -/
def writeRadiusNegative : SettingsDoc ℤ :=
  { radius := some (-5), altitude := none, interval := none }

end Scenarios

/-! ## Distance and compass sector -/

section GeoMath

/-- The constant and the functions of `Arduino.h` and `<math.h>` that `calculateDistance`
calls. -/
structure Libm (F : Type) where
  PI : F
  sin : F → F
  cos : F → F
  sqrt : F → F
  atan2 : F → F → F

/-- The function `calculateDistance(lat1, lon1, lat2, lon2)`: the Haversine formula with
Earth radius 6371 km. -/
def calculateDistance {F : Type} [Field F] (m : Libm F) (lat1 lon1 lat2 lon2 : F) : F :=
  let R : F := 6371
  let dLat := (lat2 - lat1) * m.PI / 180
  let dLon := (lon2 - lon1) * m.PI / 180
  let a := m.sin (dLat / 2) * m.sin (dLat / 2) +
    m.cos (lat1 * m.PI / 180) * m.cos (lat2 * m.PI / 180) *
    m.sin (dLon / 2) * m.sin (dLon / 2)
  let c := 2 * m.atan2 (m.sqrt a) (m.sqrt (1 - a))
  R * c

/-- The library in exact real arithmetic: `π`, sine, cosine, square root, and `atan2 y x`,
the angle in `(-π, π]` of the point `(x, y)`. -/
noncomputable def realLibm : Libm ℝ :=
  { PI := Real.pi
    sin := Real.sin
    cos := Real.cos
    sqrt := Real.sqrt
    atan2 := (fun y x => Complex.arg ⟨x, y⟩) }

/-- The function `getCompassDirection(heading)`. -/
def getCompassDirection {F : Type} [LinearOrderedField F] (heading : F) : String :=
  if heading < 0 then "?"
  else if heading ≥ 337.5 ∨ heading < 22.5 then "N"
  else if heading ≥ 22.5 ∧ heading < 67.5 then "NE"
  else if heading ≥ 67.5 ∧ heading < 112.5 then "E"
  else if heading ≥ 112.5 ∧ heading < 157.5 then "SE"
  else if heading ≥ 157.5 ∧ heading < 202.5 then "S"
  else if heading ≥ 202.5 ∧ heading < 247.5 then "SW"
  else if heading ≥ 247.5 ∧ heading < 292.5 then "W"
  else if heading ≥ 292.5 ∧ heading < 337.5 then "NW"
  else "?"

end GeoMath

/-! ## The main loop and the states the sketch can reach -/

section Loop

variable {F : Type} [LinearOrderedRing F]

/-- A call to one of the two drawing functions `loop` uses: `drawRadarScan(0)`, the idle
display, or `drawAircraft(plane)`. -/
inductive DisplayRequest (F : Type) where
  | radarScan : DisplayRequest F
  | aircraft (plane : Aircraft F) : DisplayRequest F
deriving DecidableEq

/-- The globals together with the static local `lastRadarDraw` of `loop` and the drawing
calls made so far. -/
structure Device (F : Type) where
  globals : Globals F
  lastRadarDraw : Nat
  display : List (DisplayRequest F)

/-- The difference `now - last` of two `unsigned long` values (32 bits on this target). -/
def elapsedMillis (now last : Nat) : Nat :=
  (now % 2 ^ 32 + 2 ^ 32 - last % 2 ^ 32) % 2 ^ 32

/-- The right-hand side `currentUpdateInterval * 1000` of the acquisition test, converted
to `unsigned long` for the comparison.  A product outside the `int` range is undefined by
the language; the multiplication of the target wraps it modulo `2 ^ 32`, and that is what
the conversion here gives. -/
def updateThreshold (g : Globals F) : Nat :=
  ((g.currentUpdateInterval * 1000) % 2 ^ 32).toNat

/-- The function `loop()`, entered when `millis()` reads `currentMillis`; `env` answers the
requests of the acquisition cycle if one runs. -/
def loop (env : Env F) (currentMillis : Nat) (d : Device F) : Device F :=
  let g1 : Globals F :=
    if elapsedMillis currentMillis d.globals.lastUpdate ≥ updateThreshold d.globals then
      updateAircraftData env d.globals
    else d.globals
  if g1.aircraftCount = 0 then
    if elapsedMillis currentMillis d.lastRadarDraw ≥ 1000 then
      { globals := g1
        lastRadarDraw := currentMillis
        display := d.display ++ [DisplayRequest.radarScan] }
    else { d with globals := g1 }
  else
    if elapsedMillis currentMillis g1.lastDisplayRotation ≥ 500 then
      { d with
        globals := { g1 with lastDisplayRotation := currentMillis }
        display := d.display ++ [DisplayRequest.aircraft (g1.aircraft 0)] }
    else { d with globals := g1 }

/-- A cell of the zero-initialised global array. -/
def zeroAircraft : Aircraft F :=
  { callsign := "", icao24 := "", latitude := 0, longitude := 0, altitude := 0, velocity := 0,
    heading := 0, verticalRate := 0, distance := 0, onGround := false, lastSeen := 0,
    valid := false, origin := "", destination := "" }

/-- The device when `setup()` starts: the three settings hold the constants of `secrets.h`,
every other global is zero. -/
def initialDevice (SEARCH_RADIUS_KM MAX_ALTITUDE_M : F) (UPDATE_INTERVAL_SEC : Int) :
    Device F :=
  { globals :=
      { currentSearchRadius := SEARCH_RADIUS_KM
        currentMaxAltitude := MAX_ALTITUDE_M
        currentUpdateInterval := UPDATE_INTERVAL_SEC
        aircraft := (fun _ => zeroAircraft)
        aircraftCount := 0
        lastUpdate := 0
        lastDisplayRotation := 0
        serial := [] }
    lastRadarDraw := 0
    display := [] }

/-- The states the sketch reaches: the start, then in any order a call of
`updateAircraftData` (the first fetch of `setup()`, or `GET /api/update`), a configuration
write, or one pass of `loop()`. -/
inductive Reachable : Device F → Prop where
  | start (radius altitude : F) (interval : Int) :
      Reachable (initialDevice radius altitude interval)
  | update (env : Env F) (d : Device F) :
      Reachable d → Reachable { d with globals := updateAircraftData env d.globals }
  | write (doc : SettingsDoc F) (d : Device F) :
      Reachable d → Reachable { d with globals := apiSettings doc d.globals }
  | tick (env : Env F) (currentMillis : Nat) (d : Device F) :
      Reachable d → Reachable (loop env currentMillis d)

/-- The ways the route lookup of `fetchRouteInfo` ends without a route: a status other than
200, a body that does not parse, no `route` key, a `route` that is not an array, or an array
of fewer than two entries. -/
def routeLookupFails (resp : HttpResponse F) : Prop :=
  resp.code ≠ 200 ∨ resp.body = none ∨
    ∃ doc, resp.body = some doc ∧
      (doc.containsKey "route" = false ∨ (doc.member "route").isArray = false ∨
        ∃ route, doc.member "route" = JsonVariant.array route ∧ route.length < 2)

end Loop

/-! ## Worked lookups and ticks -/

section Scenarios2

/-- A route response `{"route": [...]}` with status 200. -/
def routeResponse (codes : List String) : HttpResponse ℤ :=
  { code := 200
    body := some (.object [("route", .array (codes.map (fun c => JsonVariant.string c)))]) }

/-- An environment with the given feed whose route lookup knows one callsign, `ALPHA1`,
with the three-leg route EYVI, EDDF, EGLL. -/
def envWithRoute (states : List (JsonVariant ℤ)) : Env ℤ :=
  { envOf states with
    route := (fun cs =>
      if cs = "ALPHA1" then routeResponse ["EYVI", "EDDF", "EGLL"]
      else { code := 404, body := none }) }

/-- An environment with the given feed whose route lookup answers every callsign with the
single-element route EYVI. -/
def envSingleRoute (states : List (JsonVariant ℤ)) : Env ℤ :=
  { envOf states with route := (fun _ => routeResponse ["EYVI"]) }

/-- The globals after a cycle over the mixed feed in which the nearest record, D with
callsign `ALPHA1`, received the route EYVI to EGLL. -/
def routedGlobals : Globals ℤ :=
  updateAircraftData (envWithRoute mixedStates) startGlobals

/-- The device at start-up with the settings of `startGlobals`. -/
def startDevice : Device ℤ := initialDevice 100 12000 30

/-- The device after a first cycle over the feed A then B. -/
def trackedDevice : Device ℤ :=
  { startDevice with globals := updateAircraftData (envOf [stateA, stateB]) startDevice.globals }

end Scenarios2

/-! ## Bounding box corners, Haversine intermediate, summary screen -/

section Geometry2

/-- The four corners `minLat`, `maxLat`, `minLon`, `maxLon` of the query. -/
structure BoundingBox (F : Type) where
  minLat : F
  maxLat : F
  minLon : F
  maxLon : F

/-- The local variable `a` of `calculateDistance`. -/
def haversineA {F : Type} [Field F] (m : Libm F) (lat1 lon1 lat2 lon2 : F) : F :=
  let dLat := (lat2 - lat1) * m.PI / 180
  let dLon := (lon2 - lon1) * m.PI / 180
  m.sin (dLat / 2) * m.sin (dLat / 2) +
    m.cos (lat1 * m.PI / 180) * m.cos (lat2 * m.PI / 180) *
    m.sin (dLon / 2) * m.sin (dLon / 2)

/-- The rows of `drawSummary()`: for each `i` below `showCount = min(aircraftCount, 3)` the
index and the record `aircraft[i]` the row is printed from; no row when the count is 0. -/
def drawSummary {F : Type} (g : Globals F) : List (Nat × Aircraft F) :=
  if g.aircraftCount = 0 then []
  else (List.range (min g.aircraftCount 3)).map (fun i => (i, g.aircraft i))

/-- The index a `stored` message prints: the value of `aircraftCount` at the write
`aircraft[aircraftCount]`. -/
def SerialEvent.storedIndex {F : Type} : SerialEvent F → Option Nat
  | SerialEvent.stored index _ _ _ _ => some index
  | _ => none

end Geometry2

/-! ## Worked feeds with ties and with more than ten survivors -/

section Scenarios3

/-- State vector X: distance 2. -/
def stateX : JsonVariant ℤ := stateOf "x1" "XRAY1   " 1 1 9000 false

/-- State vector Y: distance 2, like X. -/
def stateY : JsonVariant ℤ := stateOf "y2" "YANKEE2 " 1 (-1) 9000 false

/-- State vector W: distance 1. -/
def stateW : JsonVariant ℤ := stateOf "w3" "WHISKY3 " 0 1 9000 false

/-- Ten state vectors at distances 10, 17, 26, ..., 145, all passing, followed by the
vector W at distance 1. -/
def crowdedStates : List (JsonVariant ℤ) :=
  [stateOf "c0" "CROWD0" 1 3 9000 false, stateOf "c1" "CROWD1" 1 4 9000 false,
   stateOf "c2" "CROWD2" 1 5 9000 false, stateOf "c3" "CROWD3" 1 6 9000 false,
   stateOf "c4" "CROWD4" 1 7 9000 false, stateOf "c5" "CROWD5" 1 8 9000 false,
   stateOf "c6" "CROWD6" 1 9 9000 false, stateOf "c7" "CROWD7" 1 10 9000 false,
   stateOf "c8" "CROWD8" 1 11 9000 false, stateOf "c9" "CROWD9" 1 12 9000 false,
   stateW]

end Scenarios3

/-! ## IEEE 754 arithmetic

The claims on the bounding box, on the range of `calculateDistance` and on the order of
the registry depend on what the `float` and `double` operations of the sketch return at
the edge of their range.  This part embeds them: a value is a finite number, an infinity
or a NaN; every arithmetic operation computes the exact result and rounds it once, to
nearest with ties to even, into the format of its C++ type (`binary32` for `float`,
`binary64` for `double`), overflowing to an infinity past the largest finite value.  The
two zeros are not told apart (a division by zero takes its sign from the dividend), and
no operation is contracted into a fused multiply-add. -/

section Ieee754

/-- A value of an IEEE 754 binary format: a finite number, `+inf` or `-inf`, or a NaN. -/
inductive Ieee where
  | finite (q : ℚ)
  | inf (negative : Bool)
  | nan
deriving DecidableEq

/-- The integer nearest to `y`, the even one of the two when `y` lies half-way. -/
def roundHalfEven (y : ℚ) : ℤ :=
  let n := ⌊y⌋
  if y - n < 1 / 2 then n
  else if 1 / 2 < y - n then n + 1
  else if n % 2 = 0 then n else n + 1

/-- The halving loop behind `leadingBit`; `fuel` bounds the number of steps. -/
def bitLengthAux : Nat → Nat → Nat
  | 0, _ => 0
  | fuel + 1, n => if n < 2 then 0 else bitLengthAux fuel (n / 2) + 1

/-- The position of the leading binary digit of `n`: the largest `k` with `2 ^ k <= n`
(`0` for `n = 0`). -/
def leadingBit (n : Nat) : Nat := bitLengthAux n n

/-- The binary exponent of a positive number: the `e` with `2 ^ e <= q < 2 ^ (e + 1)`. -/
def floorLog2 (q : ℚ) : ℤ :=
  let e : ℤ := (leadingBit q.num.natAbs : ℤ) - (leadingBit q.den : ℤ)
  if (2 : ℚ) ^ e ≤ q then e else e - 1

/-- A binary floating-point format: the number of significant bits and the least and
greatest exponent of a normal number. -/
structure FloatFormat where
  prec : Nat
  emin : Int
  emax : Int

/-- The format of `float`. -/
def binary32 : FloatFormat := { prec := 24, emin := -126, emax := 127 }

/-- The format of `double`. -/
def binary64 : FloatFormat := { prec := 53, emin := -1022, emax := 1023 }

namespace FloatFormat

/-- The spacing of the format around the positive number `x`: `2 ^ (e - prec + 1)` for the
binary exponent `e` of `x`, and that of the least normal exponent below it (the
subnormal numbers). -/
def ulp (f : FloatFormat) (x : ℚ) : ℚ :=
  2 ^ (max (floorLog2 x) f.emin - ((f.prec : ℤ) - 1))

/-- The multiple of the spacing nearest to the positive number `x`, ties to even. -/
def roundMag (f : FloatFormat) (x : ℚ) : ℚ :=
  (roundHalfEven (x / f.ulp x) : ℚ) * f.ulp x

/-- Rounding of an exact result into the format: to nearest, ties to even; a result that
rounds to `2 ^ (emax + 1)` or more overflows to the infinity of its sign. -/
def round (f : FloatFormat) (q : ℚ) : Ieee :=
  if q = 0 then Ieee.finite 0
  else if (2 : ℚ) ^ (f.emax + 1) ≤ f.roundMag |q| then Ieee.inf (decide (q < 0))
  else Ieee.finite (if q < 0 then -f.roundMag |q| else f.roundMag |q|)

/-- Conversion of a value into the format (the assignment of a `double` result to a `float`
variable; the promotion of a `float` to `double` changes nothing). -/
def cast (f : FloatFormat) : Ieee → Ieee
  | Ieee.finite q => f.round q
  | x => x

/-- The sum `a + b` computed in the format. -/
def add (f : FloatFormat) : Ieee → Ieee → Ieee
  | Ieee.finite a, Ieee.finite b => f.round (a + b)
  | Ieee.finite _, Ieee.inf s => Ieee.inf s
  | Ieee.inf s, Ieee.finite _ => Ieee.inf s
  | Ieee.inf s, Ieee.inf t => if s = t then Ieee.inf s else Ieee.nan
  | _, _ => Ieee.nan

/-- The difference `a - b` computed in the format. -/
def sub (f : FloatFormat) : Ieee → Ieee → Ieee
  | Ieee.finite a, Ieee.finite b => f.round (a - b)
  | Ieee.finite _, Ieee.inf s => Ieee.inf (!s)
  | Ieee.inf s, Ieee.finite _ => Ieee.inf s
  | Ieee.inf s, Ieee.inf t => if s = t then Ieee.nan else Ieee.inf s
  | _, _ => Ieee.nan

/-- The product `a * b` computed in the format. -/
def mul (f : FloatFormat) : Ieee → Ieee → Ieee
  | Ieee.finite a, Ieee.finite b => f.round (a * b)
  | Ieee.finite a, Ieee.inf s => if a = 0 then Ieee.nan else Ieee.inf (decide (a < 0) != s)
  | Ieee.inf s, Ieee.finite b => if b = 0 then Ieee.nan else Ieee.inf (s != decide (b < 0))
  | Ieee.inf s, Ieee.inf t => Ieee.inf (s != t)
  | _, _ => Ieee.nan

/-- The quotient `a / b` computed in the format: a non-zero number over zero is an
infinity, zero over zero and infinity over infinity are NaN. -/
def div (f : FloatFormat) : Ieee → Ieee → Ieee
  | Ieee.finite a, Ieee.finite b =>
    if b = 0 then (if a = 0 then Ieee.nan else Ieee.inf (decide (a < 0)))
    else f.round (a / b)
  | Ieee.finite _, Ieee.inf _ => Ieee.finite 0
  | Ieee.inf s, Ieee.finite b => Ieee.inf (s != decide (b < 0))
  | _, _ => Ieee.nan

end FloatFormat

namespace Ieee

/-- The negation `-a`. -/
def neg : Ieee → Ieee
  | finite q => finite (-q)
  | inf s => inf (!s)
  | nan => nan

/-- The comparison `a < b`: false as soon as one side is a NaN. -/
def lt : Ieee → Ieee → Bool
  | finite a, finite b => decide (a < b)
  | finite _, inf s => !s
  | inf s, finite _ => s
  | inf s, inf t => s && !t
  | _, _ => false

/-- The comparison `a <= b`: false as soon as one side is a NaN. -/
def le : Ieee → Ieee → Bool
  | finite a, finite b => decide (a ≤ b)
  | finite _, inf s => !s
  | inf s, finite _ => s
  | inf s, inf t => s || !t
  | _, _ => false

/-- Whether the value is a finite number. -/
def isFinite : Ieee → Bool
  | finite _ => true
  | _ => false

instance : Zero Ieee := ⟨finite 0⟩

instance : One Ieee := ⟨finite 1⟩

instance : Neg Ieee := ⟨neg⟩

instance : LT Ieee := ⟨fun a b => lt a b = true⟩

instance : LE Ieee := ⟨fun a b => le a b = true⟩

instance : DecidableRel (fun a b : Ieee => a < b) :=
  fun a b => inferInstanceAs (Decidable (lt a b = true))

instance : DecidableRel (fun a b : Ieee => a ≤ b) :=
  fun a b => inferInstanceAs (Decidable (le a b = true))

/-- The local variable `a` of `calculateDistance` as the sketch computes it.  The
arguments are `float`; `PI` and `180.0` are `double`, so each angle is computed in
`double` and, for `dLat` and `dLon`, stored in a `float`.  Overload resolution selects the
`float` sine for `sin(dLat/2)` and `sin(dLon/2)` and the `double` cosine for
`cos(lat * PI / 180.0)`: the first product is a `float` product, the second term and the
sum are `double`, and the sum is stored in the `float a`. -/
def haversineA (m : Libm Ieee) (lat1 lon1 lat2 lon2 : Ieee) : Ieee :=
  let dLat := binary32.cast
    (binary64.div (binary64.mul (binary32.sub lat2 lat1) m.PI) (finite 180))
  let dLon := binary32.cast
    (binary64.div (binary64.mul (binary32.sub lon2 lon1) m.PI) (finite 180))
  binary32.cast
    (binary64.add
      (binary32.mul (m.sin (binary32.div dLat (finite 2)))
        (m.sin (binary32.div dLat (finite 2))))
      (binary64.mul
        (binary64.mul
          (binary64.mul (m.cos (binary64.div (binary64.mul lat1 m.PI) (finite 180)))
            (m.cos (binary64.div (binary64.mul lat2 m.PI) (finite 180))))
          (m.sin (binary32.div dLon (finite 2))))
        (m.sin (binary32.div dLon (finite 2)))))

/-- The function `calculateDistance(lat1, lon1, lat2, lon2)` as the sketch computes it:
`sqrt`, `atan2`, the factor 2 and the product with `R = 6371.0` are `float` operations.
Of the library record, `sin`, `sqrt` and `atan2` are the `float` overloads and `cos` the
`double` one. -/
def calculateDistance (m : Libm Ieee) (lat1 lon1 lat2 lon2 : Ieee) : Ieee :=
  let R := finite 6371
  let dLat := binary32.cast
    (binary64.div (binary64.mul (binary32.sub lat2 lat1) m.PI) (finite 180))
  let dLon := binary32.cast
    (binary64.div (binary64.mul (binary32.sub lon2 lon1) m.PI) (finite 180))
  let a := binary32.cast
    (binary64.add
      (binary32.mul (m.sin (binary32.div dLat (finite 2)))
        (m.sin (binary32.div dLat (finite 2))))
      (binary64.mul
        (binary64.mul
          (binary64.mul (m.cos (binary64.div (binary64.mul lat1 m.PI) (finite 180)))
            (m.cos (binary64.div (binary64.mul lat2 m.PI) (finite 180))))
          (m.sin (binary32.div dLon (finite 2))))
        (m.sin (binary32.div dLon (finite 2)))))
  let c := binary32.mul (finite 2) (m.atan2 (m.sqrt a) (m.sqrt (binary32.sub (finite 1) a)))
  binary32.mul R c

end Ieee

/-- The block `// Calculate bounding box` of `updateAircraftData`, for the observer
`(lat, lon)` (the macros `MY_LATITUDE` and `MY_LONGITUDE` of `secrets.h`, taken as
`double` constants) and the `float` radius `currentSearchRadius`.  Each right-hand side is
a `double` expression stored in a `float`; there is no test on the divisor and no clamp on
a result. -/
def boundingBox (m : Libm Ieee) (lat lon radius : Ieee) : BoundingBox Ieee :=
  let latDelta := binary32.cast (binary64.div radius (Ieee.finite 111))
  let lonDelta := binary32.cast
    (binary64.div radius
      (binary64.mul (Ieee.finite 111)
        (m.cos (binary64.div (binary64.mul lat m.PI) (Ieee.finite 180)))))
  { minLat := binary32.cast (binary64.sub lat latDelta)
    maxLat := binary32.cast (binary64.add lat latDelta)
    minLon := binary32.cast (binary64.sub lon lonDelta)
    maxLon := binary32.cast (binary64.add lon lonDelta) }

/-- The library at the arguments the worked examples below reach; elsewhere the table
answers NaN.  `PI` is the `double` nearest to π, `3.141592653589793`.  `float` sine: of `0`
it is `0`, of `1.5707964` it is `1`, of `-1.0210177` it is `-0.8526402`, of `0.008726646`
it is `0.008726535`.  `double` cosine: of `0` it is `1`, of `±1.0210176124166828` it is
`0.5224985647159489`, of `1.038470904936626` it is `0.5075383629607042`, of
`1.5707963267948966` it is `6.123233995736766e-17`.  `float` square root, correctly rounded
as IEEE 754 requires: `0`, `1`, `1` again for `1.0000001`, `0.008726535` for
`7.615242e-05`, `0.9999619` for `0.9999238`, and a NaN below zero.  `float` `atan2`: of
`(0, 1)` it is `0`, of `(1, 0)` it is `1.5707964`, of `(0.008726535, 0.9999619)` it is
`0.008726646`, and a NaN when an argument is.  Each sine, cosine and arc tangent is the
correctly rounded value and lies more than 0.1 units in the last place from a rounding
boundary, so a library accurate to 0.6 units returns it. -/
def libmTable : Libm Ieee :=
  { PI := Ieee.finite (884279719003555 / 281474976710656)
    sin := (fun x =>
      if x = Ieee.finite 0 then Ieee.finite 0
      else if x = Ieee.finite (13176795 / 8388608) then Ieee.finite 1
      else if x = Ieee.finite (-8564917 / 8388608) then Ieee.finite (-14304929 / 16777216)
      else if x = Ieee.finite (9370165 / 1073741824) then Ieee.finite (4685023 / 536870912)
      else Ieee.nan)
    cos := (fun x =>
      if x = Ieee.finite 0 then Ieee.finite 1
      else if x = Ieee.finite (2299127269409243 / 2251799813685248) ∨
          x = Ieee.finite (-2299127269409243 / 2251799813685248) then
        Ieee.finite (4706248682712733 / 9007199254740992)
      else if x = Ieee.finite (4676857180507691 / 4503599627370496) then
        Ieee.finite (2285749582306059 / 4503599627370496)
      else if x = Ieee.finite (884279719003555 / 562949953421312) then
        Ieee.finite (4967757600021511 / 81129638414606681695789005144064)
      else Ieee.nan)
    sqrt := (fun x =>
      match x with
      | Ieee.finite q =>
        if q < 0 then Ieee.nan
        else if q = 0 then Ieee.finite 0
        else if q = 1 ∨ q = 8388609 / 8388608 then Ieee.finite 1
        else if q = 10466309 / 137438953472 then Ieee.finite (4685023 / 536870912)
        else if q = 8387969 / 8388608 then Ieee.finite (16776577 / 16777216)
        else Ieee.nan
      | Ieee.inf false => Ieee.inf false
      | _ => Ieee.nan)
    atan2 := (fun y x =>
      if y = Ieee.nan ∨ x = Ieee.nan then Ieee.nan
      else if y = Ieee.finite 0 ∧ x = Ieee.finite 1 then Ieee.finite 0
      else if y = Ieee.finite 1 ∧ x = Ieee.finite 0 then Ieee.finite (13176795 / 8388608)
      else if y = Ieee.finite (4685023 / 536870912) ∧
          x = Ieee.finite (16776577 / 16777216) then
        Ieee.finite (9370165 / 1073741824)
      else Ieee.nan) }

end Ieee754

/-! ## The retained set as the specification words it

"Truncate to the first N records encountered that pass filtering (N=10)", on the raw
states of the feed: a second reading of the feed, independent of `parseState` and
`storeAircraft`, to compare the registry with. -/

section SpecRegistry

variable {F : Type}

end SpecRegistry

/-! ## Worked inputs: a feed of raw states, an interval past the `int` range, an antipode -/

section Scenarios4

/-- One element of `states` with `float` fields. -/
def stateOfFloat (icao24 callsign : String) (lon lat altitude : ℚ) (onGround : Bool) :
    JsonVariant Ieee :=
  .array [.string icao24, .string callsign, .null, .null, .null,
    .number (Ieee.finite lon), .number (Ieee.finite lat), .number (Ieee.finite altitude),
    .bool onGround, .number (Ieee.finite 200), .number (Ieee.finite 90),
    .number (Ieee.finite 0)]

/-- State vector N: airborne at 9000 m at latitude -58.5, longitude 180, the antipode of
the observer of `antipodeEnv`. -/
def stateN : JsonVariant Ieee := stateOfFloat "n1" "NOVEMBER" 180 (-117 / 2) 9000 false

/-- State vector O: airborne at 9000 m at latitude 58.5, longitude 0, right above the
observer of `antipodeEnv`. -/
def stateO : JsonVariant Ieee := stateOfFloat "o2" "OSCAR2" 0 (117 / 2) 9000 false

/-- State vector P: airborne at 9000 m at latitude 59.5, longitude 0, one degree north of
the observer of `antipodeEnv`. -/
def stateP : JsonVariant Ieee := stateOfFloat "p3" "PAPA3" 0 (119 / 2) 9000 false

/-- The response body with the states N, O. -/
def antipodeFeed : JsonVariant Ieee :=
  .object [("time", .number (Ieee.finite 0)), ("states", .array [stateN, stateO])]

/-- The response body with the states P, O. -/
def northFeed : JsonVariant Ieee :=
  .object [("time", .number (Ieee.finite 0)), ("states", .array [stateP, stateO])]

/-- An observer at latitude 58.5, longitude 0, whose distance function is the sketch's
`calculateDistance` on the library table (the arguments converted to `float`, as the
call does); the feed answers 200 with N, O and the route lookup 404. -/
def antipodeEnv : Env Ieee :=
  { MY_LATITUDE := Ieee.finite (117 / 2)
    MY_LONGITUDE := Ieee.finite 0
    calculateDistance := (fun lat1 lon1 lat2 lon2 =>
      Ieee.calculateDistance libmTable (binary32.cast lat1) (binary32.cast lon1)
        (binary32.cast lat2) (binary32.cast lon2))
    wifiConnected := true
    feed := { code := 200, body := some antipodeFeed }
    route := (fun _ => { code := 404, body := none })
    serializeJson := (fun _ => "")
    millis := 60000 }

/-- The observer of `antipodeEnv` with a feed that answers 200 with P, O. -/
def northEnv : Env Ieee :=
  { antipodeEnv with feed := { code := 200, body := some northFeed } }

/-- The globals with an empty registry, the radius 25000 km (the box of the request then
holds every position), the ceiling 12000 m and a 30 s interval, over `float` values. -/
def antipodeGlobals : Globals Ieee :=
  { currentSearchRadius := Ieee.finite 25000
    currentMaxAltitude := Ieee.finite 12000
    currentUpdateInterval := 30
    aircraft := (fun _ =>
      { callsign := "", icao24 := "", latitude := 0, longitude := 0, altitude := 0,
        velocity := 0, heading := 0, verticalRate := 0, distance := 0, onGround := false,
        lastSeen := 0, valid := false, origin := "", destination := "" })
    aircraftCount := 0
    lastUpdate := 0
    lastDisplayRotation := 0
    serial := [] }

end Scenarios4

/-! ## The sort: a permutation of the cells below `aircraftCount`, ascending by distance -/

section SortLemmas

variable {F : Type} [LinearOrderedRing F]

/-- A permutation of the indices that moves nothing outside `[lo, hi)` maps that window to
itself. -/
theorem perm_window (σ : Equiv.Perm Nat) (lo hi : Nat)
    (hfix : ∀ m, m < lo ∨ hi ≤ m → σ m = m) (q : Nat) (hq : lo ≤ q ∧ q < hi) :
    lo ≤ σ q ∧ σ q < hi := by
  by_contra hcon
  have hout : σ q < lo ∨ hi ≤ σ q := by omega
  have h1 : σ (σ q) = σ q := hfix _ hout
  have h2 : σ q = q := σ.injective h1
  omega

theorem swapAircraft_eq (a : Nat → Aircraft F) (i j : Nat) :
    swapAircraft a i j = a ∘ (Equiv.swap i j) := by
  funext k
  simp only [swapAircraft, Function.comp, Function.update, Equiv.swap_apply_def]
  by_cases hj : k = j
  · subst hj
    by_cases hi : k = i
    · simp [hi]
    · have hi2 : ¬ i = k := fun h => hi h.symm
      simp [hi, hi2]
  · by_cases hi : k = i
    · subst hi
      simp [hj]
    · simp [hj, hi]

/-- The inner loop rearranges the cells by a permutation that moves only `i` and the
indices `j, ..., j + k - 1` it visits. -/
theorem sortInner_perm (i : Nat) (k : Nat) : ∀ (j : Nat) (a : Nat → Aircraft F), i < j →
    ∃ σ : Equiv.Perm Nat, sortInner i k j a = a ∘ σ ∧ ∀ m, m < i ∨ j + k ≤ m → σ m = m := by
  induction k with
  | zero => intro j a _; exact ⟨1, rfl, fun _ _ => rfl⟩
  | succ k ih =>
    intro j a hij
    simp only [sortInner]
    split
    · obtain ⟨σ, hσ, hfix⟩ := ih (j + 1) (swapAircraft a i j) (by omega)
      refine ⟨Equiv.swap i j * σ, ?_, ?_⟩
      · rw [hσ, swapAircraft_eq]; rfl
      · intro m hm
        have h1 : σ m = m := hfix m (by omega)
        simp only [Equiv.Perm.mul_apply, h1]
        exact Equiv.swap_apply_of_ne_of_ne (by omega) (by omega)
    · obtain ⟨σ, hσ, hfix⟩ := ih (j + 1) a (by omega)
      exact ⟨σ, hσ, fun m hm => hfix m (by omega)⟩

/-- After the inner loop, `aircraft[i]` is no farther than any cell the loop visited, nor
than any cell between `i` and `j` it was already no farther than. -/
theorem sortInner_min (i : Nat) (k : Nat) : ∀ (j : Nat) (a : Nat → Aircraft F), i < j →
    (∀ m, i < m → m < j → (a i).distance ≤ (a m).distance) →
    ∀ m, i < m → m < j + k →
      (sortInner i k j a i).distance ≤ (sortInner i k j a m).distance := by
  induction k with
  | zero => intro j a _ h m h1 h2; exact h m h1 (by omega)
  | succ k ih =>
    intro j a hij h m h1 h2
    simp only [sortInner]
    refine ih (j + 1) _ (by omega) ?_ m h1 (by omega)
    intro p hp1 hp2
    split
    · rename_i hlt
      have hi : swapAircraft a i j i = a j := by
        simp [swapAircraft, Function.update, Nat.ne_of_lt hij]
      rcases Nat.lt_or_eq_of_le (Nat.lt_succ_iff.mp hp2) with hpj | hpj
      · have hp : swapAircraft a i j p = a p := by
          simp [swapAircraft, Function.update, Nat.ne_of_lt hpj, Nat.ne_of_gt hp1]
        rw [hi, hp]
        exact le_trans (le_of_lt hlt) (h p hp1 hpj)
      · have hp : swapAircraft a i j p = a i := by
          simp [swapAircraft, Function.update, hpj]
        rw [hi, hp]
        exact le_of_lt hlt
    · rename_i hlt
      rcases Nat.lt_or_eq_of_le (Nat.lt_succ_iff.mp hp2) with hpj | hpj
      · exact h p hp1 hpj
      · rw [hpj]; exact not_lt.mp hlt

/-- The outer loop rearranges the cells by a permutation of the indices below `n`. -/
theorem sortOuter_perm (n : Nat) (k : Nat) : ∀ (i : Nat) (a : Nat → Aircraft F),
    i + k < n ∨ k = 0 →
    ∃ σ : Equiv.Perm Nat, sortOuter n k i a = a ∘ σ ∧ ∀ m, n ≤ m → σ m = m := by
  induction k with
  | zero => intro i a _; exact ⟨1, rfl, fun _ _ => rfl⟩
  | succ k ih =>
    intro i a hik
    have hin : i + (k + 1) < n := by omega
    simp only [sortOuter]
    obtain ⟨τ, hτ, hτfix⟩ := sortInner_perm i (n - (i + 1)) (i + 1) a (by omega)
    obtain ⟨σ, hσ, hfix⟩ := ih (i + 1) (sortInner i (n - (i + 1)) (i + 1) a) (by omega)
    refine ⟨τ * σ, ?_, ?_⟩
    · rw [hσ, hτ]; rfl
    · intro m hm
      simp only [Equiv.Perm.mul_apply, hfix m hm]
      exact hτfix m (by omega)

/-- Invariant of the outer loop: every cell before `i` is no farther than every later cell
below `n`; when the loop ends this is the ascending order of the first `n` cells. -/
theorem sortOuter_sorted (n : Nat) (k : Nat) : ∀ (i : Nat) (a : Nat → Aircraft F),
    i + k < n ∨ k = 0 →
    (∀ p q, p < i → p < q → q < n → (a p).distance ≤ (a q).distance) →
    ∀ p q, p < i + k → p < q → q < n →
      (sortOuter n k i a p).distance ≤ (sortOuter n k i a q).distance := by
  induction k with
  | zero => intro i a _ h p q hp hpq hq; exact h p q (by omega) hpq hq
  | succ k ih =>
    intro i a hik h p q hp hpq hq
    have hin : i + (k + 1) < n := by omega
    simp only [sortOuter]
    refine ih (i + 1) _ (by omega) ?_ p q (by omega) hpq hq
    intro p q hp hpq hq
    obtain ⟨τ, hτ, hτfix⟩ := sortInner_perm i (n - (i + 1)) (i + 1) a (by omega)
    have hhi : i + 1 + (n - (i + 1)) = n := by omega
    rcases Nat.lt_or_eq_of_le (Nat.lt_succ_iff.mp hp) with hpi | hpi
    · have hpv : sortInner i (n - (i + 1)) (i + 1) a p = a p := by
        rw [hτ]; simp [Function.comp, hτfix p (Or.inl hpi)]
      have hqv : sortInner i (n - (i + 1)) (i + 1) a q = a (τ q) := by rw [hτ]; rfl
      rw [hpv, hqv]
      by_cases hqi : q < i
      · rw [hτfix q (Or.inl hqi)]; exact h p q hpi hpq hq
      · have hw := perm_window τ i n (fun m hm => hτfix m (by omega)) q ⟨by omega, hq⟩
        exact h p (τ q) hpi (by omega) hw.2
    · subst hpi
      exact sortInner_min p (n - (p + 1)) (p + 1) a (by omega) (fun m h1 h2 => by omega) q hpq
        (by omega)

/-- The sort leaves the first `aircraftCount` cells in ascending order of distance. -/
theorem sortByDistance_sorted (g : Globals F) (p q : Nat) (hpq : p < q)
    (hq : q < g.aircraftCount) :
    ((sortByDistance g).aircraft p).distance ≤ ((sortByDistance g).aircraft q).distance := by
  simp only [sortByDistance]
  have h := sortOuter_sorted g.aircraftCount (g.aircraftCount - 1) 0 g.aircraft (by omega)
    (fun p q hp => absurd hp (Nat.not_lt_zero p)) p q (by omega) hpq hq
  exact h

/-- The sort permutes the cells below `aircraftCount` and touches no other cell. -/
theorem sortByDistance_perm (g : Globals F) :
    ∃ σ : Equiv.Perm Nat, (sortByDistance g).aircraft = g.aircraft ∘ σ ∧
      ∀ m, g.aircraftCount ≤ m → σ m = m := by
  simp only [sortByDistance]
  exact sortOuter_perm g.aircraftCount (g.aircraftCount - 1) 0 g.aircraft (by omega)

/-- The registry after the sort is a rearrangement of the registry before it. -/
theorem sortByDistance_registry_perm (g : Globals F) :
    List.Perm (registry (sortByDistance g)) (registry g) := by
  obtain ⟨σ, hσ, hfix⟩ := sortByDistance_perm g
  have hcount : (sortByDistance g).aircraftCount = g.aircraftCount := rfl
  have hwin : ∀ (τ : Equiv.Perm Nat), (∀ m, g.aircraftCount ≤ m → τ m = m) →
      ∀ q, q < g.aircraftCount → τ q < g.aircraftCount := fun τ hτ q hq =>
    (perm_window τ 0 g.aircraftCount (fun m hm => hτ m (by omega)) q ⟨Nat.zero_le q, hq⟩).2
  have hinv : ∀ m, g.aircraftCount ≤ m → σ⁻¹ m = m := by
    intro m hm
    have := hfix m hm
    calc σ⁻¹ m = σ⁻¹ (σ m) := by rw [this]
      _ = m := by simp
  have hrange : List.Perm ((List.range g.aircraftCount).map σ) (List.range g.aircraftCount) := by
    rw [List.perm_ext_iff_of_nodup ((List.nodup_range _).map σ.injective) (List.nodup_range _)]
    intro x
    simp only [List.mem_map, List.mem_range]
    constructor
    · rintro ⟨m, hm, rfl⟩; exact hwin σ hfix m hm
    · intro hx; exact ⟨σ⁻¹ x, hwin σ⁻¹ hinv x hx, by simp⟩
  have hmap : registry (sortByDistance g)
      = ((List.range g.aircraftCount).map σ).map g.aircraft := by
    simp only [registry, hcount, hσ, List.map_map]
  rw [hmap]
  exact hrange.map g.aircraft

end SortLemmas

/-! ## The scan loop -/

section ScanLemmas

variable {F : Type} [LinearOrderedRing F]

theorem scanBody_of_not_passes (env : Env F) (state : Option (List (JsonVariant F)))
    (g : Globals F) (h : passes g.currentMaxAltitude (parseState state) = false) :
    scanBody env state g = g := by
  simp only [passes, Bool.and_eq_false_iff, decide_eq_false_iff_not, not_not] at h
  simp only [scanBody]
  rcases h with h | h
  · rw [if_pos h]
  · by_cases h0 : (parseState state).lat = 0 ∧ (parseState state).lon = 0
    · rw [if_pos h0]
    · rw [if_neg h0, if_pos h]

theorem scanBody_of_passes (env : Env F) (state : Option (List (JsonVariant F)))
    (g : Globals F) (h : passes g.currentMaxAltitude (parseState state) = true) :
    scanBody env state g =
      { g with
        aircraft := Function.update g.aircraft g.aircraftCount
          (storeAircraft env (g.aircraft g.aircraftCount) (parseState state))
        serial := g.serial ++
          [SerialEvent.stored g.aircraftCount
            (storeAircraft env (g.aircraft g.aircraftCount) (parseState state)).callsign
            (parseState state).altitude
            (storeAircraft env (g.aircraft g.aircraftCount) (parseState state)).distance
            (parseState state).onGround]
        aircraftCount := g.aircraftCount + 1 } := by
  simp only [passes, Bool.and_eq_true, decide_eq_true_eq] at h
  simp only [scanBody]
  rw [if_neg h.1, if_neg h.2]

/-- The scan loop stores the first survivors, as many as there is room for, over the cells
from `aircraftCount` on and leaves every other cell as it was. -/
theorem scanLoop_spec (env : Env F) : ∀ (states : List (JsonVariant F)) (g : Globals F),
    g.aircraftCount ≤ MAX_AIRCRAFT →
    (scanLoop env states g).currentMaxAltitude = g.currentMaxAltitude ∧
    (scanLoop env states g).aircraftCount = g.aircraftCount +
      ((survivors g.currentMaxAltitude states).take (MAX_AIRCRAFT - g.aircraftCount)).length ∧
    ∀ i, (scanLoop env states g).aircraft i =
      if i < g.aircraftCount then g.aircraft i
      else
        match ((survivors g.currentMaxAltitude states).take
          (MAX_AIRCRAFT - g.aircraftCount))[i - g.aircraftCount]? with
        | some sv => storeAircraft env (g.aircraft i) sv
        | none => g.aircraft i := by
  intro states
  induction states with
  | nil =>
    intro g _
    simp [scanLoop, survivors]
  | cons state rest ih =>
    intro g hg
    simp only [scanLoop]
    by_cases hfull : g.aircraftCount ≥ MAX_AIRCRAFT
    · rw [if_pos hfull]
      have h0 : MAX_AIRCRAFT - g.aircraftCount = 0 := by omega
      simp [h0]
    · rw [if_neg hfull]
      cases hp : passes g.currentMaxAltitude (parseState state.asArray) with
      | false =>
        rw [scanBody_of_not_passes env _ g hp]
        have hs : survivors g.currentMaxAltitude (state :: rest)
            = survivors g.currentMaxAltitude rest := by
          simp [survivors, List.filter_cons, hp]
        rw [hs]
        exact ih g hg
      | true =>
        rw [scanBody_of_passes env _ g hp]
        have hs : survivors g.currentMaxAltitude (state :: rest)
            = parseState state.asArray :: survivors g.currentMaxAltitude rest := by
          simp [survivors, List.filter_cons, hp]
        have hroom : MAX_AIRCRAFT - g.aircraftCount
            = (MAX_AIRCRAFT - (g.aircraftCount + 1)) + 1 := by omega
        obtain ⟨ih1, ih2, ih3⟩ := ih
          { g with
            aircraft := Function.update g.aircraft g.aircraftCount
              (storeAircraft env (g.aircraft g.aircraftCount) (parseState state.asArray))
            serial := g.serial ++
              [SerialEvent.stored g.aircraftCount
                (storeAircraft env (g.aircraft g.aircraftCount)
                  (parseState state.asArray)).callsign
                (parseState state.asArray).altitude
                (storeAircraft env (g.aircraft g.aircraftCount)
                  (parseState state.asArray)).distance
                (parseState state.asArray).onGround]
            aircraftCount := g.aircraftCount + 1 } (by simp only; omega)
        simp only at ih1 ih2 ih3
        refine ⟨ih1, ?_, ?_⟩
        · rw [ih2, hs, hroom, List.take_succ_cons, List.length_cons]; omega
        · intro i
          rw [ih3 i, hs, hroom, List.take_succ_cons]
          by_cases h1 : i < g.aircraftCount
          · have h2 : i < g.aircraftCount + 1 := by omega
            rw [if_pos h1, if_pos h2, Function.update_noteq (by omega)]
          · rw [if_neg h1]
            by_cases h3 : i = g.aircraftCount
            · subst h3
              simp
            · have h2 : ¬ i < g.aircraftCount + 1 := by omega
              have h4 : i - g.aircraftCount = (i - (g.aircraftCount + 1)) + 1 := by omega
              rw [if_neg h2, h4, List.getElem?_cons_succ, Function.update_noteq h3]

/-- Started on an empty registry, the scan loop leaves exactly the records of the retained
state vectors, in feed order. -/
theorem registry_scanLoop (env : Env F) (states : List (JsonVariant F)) (g : Globals F)
    (h0 : g.aircraftCount = 0) :
    registry (scanLoop env states g) = scanRecords env g states := by
  obtain ⟨_, hc, ha⟩ := scanLoop_spec env states g (by rw [h0]; exact Nat.zero_le _)
  rw [h0] at hc ha
  simp only [Nat.sub_zero, Nat.zero_add, Nat.not_lt_zero, if_false] at hc ha
  apply List.ext_getElem?
  intro n
  simp only [registry, scanRecords, retained, List.getElem?_map, List.getElem?_enum, hc]
  by_cases hn : n < (List.take MAX_AIRCRAFT (survivors g.currentMaxAltitude states)).length
  · rw [List.getElem?_range hn, List.getElem?_eq_getElem hn]
    simp only [Option.map_some']
    rw [ha n, List.getElem?_eq_getElem hn]
  · have hn2 := Nat.le_of_not_lt hn
    rw [List.getElem?_eq_none hn2]
    simp only [Option.map_none']
    rw [List.getElem?_eq_none (by simpa using hn2)]
    rfl

end ScanLemmas

/-! ## Route lookup and the whole rebuild -/

section RebuildLemmas

variable {F : Type} [LinearOrderedRing F]

theorem eraseRoute_storeAircraft (env : Env F) (slot : Aircraft F) (sv : StateVector F) :
    eraseRoute (storeAircraft env slot sv) = storeAircraft env slot sv := rfl

/-- The route lookup changes no field of the record other than `origin` and `destination`. -/
theorem fetchRouteInfo_eraseRoute (env : Env F) (plane : Aircraft F) :
    eraseRoute (fetchRouteInfo env plane).1 = eraseRoute plane := by
  unfold fetchRouteInfo applyRoute
  dsimp only
  repeat' split
  all_goals rfl

theorem enrichClosest_count (env : Env F) (g : Globals F) :
    (enrichClosest env g).aircraftCount = g.aircraftCount := by
  unfold enrichClosest
  split <;> rfl

theorem enrichClosest_eraseRoute (env : Env F) (g : Globals F) (i : Nat) :
    eraseRoute ((enrichClosest env g).aircraft i) = eraseRoute (g.aircraft i) := by
  unfold enrichClosest
  split
  · by_cases hi : i = 0
    · subst hi
      simp only [Function.update_same]
      exact fetchRouteInfo_eraseRoute env _
    · simp only [Function.update_noteq hi]
  · rfl

theorem enrichClosest_settings (env : Env F) (g : Globals F) :
    (enrichClosest env g).currentMaxAltitude = g.currentMaxAltitude := by
  unfold enrichClosest
  split <;> rfl

/-- The two ways the parsed branch ends: an empty feed clears the registry; a feed with at
least one element is scanned from an empty registry, sorted and enriched. -/
theorem rebuild_cases (env : Env F) (doc : JsonVariant F) (g : Globals F) :
    (feedStates doc = [] ∧ rebuild env doc g =
      { g with serial := g.serial ++ [SerialEvent.noAircraftFound], aircraftCount := 0 }) ∨
    (feedStates doc ≠ [] ∧ rebuild env doc g =
      enrichClosest env
        { sortByDistance (scanLoop env (feedStates doc)
            { g with serial := g.serial ++ [SerialEvent.found (feedStates doc).length],
                     aircraftCount := 0 }) with
          serial := (sortByDistance (scanLoop env (feedStates doc)
            { g with serial := g.serial ++ [SerialEvent.found (feedStates doc).length],
                     aircraftCount := 0 })).serial ++
            [SerialEvent.tracking (sortByDistance (scanLoop env (feedStates doc)
              { g with serial := g.serial ++ [SerialEvent.found (feedStates doc).length],
                       aircraftCount := 0 })).aircraftCount] }) := by
  unfold rebuild feedStates
  cases h : (doc.member "states").asArray with
  | none => left; exact ⟨rfl, rfl⟩
  | some states =>
    cases states with
    | nil => left; exact ⟨rfl, rfl⟩
    | cons s rest => right; exact ⟨by simp, rfl⟩

/-- The rebuilt registry, route fields aside, is a rearrangement of the records of the
retained state vectors. -/
theorem rebuild_registry_perm (env : Env F) (doc : JsonVariant F) (g : Globals F) :
    List.Perm ((registry (rebuild env doc g)).map eraseRoute)
      (scanRecords env g (feedStates doc)) := by
  rcases rebuild_cases env doc g with ⟨hs, hr⟩ | ⟨_, hr⟩
  · rw [hr, hs]
    simp [registry, scanRecords, retained, survivors]
  · rw [hr]
    have h1 : ∀ (g4 : Globals F), (registry (enrichClosest env g4)).map eraseRoute
        = (registry g4).map eraseRoute := by
      intro g4
      simp only [registry, enrichClosest_count, List.map_map]
      apply List.map_congr_left
      intro i _
      exact enrichClosest_eraseRoute env g4 i
    rw [h1]
    have h2 := sortByDistance_registry_perm (scanLoop env (feedStates doc)
      { g with serial := g.serial ++ [SerialEvent.found (feedStates doc).length],
               aircraftCount := 0 })
    rw [registry_scanLoop env _ _ rfl] at h2
    have h3 : (scanRecords env g (feedStates doc)).map eraseRoute
        = scanRecords env g (feedStates doc) := by
      simp only [scanRecords, List.map_map]
      apply List.map_congr_left
      intro p _
      rfl
    rw [← h3]
    exact h2.map eraseRoute

/-- Every record of the rebuilt registry is, route fields aside, the record stored for one
of the retained state vectors. -/
theorem mem_registry_rebuild (env : Env F) (doc : JsonVariant F) (g : Globals F)
    (r : Aircraft F) (hr : r ∈ registry (rebuild env doc g)) :
    ∃ slot sv, sv ∈ retained g.currentMaxAltitude (feedStates doc) ∧
      eraseRoute r = storeAircraft env slot sv := by
  have h1 : eraseRoute r ∈ (registry (rebuild env doc g)).map eraseRoute :=
    List.mem_map_of_mem _ hr
  have h2 := (rebuild_registry_perm env doc g).mem_iff.mp h1
  simp only [scanRecords, List.mem_map] at h2
  obtain ⟨p, hp, hpe⟩ := h2
  have hmem : p.2 ∈ retained g.currentMaxAltitude (feedStates doc) :=
    List.mem_iff_getElem?.mpr ⟨p.1, List.mem_enum_iff_getElem?.mp hp⟩
  exact ⟨g.aircraft p.1, p.2, hmem, hpe.symm⟩

theorem passes_of_mem_retained (maxAlt : F) (states : List (JsonVariant F))
    (sv : StateVector F) (h : sv ∈ retained maxAlt states) : passes maxAlt sv = true := by
  have h1 : sv ∈ survivors maxAlt states := List.mem_of_mem_take h
  simp only [survivors, List.mem_filter] at h1
  exact h1.2

theorem mem_registry_iff (g : Globals F) (r : Aircraft F) :
    r ∈ registry g ↔ ∃ i, i < g.aircraftCount ∧ g.aircraft i = r := by
  simp [registry]

theorem rebuild_count_le (env : Env F) (doc : JsonVariant F) (g : Globals F) :
    (rebuild env doc g).aircraftCount ≤ MAX_AIRCRAFT := by
  have h := (rebuild_registry_perm env doc g).length_eq
  simp only [List.length_map, scanRecords, retained, List.enum_length, registry,
    List.length_range] at h
  rw [h]
  exact List.length_take_le _ _

/-- The distances in the rebuilt registry are those the sort left: the route lookup does not
touch them. -/
theorem rebuild_distance_sorted (env : Env F) (doc : JsonVariant F) (g : Globals F)
    (p q : Nat) (hpq : p < q) (hq : q < (rebuild env doc g).aircraftCount) :
    ((rebuild env doc g).aircraft p).distance ≤ ((rebuild env doc g).aircraft q).distance := by
  rcases rebuild_cases env doc g with ⟨_, hr⟩ | ⟨_, hr⟩
  · rw [hr] at hq; exact absurd hq (Nat.not_lt_zero q)
  · rw [hr] at hq ⊢
    rw [enrichClosest_count] at hq
    have hd : ∀ (g4 : Globals F) (i : Nat),
        ((enrichClosest env g4).aircraft i).distance = (g4.aircraft i).distance := fun g4 i =>
      show (eraseRoute ((enrichClosest env g4).aircraft i)).distance
          = (eraseRoute (g4.aircraft i)).distance from
        congrArg Aircraft.distance (enrichClosest_eraseRoute env g4 i)
    rw [hd, hd]
    exact sortByDistance_sorted _ p q hpq hq

/-- A feed of two surviving state vectors, the second nearer than the first, leaves the
second in cell 0 and the first in cell 1. -/
theorem rebuild_two_swapped (env : Env F) (g : Globals F) (doc sA sB : JsonVariant F)
    (hdoc : feedStates doc = [sA, sB])
    (hA : passes g.currentMaxAltitude (parseState sA.asArray) = true)
    (hB : passes g.currentMaxAltitude (parseState sB.asArray) = true)
    (hlt : (storeAircraft env (g.aircraft 1) (parseState sB.asArray)).distance
      < (storeAircraft env (g.aircraft 0) (parseState sA.asArray)).distance) :
    (registry (rebuild env doc g)).map eraseRoute =
      [storeAircraft env (g.aircraft 1) (parseState sB.asArray),
       storeAircraft env (g.aircraft 0) (parseState sA.asArray)] := by
  rcases rebuild_cases env doc g with ⟨hs, _⟩ | ⟨_, hr⟩
  · rw [hdoc] at hs; exact absurd hs (by simp)
  · rw [hr, hdoc]
    have h1 : ∀ (g4 : Globals F), (registry (enrichClosest env g4)).map eraseRoute
        = (registry g4).map eraseRoute := by
      intro g4
      simp only [registry, enrichClosest_count, List.map_map]
      apply List.map_congr_left
      intro i _
      exact enrichClosest_eraseRoute env g4 i
    rw [h1]
    obtain ⟨_, hc, ha⟩ := scanLoop_spec env [sA, sB]
      { g with serial := g.serial ++ [SerialEvent.found [sA, sB].length], aircraftCount := 0 }
      (Nat.zero_le _)
    have hsurv : survivors g.currentMaxAltitude [sA, sB]
        = [parseState sA.asArray, parseState sB.asArray] := by
      simp [survivors, List.filter_cons, hA, hB]
    simp only [hsurv, Nat.sub_zero, Nat.zero_add, Nat.not_lt_zero, if_false] at hc ha
    have hc2 : (scanLoop env [sA, sB]
      { g with serial := g.serial ++ [SerialEvent.found [sA, sB].length],
               aircraftCount := 0 }).aircraftCount = 2 := by
      rw [hc]; simp [MAX_AIRCRAFT]
    have ha0 := ha 0
    have ha1 := ha 1
    simp only [MAX_AIRCRAFT, List.take_succ_cons, List.getElem?_cons_zero,
      List.getElem?_cons_succ] at ha0 ha1
    simp only [registry, sortByDistance, hc2, sortOuter, sortInner, List.range, List.range.loop,
      List.map_cons, List.map_nil, ha0, ha1, if_pos hlt, swapAircraft, Function.update,
      eraseRoute_storeAircraft]
    simp [ha0, ha1, eraseRoute_storeAircraft]

theorem rebuild_maxAltitude (env : Env F) (doc : JsonVariant F) (g : Globals F) :
    (rebuild env doc g).currentMaxAltitude = g.currentMaxAltitude := by
  rcases rebuild_cases env doc g with ⟨_, hr⟩ | ⟨_, hr⟩
  · rw [hr]
  · rw [hr, enrichClosest_settings]
    exact (scanLoop_spec env (feedStates doc)
      { g with serial := g.serial ++ [SerialEvent.found (feedStates doc).length],
               aircraftCount := 0 } (Nat.zero_le _)).1

theorem scanRecords_icao24 (env : Env F) (g : Globals F) (states : List (JsonVariant F)) :
    (scanRecords env g states).map (fun r => r.icao24)
      = (retained g.currentMaxAltitude states).map (fun sv => sv.icao24) := by
  have h : (fun (p : Nat × StateVector F) =>
      (storeAircraft env (g.aircraft p.1) p.2).icao24)
      = (fun sv => sv.icao24) ∘ Prod.snd := rfl
  simp only [scanRecords, List.map_map, Function.comp_def]
  rw [h, ← List.map_map, List.enum_map_snd]

end RebuildLemmas

/-! ## The claims on the rebuilt registry -/

section RegistryClaims

variable {F : Type} [LinearOrderedRing F]

/-- C1. For every feed, observer and settings value, the registry left by the parsed branch
of `updateAircraftData` holds at most ten records: its length, which is `aircraftCount`, is
at most `MAX_AIRCRAFT = 10`. -/
theorem rebuild_registry_length_le (env : Env F) (doc : JsonVariant F) (g : Globals F) :
    (registry (rebuild env doc g)).length ≤ 10 ∧
      (registry (rebuild env doc g)).length = (rebuild env doc g).aircraftCount ∧
      (rebuild env doc g).aircraftCount ≤ MAX_AIRCRAFT := by
  have h := rebuild_count_le env doc g
  refine ⟨?_, by simp [registry], h⟩
  simpa [registry, MAX_AIRCRAFT] using h

/-- Over distances that are numbers of a linear order (no NaN among them) the rebuilt
registry is in ascending order of distance: every adjacent pair of cells below
`aircraftCount` is ordered, so cell 0 is no farther than any retained record.  For the
feed A (distance 50) then B (distance 10), both airborne at 9000 m under a 12000 m ceiling,
the registry is B then A.  What the `float` comparison does with a NaN distance is in
`antipode_cycle_cells`. -/
theorem rebuild_sorted_by_distance (env : Env F) (g : Globals F) :
    (∀ (doc : JsonVariant F) (i : Nat), i + 1 < (rebuild env doc g).aircraftCount →
      ((rebuild env doc g).aircraft i).distance
        ≤ ((rebuild env doc g).aircraft (i + 1)).distance) ∧
    (∀ (doc : JsonVariant F) (k : Nat), k < (rebuild env doc g).aircraftCount →
      ((rebuild env doc g).aircraft 0).distance ≤ ((rebuild env doc g).aircraft k).distance) ∧
    (∀ (doc sA sB : JsonVariant F), feedStates doc = [sA, sB] →
      g.currentMaxAltitude = 12000 →
      ¬ ((parseState sA.asArray).lat = 0 ∧ (parseState sA.asArray).lon = 0) →
      ¬ ((parseState sB.asArray).lat = 0 ∧ (parseState sB.asArray).lon = 0) →
      (parseState sA.asArray).onGround = false → (parseState sA.asArray).altitude = 9000 →
      (parseState sB.asArray).onGround = false → (parseState sB.asArray).altitude = 9000 →
      env.calculateDistance env.MY_LATITUDE env.MY_LONGITUDE
        (parseState sA.asArray).lat (parseState sA.asArray).lon = 50 →
      env.calculateDistance env.MY_LATITUDE env.MY_LONGITUDE
        (parseState sB.asArray).lat (parseState sB.asArray).lon = 10 →
      (registry (rebuild env doc g)).map eraseRoute =
        [storeAircraft env (g.aircraft 1) (parseState sB.asArray),
         storeAircraft env (g.aircraft 0) (parseState sA.asArray)]) := by
  refine ⟨fun doc i hi => rebuild_distance_sorted env doc g i (i + 1) (Nat.lt_succ_self i) hi,
    ?_, ?_⟩
  · intro doc k hk
    rcases Nat.eq_zero_or_pos k with h0 | h0
    · rw [h0]
    · exact rebuild_distance_sorted env doc g 0 k h0 hk
  · intro doc sA sB hdoc hmax hposA hposB hgA haltA hgB haltB hdA hdB
    have hceil : ¬ ((9000 : F) > 12000) := by norm_num
    apply rebuild_two_swapped env g doc sA sB hdoc
    · simp [passes, hposA, haltA, hmax, hceil]
    · simp [passes, hposB, haltB, hmax, hceil]
    · show env.calculateDistance _ _ _ _ < env.calculateDistance _ _ _ _
      rw [hdA, hdB]; norm_num

/-- The feed A then B evaluated: the order of the two cells and the registry B, A. -/
theorem rebuild_sorted_by_distance_witness :
    ((rebuild (envOf [stateA, stateB]) (feedOf [stateA, stateB]) startGlobals).aircraft 0).distance
      ≤ ((rebuild (envOf [stateA, stateB]) (feedOf [stateA, stateB])
          startGlobals).aircraft (0 + 1)).distance ∧
    (registry (rebuild (envOf [stateA, stateB]) (feedOf [stateA, stateB]) startGlobals)).map
        eraseRoute =
      [storeAircraft (envOf [stateA, stateB]) (startGlobals.aircraft 1)
        (parseState stateB.asArray),
       storeAircraft (envOf [stateA, stateB]) (startGlobals.aircraft 0)
        (parseState stateA.asArray)] :=
  ⟨(rebuild_sorted_by_distance (envOf [stateA, stateB]) startGlobals).1
      (feedOf [stateA, stateB]) 0 (by decide),
   (rebuild_sorted_by_distance (envOf [stateA, stateB]) startGlobals).2.2
      (feedOf [stateA, stateB]) stateA stateB rfl (by decide) (by decide) (by decide)
      (by decide) (by decide) (by decide) (by decide) (by decide) (by decide)⟩

/-- C3. No record of the rebuilt registry is airborne (`onGround = false`) with an altitude
above the ceiling `currentMaxAltitude`, which the rebuild leaves as it was. -/
theorem rebuild_no_airborne_above_ceiling (env : Env F) (doc : JsonVariant F) (g : Globals F)
    (r : Aircraft F) (hr : r ∈ registry (rebuild env doc g)) :
    ¬ (r.onGround = false ∧ r.altitude > g.currentMaxAltitude) ∧
      (rebuild env doc g).currentMaxAltitude = g.currentMaxAltitude := by
  refine ⟨?_, rebuild_maxAltitude env doc g⟩
  obtain ⟨slot, sv, hsv, he⟩ := mem_registry_rebuild env doc g r hr
  have hp := passes_of_mem_retained _ _ sv hsv
  simp only [passes, Bool.and_eq_true, decide_eq_true_eq] at hp
  have h1 : r.onGround = sv.onGround := congrArg Aircraft.onGround he
  have h2 : r.altitude = sv.altitude := congrArg Aircraft.altitude he
  rw [h1, h2]
  exact hp.2

/-- The mixed feed under a 12000 m ceiling: the record of B is retained and is not an
airborne record above the ceiling, while H (13000 m) is not retained. -/
theorem rebuild_no_airborne_above_ceiling_witness :
    storeAircraft (envOf mixedStates) blankAircraft (parseState stateB.asArray)
        ∈ registry (rebuild (envOf mixedStates) (feedOf mixedStates) startGlobals) ∧
      ¬ ((storeAircraft (envOf mixedStates) blankAircraft
            (parseState stateB.asArray)).onGround = false ∧
          (storeAircraft (envOf mixedStates) blankAircraft
            (parseState stateB.asArray)).altitude > startGlobals.currentMaxAltitude) :=
  ⟨by decide,
   (rebuild_no_airborne_above_ceiling (envOf mixedStates) (feedOf mixedStates) startGlobals
      (storeAircraft (envOf mixedStates) blankAircraft (parseState stateB.asArray))
      (by decide)).1⟩

/-- C5, as amended. The rebuilt registry holds two records with the same identifier exactly
when two of the retained state vectors (the first ten, in feed order, that have a position
and pass the altitude test) carry the same identifier: the scan does not compare
identifiers. -/
theorem rebuild_identifiers_nodup_iff (env : Env F) (doc : JsonVariant F) (g : Globals F) :
    ((registry (rebuild env doc g)).map (fun r => r.icao24)).Nodup ↔
      ((retained g.currentMaxAltitude (feedStates doc)).map (fun sv => sv.icao24)).Nodup := by
  have h1 : (registry (rebuild env doc g)).map (fun r => r.icao24)
      = ((registry (rebuild env doc g)).map eraseRoute).map (fun r => r.icao24) := by
    rw [List.map_map]; rfl
  rw [h1, ← scanRecords_icao24 env g (feedStates doc)]
  exact ((rebuild_registry_perm env doc g).map _).nodup_iff

/-- The feed A then B: the two identifiers differ, and so do those of the registry. -/
theorem rebuild_identifiers_nodup_iff_witness :
    ((registry (rebuild (envOf [stateA, stateB]) (feedOf [stateA, stateB]) startGlobals)).map
      (fun r => r.icao24)).Nodup :=
  (rebuild_identifiers_nodup_iff (envOf [stateA, stateB]) (feedOf [stateA, stateB])
    startGlobals).mpr (by decide)

/-- C5 fails as stated. The feed A then D repeats the identifier `a1`; both vectors are
stored, and the sort puts the second occurrence (distance 2) before the first
(distance 50). -/
theorem rebuild_keeps_duplicate_identifier :
    (registry (rebuild (envOf [stateA, stateD]) (feedOf [stateA, stateD]) startGlobals)).map
        (fun r => (r.icao24, r.latitude, r.longitude, r.distance))
      = [("a1", 1, 1, 2), ("a1", 7, 1, 50)] ∧
    ¬ ((registry (rebuild (envOf [stateA, stateD]) (feedOf [stateA, stateD])
        startGlobals)).map (fun r => r.icao24)).Nodup := by
  constructor <;> decide

/-- C6. No record of the rebuilt registry has latitude and longitude both zero; a state
vector whose two coordinates are null parses to that position and fails the tests. -/
theorem rebuild_no_zero_position (env : Env F) (doc : JsonVariant F) (g : Globals F)
    (r : Aircraft F) (hr : r ∈ registry (rebuild env doc g)) :
    ¬ (r.latitude = 0 ∧ r.longitude = 0) ∧
      ∀ (x0 x1 x2 x3 x4 : JsonVariant F) (rest : List (JsonVariant F)),
        (parseState (some (x0 :: x1 :: x2 :: x3 :: x4 :: .null :: .null :: rest))).lat = 0 ∧
        (parseState (some (x0 :: x1 :: x2 :: x3 :: x4 :: .null :: .null :: rest))).lon = 0 ∧
        passes g.currentMaxAltitude
          (parseState (some (x0 :: x1 :: x2 :: x3 :: x4 :: .null :: .null :: rest))) = false := by
  constructor
  · obtain ⟨slot, sv, hsv, he⟩ := mem_registry_rebuild env doc g r hr
    have hp := passes_of_mem_retained _ _ sv hsv
    simp only [passes, Bool.and_eq_true, decide_eq_true_eq] at hp
    have h1 : r.latitude = sv.lat := congrArg Aircraft.latitude he
    have h2 : r.longitude = sv.lon := congrArg Aircraft.longitude he
    rw [h1, h2]
    exact hp.1
  · intro x0 x1 x2 x3 x4 rest
    simp [parseState, passes, JsonVariant.elem, JsonVariant.orFloat]

/-- The mixed feed: the record of G is in the registry and its position is not (0,0); Z,
whose coordinates are null, left no record. -/
theorem rebuild_no_zero_position_witness :
    storeAircraft (envOf mixedStates) blankAircraft (parseState stateG.asArray)
        ∈ registry (rebuild (envOf mixedStates) (feedOf mixedStates) startGlobals) ∧
      ¬ ((storeAircraft (envOf mixedStates) blankAircraft
            (parseState stateG.asArray)).latitude = 0 ∧
          (storeAircraft (envOf mixedStates) blankAircraft
            (parseState stateG.asArray)).longitude = 0) ∧
      (registry (rebuild (envOf mixedStates) (feedOf mixedStates) startGlobals)).map
        (fun r => r.icao24) = ["a1", "g3", "b2", "a1"] :=
  ⟨by decide,
   (rebuild_no_zero_position (envOf mixedStates) (feedOf mixedStates) startGlobals
      (storeAircraft (envOf mixedStates) blankAircraft (parseState stateG.asArray))
      (by decide)).1,
   by decide⟩

end RegistryClaims

/-! ## The claims on a whole cycle -/

section CycleClaims

variable {F : Type} [LinearOrderedRing F]

theorem scanLoop_no_survivor (env : Env F) : ∀ (states : List (JsonVariant F))
    (g : Globals F),
    (∀ s ∈ states, passes g.currentMaxAltitude (parseState s.asArray) = false) →
    scanLoop env states g = g := by
  intro states
  induction states with
  | nil => intro g _; rfl
  | cons s rest ih =>
    intro g h
    simp only [scanLoop]
    split
    · rfl
    · rw [scanBody_of_not_passes env _ g (h s (List.mem_cons_self s rest))]
      exact ih g (fun t ht => h t (List.mem_cons_of_mem s ht))

/-- A parsed feed none of whose elements passes the tests leaves the count at zero, the
cells as they were, and prints no error message. -/
theorem rebuild_no_survivor (env : Env F) (doc : JsonVariant F) (g : Globals F)
    (h : ∀ s ∈ feedStates doc, passes g.currentMaxAltitude (parseState s.asArray) = false) :
    (rebuild env doc g).aircraftCount = 0 ∧ (rebuild env doc g).aircraft = g.aircraft ∧
      ∃ out, (rebuild env doc g).serial = g.serial ++ out ∧ ∀ e ∈ out, e.isError = false := by
  rcases rebuild_cases env doc g with ⟨_, hr⟩ | ⟨_, hr⟩
  · rw [hr]
    exact ⟨rfl, rfl, [SerialEvent.noAircraftFound], rfl, by simp [SerialEvent.isError]⟩
  · have hs := scanLoop_no_survivor env (feedStates doc)
      { g with serial := g.serial ++ [SerialEvent.found (feedStates doc).length],
               aircraftCount := 0 } h
    rw [hr, hs]
    refine ⟨rfl, rfl, [SerialEvent.found (feedStates doc).length, SerialEvent.tracking 0], ?_, ?_⟩
    · simp [enrichClosest, sortByDistance]
    · simp [SerialEvent.isError]

theorem member_of_not_containsKey (doc : JsonVariant F) (key : String)
    (h : doc.containsKey key = false) : doc.member key = JsonVariant.null := by
  cases doc with
  | object kvs =>
    simp only [JsonVariant.containsKey, List.any_eq_false] at h
    simp only [JsonVariant.member]
    have hfind : kvs.find? (fun kv => kv.1 == key) = none := by
      rw [List.find?_eq_none]
      exact h
    rw [hfind]
  | _ => rfl

/-- C7. A successful fetch (status 200, body parsed) whose `states` is absent, null or
empty, or whose every element is dropped by the position test or the altitude test, leaves
`aircraftCount = 0` and an empty registry; the call prints no error message and ends like
any other cycle, with `lastUpdate` set. -/
theorem updateAircraftData_empty_feed (env : Env F) (g : Globals F) (doc : JsonVariant F)
    (hwifi : env.wifiConnected = true) (hcode : env.feed.code = 200)
    (hbody : env.feed.body = some doc)
    (hstates : doc.containsKey "states" = false ∨ doc.member "states" = JsonVariant.null ∨
      doc.member "states" = JsonVariant.array [] ∨
      ∃ states, doc.member "states" = JsonVariant.array states ∧
        ∀ s ∈ states, passes g.currentMaxAltitude (parseState s.asArray) = false) :
    (updateAircraftData env g).aircraftCount = 0 ∧
      registry (updateAircraftData env g) = [] ∧
      (∃ out, (updateAircraftData env g).serial = g.serial ++ out ∧
        ∀ e ∈ out, e.isError = false) ∧
      (updateAircraftData env g).lastUpdate = env.millis := by
  have hnone : ∀ s ∈ feedStates doc,
      passes g.currentMaxAltitude (parseState s.asArray) = false := by
    rcases hstates with h | h | h | ⟨states, h, hall⟩
    · simp [feedStates, member_of_not_containsKey doc "states" h, JsonVariant.asArray]
    · simp [feedStates, h, JsonVariant.asArray]
    · simp [feedStates, h, JsonVariant.asArray]
    · simpa [feedStates, h, JsonVariant.asArray] using hall
  obtain ⟨hc, _, out, hout, herr⟩ := rebuild_no_survivor env doc
    { g with serial := g.serial ++ [SerialEvent.fetching] } hnone
  have hupd : updateAircraftData env g =
      { rebuild env doc { g with serial := g.serial ++ [SerialEvent.fetching] } with
        lastUpdate := env.millis } := by
    simp [updateAircraftData, hwifi, hcode, hbody]
  rw [hupd]
  refine ⟨hc, ?_, ⟨SerialEvent.fetching :: out, ?_, ?_⟩, rfl⟩
  · simp only [registry, hc, List.range_zero, List.map_nil]
  · simp only [hout, List.append_assoc, List.singleton_append]
  · intro e he
    rcases List.mem_cons.mp he with h | h
    · rw [h]; rfl
    · exact herr e h

/-- A cycle over the feed H, Z (one vector above the ceiling, one without position), run
after a cycle that tracked B and A, ends with no record and prints no error. -/
theorem updateAircraftData_empty_feed_witness :
    trackedGlobals.aircraftCount = 2 ∧
      (updateAircraftData (envOf [stateH, stateZ]) trackedGlobals).aircraftCount = 0 ∧
      registry (updateAircraftData (envOf [stateH, stateZ]) trackedGlobals) = [] ∧
      (∃ out, (updateAircraftData (envOf [stateH, stateZ]) trackedGlobals).serial
            = trackedGlobals.serial ++ out ∧
        ∀ e ∈ out, e.isError = false) ∧
      (updateAircraftData (envOf [stateH, stateZ]) trackedGlobals).lastUpdate
        = (envOf [stateH, stateZ]).millis :=
  ⟨by decide,
   updateAircraftData_empty_feed (envOf [stateH, stateZ]) trackedGlobals
    (feedOf [stateH, stateZ]) rfl rfl rfl
    (Or.inr (Or.inr (Or.inr ⟨[stateH, stateZ], rfl, by decide⟩)))⟩

/-- C8. When the feed request fails (a status other than 200, or a 200 body that
`deserializeJson` rejects) `updateAircraftData` returns with `aircraftCount` and every cell
of `aircraft` as they were before the call, and with the settings unchanged. -/
theorem updateAircraftData_failed_fetch (env : Env F) (g : Globals F)
    (hfail : env.feed.code ≠ 200 ∨ env.feed.body = none) :
    (updateAircraftData env g).aircraftCount = g.aircraftCount ∧
      (updateAircraftData env g).aircraft = g.aircraft ∧
      registry (updateAircraftData env g) = registry g ∧
      (updateAircraftData env g).currentSearchRadius = g.currentSearchRadius ∧
      (updateAircraftData env g).currentMaxAltitude = g.currentMaxAltitude ∧
      (updateAircraftData env g).currentUpdateInterval = g.currentUpdateInterval ∧
      (env.wifiConnected = true → (updateAircraftData env g).lastUpdate = env.millis) := by
  have key : (updateAircraftData env g).aircraftCount = g.aircraftCount ∧
      (updateAircraftData env g).aircraft = g.aircraft ∧
      (updateAircraftData env g).currentSearchRadius = g.currentSearchRadius ∧
      (updateAircraftData env g).currentMaxAltitude = g.currentMaxAltitude ∧
      (updateAircraftData env g).currentUpdateInterval = g.currentUpdateInterval := by
    unfold updateAircraftData
    by_cases hw : env.wifiConnected = false
    · rw [if_pos hw]; exact ⟨rfl, rfl, rfl, rfl, rfl⟩
    · rw [if_neg hw]
      by_cases hc : env.feed.code = 200
      · rcases hfail with h | h
        · exact absurd hc h
        · simp [hc, h]
      · simp [hc]
  obtain ⟨h1, h2, h3, h4, h5⟩ := key
  refine ⟨h1, h2, ?_, h3, h4, h5, ?_⟩
  · simp only [registry, h1, h2]
  · intro hw
    simp [updateAircraftData, hw]

/-- A cycle answered with HTTP 429 after a cycle that tracked B and A: the count is still
two and the registry is the same. -/
theorem updateAircraftData_failed_fetch_witness :
    envRateLimited.feed.code ≠ 200 ∧
      trackedGlobals.aircraftCount = 2 ∧
      (updateAircraftData envRateLimited trackedGlobals).aircraftCount
        = trackedGlobals.aircraftCount ∧
      registry (updateAircraftData envRateLimited trackedGlobals) = registry trackedGlobals ∧
      (updateAircraftData envRateLimited trackedGlobals).lastUpdate = 90000 :=
  ⟨by decide, by decide,
   (updateAircraftData_failed_fetch envRateLimited trackedGlobals (Or.inl (by decide))).1,
   (updateAircraftData_failed_fetch envRateLimited trackedGlobals (Or.inl (by decide))).2.2.1,
   (updateAircraftData_failed_fetch envRateLimited trackedGlobals
      (Or.inl (by decide))).2.2.2.2.2.2 rfl⟩

end CycleClaims

/-! ## The claims on the settings -/

section SettingsClaims

variable {F : Type} [LinearOrderedRing F]

theorem apiSettings_fields (doc : SettingsDoc F) (g : Globals F) :
    (apiSettings doc g).currentSearchRadius = doc.radius.getD g.currentSearchRadius ∧
      (apiSettings doc g).currentMaxAltitude = doc.altitude.getD g.currentMaxAltitude ∧
      (apiSettings doc g).currentUpdateInterval = doc.interval.getD g.currentUpdateInterval ∧
      (apiSettings doc g).aircraftCount = g.aircraftCount ∧
      (apiSettings doc g).aircraft = g.aircraft := by
  obtain ⟨r, a, i⟩ := doc
  cases r <;> cases a <;> cases i <;> exact ⟨rfl, rfl, rfl, rfl, rfl⟩

/-- C9. After a configuration write each of radius, altitude and interval is the written
value when the write carries it and the prior value when it does not, and the registry is
untouched; writing only `radius = 50` and then reading the status returns radius 50 with
altitude and interval as before. -/
theorem apiSettings_partial_update (doc : SettingsDoc F) (g : Globals F) :
    (apiSettings doc g).currentSearchRadius = doc.radius.getD g.currentSearchRadius ∧
      (apiSettings doc g).currentMaxAltitude = doc.altitude.getD g.currentMaxAltitude ∧
      (apiSettings doc g).currentUpdateInterval = doc.interval.getD g.currentUpdateInterval ∧
      (apiStatus (apiSettings doc g)).radius = doc.radius.getD (apiStatus g).radius ∧
      (apiStatus (apiSettings doc g)).altitude = doc.altitude.getD (apiStatus g).altitude ∧
      (apiStatus (apiSettings doc g)).interval = doc.interval.getD (apiStatus g).interval ∧
      (apiStatus (apiSettings doc g)).aircraft = (apiStatus g).aircraft ∧
      (apiStatus (apiSettings (SettingsDoc.mk (some 50) none none) g)).radius = 50 ∧
      (apiStatus (apiSettings (SettingsDoc.mk (some 50) none none) g)).altitude
        = (apiStatus g).altitude ∧
      (apiStatus (apiSettings (SettingsDoc.mk (some 50) none none) g)).interval
        = (apiStatus g).interval := by
  obtain ⟨h1, h2, h3, h4, _⟩ := apiSettings_fields doc g
  exact ⟨h1, h2, h3, h1, h2, h3, h4, rfl, rfl, rfl⟩

/-- C10 fails as stated. From the valid start-up settings, the write `radius = -5` is
applied: the radius becomes -5 instead of staying 100, and the settings are no longer
valid. -/
theorem apiSettings_accepts_invalid_radius :
    validSettings startGlobals ∧
      (applyWrites [writeRadiusNegative] startGlobals).currentSearchRadius = -5 ∧
      startGlobals.currentSearchRadius = 100 ∧
      ¬ validSettings (applyWrites [writeRadiusNegative] startGlobals) := by
  refine ⟨?_, rfl, rfl, ?_⟩
  · unfold validSettings; decide
  · unfold validSettings; decide

theorem apiSettings_valid (doc : SettingsDoc F) (g : Globals F) (hg : validSettings g)
    (hd : validWrite doc) : validSettings (apiSettings doc g) := by
  obtain ⟨h1, h2, h3, _, _⟩ := apiSettings_fields doc g
  unfold validSettings at hg ⊢
  unfold validWrite at hd
  rw [h1, h2, h3]
  obtain ⟨r, a, i⟩ := doc
  obtain ⟨hr, ha, hi⟩ := hd
  refine ⟨?_, ?_, ?_⟩
  · cases r with
    | none => exact hg.1
    | some v => exact hr v rfl
  · cases a with
    | none => exact hg.2.1
    | some v => exact ha v rfl
  · cases i with
    | none => exact hg.2.2
    | some v => exact hi v rfl

/-- C10, as amended. The handler validates nothing (C9: a present value is stored as
written); from settings that hold valid values, every sequence of writes all of whose
present values are valid leaves the settings valid. -/
theorem applyWrites_valid (docs : List (SettingsDoc F)) (g : Globals F)
    (hg : validSettings g) (hd : ∀ doc ∈ docs, validWrite doc) :
    validSettings (applyWrites docs g) := by
  induction docs generalizing g with
  | nil => exact hg
  | cons doc rest ih =>
    simp only [applyWrites, List.foldl_cons]
    exact ih (apiSettings doc g)
      (apiSettings_valid doc g hg (hd doc (List.mem_cons_self doc rest)))
      (fun d hmem => hd d (List.mem_cons_of_mem doc hmem))

/-- Two valid writes from the start-up settings: radius 50, then altitude 8000 with
interval 10; the settings stay valid. -/
theorem applyWrites_valid_witness :
    validSettings (applyWrites [writeRadius50, writeAltitudeInterval] startGlobals) ∧
      (applyWrites [writeRadius50, writeAltitudeInterval] startGlobals).currentSearchRadius
        = 50 ∧
      (applyWrites [writeRadius50, writeAltitudeInterval] startGlobals).currentMaxAltitude
        = 8000 ∧
      (applyWrites [writeRadius50, writeAltitudeInterval] startGlobals).currentUpdateInterval
        = 10 :=
  ⟨applyWrites_valid [writeRadius50, writeAltitudeInterval] startGlobals
    (by unfold validSettings; decide)
    (by
      intro doc hdoc
      simp only [List.mem_cons, List.mem_singleton, List.not_mem_nil, or_false] at hdoc
      rcases hdoc with h | h <;> subst h <;> unfold validWrite <;> decide),
   rfl, rfl, rfl⟩

end SettingsClaims

/-! ## The claims on the distance and the compass sector -/

section GeoClaims

/-- C11. For every coordinate `a`, `calculateDistance(a, a) = 0` (in exact real
arithmetic). -/
theorem calculateDistance_self (lat lon : ℝ) :
    calculateDistance realLibm lat lon lat lon = 0 := by
  have h1 : (⟨1, 0⟩ : ℂ) = 1 := rfl
  simp [calculateDistance, realLibm, h1]

/-- C12. For all coordinates `a` and `b`, `calculateDistance(a, b) = calculateDistance(b, a)`
(in exact real arithmetic). -/
theorem calculateDistance_comm (lat1 lon1 lat2 lon2 : ℝ) :
    calculateDistance realLibm lat1 lon1 lat2 lon2
      = calculateDistance realLibm lat2 lon2 lat1 lon1 := by
  have hs : ∀ x y : ℝ,
      Real.sin ((x - y) * Real.pi / 180 / 2) * Real.sin ((x - y) * Real.pi / 180 / 2)
        = Real.sin ((y - x) * Real.pi / 180 / 2) * Real.sin ((y - x) * Real.pi / 180 / 2) := by
    intro x y
    have hneg : (x - y) * Real.pi / 180 / 2 = -((y - x) * Real.pi / 180 / 2) := by ring
    rw [hneg, Real.sin_neg]; ring
  simp only [calculateDistance, realLibm]
  rw [hs lat2 lat1, mul_assoc _ (Real.sin _) (Real.sin _),
    mul_assoc _ (Real.sin _) (Real.sin _), hs lon2 lon1,
    mul_comm (Real.cos (lat1 * Real.pi / 180))]

/-- For an angle `θ` in the first quadrant the last two steps of the formula, applied to
`a = sin² θ`, give `θ` back. -/
theorem atan2_sqrt_haversine (θ : ℝ) (h0 : 0 ≤ θ) (h1 : θ ≤ Real.pi / 2) :
    realLibm.atan2 (realLibm.sqrt (Real.sin θ * Real.sin θ))
      (realLibm.sqrt (1 - Real.sin θ * Real.sin θ)) = θ := by
  have hs : 0 ≤ Real.sin θ :=
    Real.sin_nonneg_of_nonneg_of_le_pi h0 (by linarith [Real.pi_pos])
  have hc : 0 ≤ Real.cos θ :=
    Real.cos_nonneg_of_neg_pi_div_two_le_of_le (by linarith [Real.pi_pos]) h1
  have e1 : Real.sqrt (Real.sin θ * Real.sin θ) = Real.sin θ := Real.sqrt_mul_self hs
  have e2 : 1 - Real.sin θ * Real.sin θ = Real.cos θ * Real.cos θ := by
    have := Real.sin_sq_add_cos_sq θ
    nlinarith
  have e3 : Real.sqrt (1 - Real.sin θ * Real.sin θ) = Real.cos θ := by
    rw [e2]; exact Real.sqrt_mul_self hc
  simp only [realLibm, e1, e3]
  have e4 : (⟨Real.cos θ, Real.sin θ⟩ : ℂ)
      = (Real.cos θ : ℂ) + (Real.sin θ : ℂ) * Complex.I := Complex.mk_eq_add_mul_I _ _
  rw [e4]
  have harg := Complex.arg_cos_add_sin_mul_I (θ := θ)
    ⟨by linarith [Real.pi_pos], by linarith [Real.pi_pos]⟩
  simpa using harg

/-- C13. From (lat 0, lon 0) to (lat 0, lon 1°) `calculateDistance` gives `6371·π/180` km in
exact real arithmetic, which is within 1% of 111.2 km. -/
theorem calculateDistance_one_degree :
    calculateDistance realLibm 0 0 0 1 = 6371 * Real.pi / 180 ∧
      |calculateDistance realLibm 0 0 0 1 - 111.2| ≤ 0.01 * 111.2 := by
  have h : calculateDistance realLibm 0 0 0 1 = 6371 * Real.pi / 180 := by
    have key := atan2_sqrt_haversine (Real.pi / 360) (by positivity)
      (by linarith [Real.pi_pos])
    have ea : realLibm.sin (((0 : ℝ) - 0) * realLibm.PI / 180 / 2) *
          realLibm.sin (((0 : ℝ) - 0) * realLibm.PI / 180 / 2) +
        realLibm.cos (0 * realLibm.PI / 180) * realLibm.cos (0 * realLibm.PI / 180) *
          realLibm.sin (((1 : ℝ) - 0) * realLibm.PI / 180 / 2) *
          realLibm.sin (((1 : ℝ) - 0) * realLibm.PI / 180 / 2)
        = Real.sin (Real.pi / 360) * Real.sin (Real.pi / 360) := by
      have h2 : Real.pi / 180 / 2 = Real.pi / 360 := by ring
      simp [realLibm, h2]
    simp only [calculateDistance]
    rw [ea, key]; ring
  refine ⟨h, ?_⟩
  rw [h, abs_le]
  constructor <;> nlinarith [Real.pi_gt_d6, Real.pi_lt_d6]

/-- C20. For a heading in `[0, 360)` `getCompassDirection` returns the sector of the 45°
bucket that holds it (N for `[337.5, 360)` and `[0, 22.5)`, then NE, E, SE, S, SW, W, NW for
the buckets that start at 22.5, 67.5, ..., 292.5), and for a negative heading it returns
`?`. -/
theorem getCompassDirection_sector {F : Type} [LinearOrderedField F] (h : F) :
    (h < 0 → getCompassDirection h = "?") ∧
    (0 ≤ h → h < 360 →
      ((337.5 ≤ h ∨ h < 22.5) → getCompassDirection h = "N") ∧
      (22.5 ≤ h → h < 67.5 → getCompassDirection h = "NE") ∧
      (67.5 ≤ h → h < 112.5 → getCompassDirection h = "E") ∧
      (112.5 ≤ h → h < 157.5 → getCompassDirection h = "SE") ∧
      (157.5 ≤ h → h < 202.5 → getCompassDirection h = "S") ∧
      (202.5 ≤ h → h < 247.5 → getCompassDirection h = "SW") ∧
      (247.5 ≤ h → h < 292.5 → getCompassDirection h = "W") ∧
      (292.5 ≤ h → h < 337.5 → getCompassDirection h = "NW")) := by
  constructor
  · intro hneg
    simp [getCompassDirection, hneg]
  · intro h0 _
    have hn : ¬ h < 0 := not_lt.mpr h0
    have out : ∀ lo hi : F, (h < lo ∨ hi ≤ h) → ¬ (h ≥ lo ∧ h < hi) := by
      rintro lo hi (hc | hc) ⟨h1, h2⟩
      · exact absurd h1 (not_le.mpr hc)
      · exact absurd h2 (not_lt.mpr hc)
    have outN : (22.5 ≤ h ∧ h < 337.5) → ¬ (h ≥ 337.5 ∨ h < 22.5) := by
      rintro ⟨h1, h2⟩ (hc | hc)
      · exact absurd hc (not_le.mpr h2)
      · exact absurd hc (not_lt.mpr h1)
    refine ⟨?_, ?_, ?_, ?_, ?_, ?_, ?_, ?_⟩
    · intro hN
      simp only [getCompassDirection]
      rw [if_neg hn, if_pos hN]
    · intro h1 h2
      simp only [getCompassDirection]
      rw [if_neg hn, if_neg (outN ⟨h1, by linarith⟩), if_pos ⟨h1, h2⟩]
    · intro h1 h2
      simp only [getCompassDirection]
      rw [if_neg hn, if_neg (outN ⟨by linarith, by linarith⟩),
        if_neg (out _ _ (Or.inr (by linarith))), if_pos ⟨h1, h2⟩]
    · intro h1 h2
      simp only [getCompassDirection]
      rw [if_neg hn, if_neg (outN ⟨by linarith, by linarith⟩),
        if_neg (out _ _ (Or.inr (by linarith))), if_neg (out _ _ (Or.inr (by linarith))),
        if_pos ⟨h1, h2⟩]
    · intro h1 h2
      simp only [getCompassDirection]
      rw [if_neg hn, if_neg (outN ⟨by linarith, by linarith⟩),
        if_neg (out _ _ (Or.inr (by linarith))), if_neg (out _ _ (Or.inr (by linarith))),
        if_neg (out _ _ (Or.inr (by linarith))), if_pos ⟨h1, h2⟩]
    · intro h1 h2
      simp only [getCompassDirection]
      rw [if_neg hn, if_neg (outN ⟨by linarith, by linarith⟩),
        if_neg (out _ _ (Or.inr (by linarith))), if_neg (out _ _ (Or.inr (by linarith))),
        if_neg (out _ _ (Or.inr (by linarith))), if_neg (out _ _ (Or.inr (by linarith))),
        if_pos ⟨h1, h2⟩]
    · intro h1 h2
      simp only [getCompassDirection]
      rw [if_neg hn, if_neg (outN ⟨by linarith, by linarith⟩),
        if_neg (out _ _ (Or.inr (by linarith))), if_neg (out _ _ (Or.inr (by linarith))),
        if_neg (out _ _ (Or.inr (by linarith))), if_neg (out _ _ (Or.inr (by linarith))),
        if_neg (out _ _ (Or.inr (by linarith))), if_pos ⟨h1, h2⟩]
    · intro h1 h2
      simp only [getCompassDirection]
      rw [if_neg hn, if_neg (outN ⟨by linarith, by linarith⟩),
        if_neg (out _ _ (Or.inr (by linarith))), if_neg (out _ _ (Or.inr (by linarith))),
        if_neg (out _ _ (Or.inr (by linarith))), if_neg (out _ _ (Or.inr (by linarith))),
        if_neg (out _ _ (Or.inr (by linarith))), if_neg (out _ _ (Or.inr (by linarith))),
        if_pos ⟨h1, h2⟩]

/-- Headings 100° (in the bucket of E), 350° (N, upper part), 10° (N, lower part) and -1
(the default of an absent heading). -/
theorem getCompassDirection_sector_witness :
    getCompassDirection (100 : ℚ) = "E" ∧ getCompassDirection (350 : ℚ) = "N" ∧
      getCompassDirection (10 : ℚ) = "N" ∧ getCompassDirection (-1 : ℚ) = "?" :=
  ⟨((getCompassDirection_sector (100 : ℚ)).2 (by norm_num) (by norm_num)).2.2.1
      (by norm_num) (by norm_num),
   ((getCompassDirection_sector (350 : ℚ)).2 (by norm_num) (by norm_num)).1
      (Or.inl (by norm_num)),
   ((getCompassDirection_sector (10 : ℚ)).2 (by norm_num) (by norm_num)).1
      (Or.inr (by norm_num)),
   (getCompassDirection_sector (-1 : ℚ)).1 (by norm_num)⟩

end GeoClaims

/-! ## The claims on the recomputed distance and the route lookup -/

section RouteClaims

variable {F : Type} [LinearOrderedRing F]

theorem trim_length_of_length_zero (s : String) (h : s.length = 0) : (trim s).length = 0 := by
  have hd : s.data = [] := List.length_eq_zero.mp h
  simp [trim, hd, String.length]

theorem containsKey_of_member_array (doc : JsonVariant F) (key : String)
    (xs : List (JsonVariant F)) (h : doc.member key = JsonVariant.array xs) :
    doc.containsKey key = true := by
  cases doc with
  | object kvs =>
    simp only [JsonVariant.member] at h
    simp only [JsonVariant.containsKey]
    cases hf : kvs.find? (fun kv => kv.1 == key) with
    | none => rw [hf] at h; exact absurd h (by simp)
    | some kv =>
      rw [List.any_eq_true]
      have hkey := List.find?_some hf
      exact ⟨kv, List.mem_of_find?_eq_some hf, hkey⟩
  | null => simp [JsonVariant.member] at h
  | bool b => simp [JsonVariant.member] at h
  | number x => simp [JsonVariant.member] at h
  | string t => simp [JsonVariant.member] at h
  | array ys => simp [JsonVariant.member] at h

/-- A lookup that ends without a route leaves the record as it was. -/
theorem fetchRouteInfo_of_fails (env : Env F) (plane : Aircraft F)
    (h : routeLookupFails (env.route (trim plane.callsign))) :
    (fetchRouteInfo env plane).1 = plane := by
  unfold fetchRouteInfo applyRoute
  dsimp only
  split
  · rfl
  · split
    · rfl
    · rcases h with h | h | ⟨doc, hb, h | h | ⟨route, hr, hlen⟩⟩
      · rw [if_neg h]
      · split
        · rw [h]
        · rfl
      · split
        · rw [hb]; simp [h]
        · rfl
      · split
        · rw [hb]; simp [h]
        · rfl
      · split
        · rw [hb]
          have hnot : ¬ route.length ≥ 2 := by omega
          simp [hr, JsonVariant.asArray, JsonVariant.isArray, hnot]
        · rfl

/-- Either the lookup leaves the record as it was, or it was made for a non-empty callsign,
answered 200 with a `route` array of at least two entries, and set the two route fields
from the first and the last entry. -/
theorem fetchRouteInfo_cases (env : Env F) (plane : Aircraft F) :
    (fetchRouteInfo env plane).1 = plane ∨
    ∃ doc route, (trim plane.callsign).length ≠ 0 ∧
      (env.route (trim plane.callsign)).code = 200 ∧
      (env.route (trim plane.callsign)).body = some doc ∧
      doc.member "route" = JsonVariant.array route ∧ 2 ≤ route.length ∧
      (fetchRouteInfo env plane).1 =
        { plane with
          origin := (route.getD 0 JsonVariant.null).asString env.serializeJson
          destination :=
            (route.getD (route.length - 1) JsonVariant.null).asString env.serializeJson } := by
  by_cases h1 : plane.callsign.length = 0
  · left; simp [fetchRouteInfo, h1]
  by_cases h2 : (trim plane.callsign).length = 0
  · left; simp [fetchRouteInfo, h1, h2]
  by_cases h3 : (env.route (trim plane.callsign)).code = 200
  · cases hb : (env.route (trim plane.callsign)).body with
    | none => left; exact fetchRouteInfo_of_fails env plane (Or.inr (Or.inl hb))
    | some doc =>
      cases hm : doc.member "route" with
      | array route =>
        by_cases h4 : 2 ≤ route.length
        · right
          refine ⟨doc, route, h2, h3, rfl, hm, h4, ?_⟩
          have hk := containsKey_of_member_array doc "route" route hm
          simp [fetchRouteInfo, applyRoute, h1, h2, h3, hb, hm, hk, JsonVariant.isArray,
            JsonVariant.asArray, h4]
        · left
          exact fetchRouteInfo_of_fails env plane
            (Or.inr (Or.inr ⟨doc, hb, Or.inr (Or.inr ⟨route, hm, by omega⟩)⟩))
      | null =>
        left
        exact fetchRouteInfo_of_fails env plane
          (Or.inr (Or.inr ⟨doc, hb, Or.inr (Or.inl (by rw [hm]; rfl))⟩))
      | bool b =>
        left
        exact fetchRouteInfo_of_fails env plane
          (Or.inr (Or.inr ⟨doc, hb, Or.inr (Or.inl (by rw [hm]; rfl))⟩))
      | number x =>
        left
        exact fetchRouteInfo_of_fails env plane
          (Or.inr (Or.inr ⟨doc, hb, Or.inr (Or.inl (by rw [hm]; rfl))⟩))
      | string t =>
        left
        exact fetchRouteInfo_of_fails env plane
          (Or.inr (Or.inr ⟨doc, hb, Or.inr (Or.inl (by rw [hm]; rfl))⟩))
      | object kvs =>
        left
        exact fetchRouteInfo_of_fails env plane
          (Or.inr (Or.inr ⟨doc, hb, Or.inr (Or.inl (by rw [hm]; rfl))⟩))
  · left; exact fetchRouteInfo_of_fails env plane (Or.inl h3)

/-- The cells of the rebuilt registry: the sorted cells, none with a route, then the route
lookup applied to cell 0 alone. -/
theorem rebuild_cells (env : Env F) (doc : JsonVariant F) (g : Globals F) :
    ∃ sorted : Nat → Aircraft F,
      (∀ i, i < (rebuild env doc g).aircraftCount → eraseRoute (sorted i) = sorted i) ∧
      (∀ i, i ≠ 0 → (rebuild env doc g).aircraft i = sorted i) ∧
      (0 < (rebuild env doc g).aircraftCount →
        (rebuild env doc g).aircraft 0 = (fetchRouteInfo env (sorted 0)).1) := by
  rcases rebuild_cases env doc g with ⟨_, hr⟩ | ⟨_, hr⟩
  · rw [hr]
    exact ⟨g.aircraft, fun i hi => absurd hi (Nat.not_lt_zero i), fun _ _ => rfl,
      fun h => absurd h (Nat.lt_irrefl 0)⟩
  · rw [hr]
    refine ⟨(sortByDistance (scanLoop env (feedStates doc)
      { g with serial := g.serial ++ [SerialEvent.found (feedStates doc).length],
               aircraftCount := 0 })).aircraft, ?_, ?_, ?_⟩
    · intro i hi
      rw [enrichClosest_count] at hi
      have hmem : (sortByDistance (scanLoop env (feedStates doc)
          { g with serial := g.serial ++ [SerialEvent.found (feedStates doc).length],
                   aircraftCount := 0 })).aircraft i
          ∈ registry (sortByDistance (scanLoop env (feedStates doc)
          { g with serial := g.serial ++ [SerialEvent.found (feedStates doc).length],
                   aircraftCount := 0 })) :=
        (mem_registry_iff _ _).mpr ⟨i, hi, rfl⟩
      have hperm := sortByDistance_registry_perm (scanLoop env (feedStates doc)
        { g with serial := g.serial ++ [SerialEvent.found (feedStates doc).length],
                 aircraftCount := 0 })
      rw [registry_scanLoop env _ _ rfl] at hperm
      have h2 := hperm.mem_iff.mp hmem
      simp only [scanRecords, List.mem_map] at h2
      obtain ⟨p, _, hp⟩ := h2
      rw [← hp]
      rfl
    · intro i hi
      unfold enrichClosest
      split
      · simp only [Function.update_noteq hi]
      · rfl
    · intro hpos
      rw [enrichClosest_count] at hpos
      unfold enrichClosest
      rw [if_pos hpos]
      simp only [Function.update_same]

/-- C14. After every rebuild each record of the registry carries the distance
`calculateDistance(MY_LATITUDE, MY_LONGITUDE, latitude, longitude)` of its own position,
whichever function the cycle calls for it; for the Haversine function in real arithmetic in
particular. -/
theorem rebuild_distance_recomputed (env : Env F) (doc : JsonVariant F) (g : Globals F) :
    (∀ r, r ∈ registry (rebuild env doc g) →
      r.distance = env.calculateDistance env.MY_LATITUDE env.MY_LONGITUDE
        r.latitude r.longitude) ∧
    (∀ (envR : Env ℝ) (docR : JsonVariant ℝ) (gR : Globals ℝ),
      envR.calculateDistance = calculateDistance realLibm →
      ∀ r, r ∈ registry (rebuild envR docR gR) →
        r.distance = calculateDistance realLibm envR.MY_LATITUDE envR.MY_LONGITUDE
          r.latitude r.longitude) := by
  have key : ∀ {K : Type} [LinearOrderedRing K] (e : Env K) (dc : JsonVariant K)
      (gl : Globals K) (r : Aircraft K), r ∈ registry (rebuild e dc gl) →
      r.distance = e.calculateDistance e.MY_LATITUDE e.MY_LONGITUDE r.latitude r.longitude := by
    intro K _ e dc gl r hr
    obtain ⟨slot, sv, _, he⟩ := mem_registry_rebuild e dc gl r hr
    have h0 : (eraseRoute r).distance = (storeAircraft e slot sv).distance :=
      congrArg Aircraft.distance he
    have h1 : r.distance = (storeAircraft e slot sv).distance := h0
    have h2 : r.latitude = sv.lat := congrArg Aircraft.latitude he
    have h3 : r.longitude = sv.lon := congrArg Aircraft.longitude he
    rw [h1, h2, h3]
    rfl
  refine ⟨fun r hr => key env doc g r hr, ?_⟩
  intro envR docR gR hcalc r hr
  rw [key envR docR gR r hr, hcalc]

/-- The mixed feed: the record of G, at latitude 2 and longitude 2, is in the registry with
the distance the cycle's function gives for that position. -/
theorem rebuild_distance_recomputed_witness :
    storeAircraft (envOf mixedStates) blankAircraft (parseState stateG.asArray)
        ∈ registry (rebuild (envOf mixedStates) (feedOf mixedStates) startGlobals) ∧
      (storeAircraft (envOf mixedStates) blankAircraft (parseState stateG.asArray)).distance
        = (envOf mixedStates).calculateDistance 0 0 2 2 :=
  ⟨by decide,
   (rebuild_distance_recomputed (envOf mixedStates) (feedOf mixedStates) startGlobals).1
      (storeAircraft (envOf mixedStates) blankAircraft (parseState stateG.asArray))
      (by decide)⟩

/-- C15. When the route lookup is made and answers 200 with a `route` array of at least two
entries (`first`, any number of entries between, `last`), the record's origin is the first
entry and its destination the last one, read as strings; no other field changes. -/
theorem fetchRouteInfo_endpoints (env : Env F) (plane : Aircraft F) (doc : JsonVariant F)
    (first last : JsonVariant F) (mid : List (JsonVariant F))
    (hcs : (trim plane.callsign).length ≠ 0)
    (hcode : (env.route (trim plane.callsign)).code = 200)
    (hbody : (env.route (trim plane.callsign)).body = some doc)
    (hroute : doc.member "route" = JsonVariant.array (first :: (mid ++ [last]))) :
    (fetchRouteInfo env plane).1.origin = first.asString env.serializeJson ∧
      (fetchRouteInfo env plane).1.destination = last.asString env.serializeJson ∧
      (∀ o, first = JsonVariant.string o → (fetchRouteInfo env plane).1.origin = o) ∧
      (∀ t, last = JsonVariant.string t → (fetchRouteInfo env plane).1.destination = t) ∧
      eraseRoute (fetchRouteInfo env plane).1 = eraseRoute plane := by
  have h1 : plane.callsign.length ≠ 0 := fun h => hcs (trim_length_of_length_zero _ h)
  have hk := containsKey_of_member_array doc "route" _ hroute
  have hlast : (first :: (mid ++ [last])).getD ((first :: (mid ++ [last])).length - 1)
      JsonVariant.null = last := by
    simp [List.getD_eq_getElem?_getD]
  have hres : (fetchRouteInfo env plane).1 =
      { plane with
        origin := first.asString env.serializeJson
        destination := last.asString env.serializeJson } := by
    unfold fetchRouteInfo applyRoute
    rw [if_neg h1]
    dsimp only
    rw [if_neg hcs, if_pos hcode, hbody]
    dsimp only
    rw [hk, hroute]
    simp only [JsonVariant.isArray, JsonVariant.asArray, Bool.and_self, if_true, hlast]
    simp
  refine ⟨by rw [hres], by rw [hres], ?_, ?_, fetchRouteInfo_eraseRoute env plane⟩
  · intro o ho; rw [hres, ho]; rfl
  · intro t ht; rw [hres, ht]; rfl

/-- The record D with callsign `ALPHA1` and the three-leg route EYVI, EDDF, EGLL: origin
EYVI, destination EGLL. -/
theorem fetchRouteInfo_endpoints_witness :
    (fetchRouteInfo (envWithRoute mixedStates)
        (storeAircraft (envOf mixedStates) blankAircraft (parseState stateD.asArray))).1.origin
      = "EYVI" ∧
    (fetchRouteInfo (envWithRoute mixedStates)
        (storeAircraft (envOf mixedStates) blankAircraft
          (parseState stateD.asArray))).1.destination = "EGLL" :=
  ⟨(fetchRouteInfo_endpoints (envWithRoute mixedStates)
      (storeAircraft (envOf mixedStates) blankAircraft (parseState stateD.asArray))
      (JsonVariant.object [("route", JsonVariant.array
        [JsonVariant.string "EYVI", JsonVariant.string "EDDF", JsonVariant.string "EGLL"])])
      (JsonVariant.string "EYVI") (JsonVariant.string "EGLL") [JsonVariant.string "EDDF"]
      (by decide) (by decide) rfl rfl).2.2.1 "EYVI" rfl,
   (fetchRouteInfo_endpoints (envWithRoute mixedStates)
      (storeAircraft (envOf mixedStates) blankAircraft (parseState stateD.asArray))
      (JsonVariant.object [("route", JsonVariant.array
        [JsonVariant.string "EYVI", JsonVariant.string "EDDF", JsonVariant.string "EGLL"])])
      (JsonVariant.string "EYVI") (JsonVariant.string "EGLL") [JsonVariant.string "EDDF"]
      (by decide) (by decide) rfl rfl).2.2.2.1 "EGLL" rfl⟩

/-- C16. If the route lookup for the nearest record does not succeed (a status other than
200, an unparseable body, a missing or non-array `route`, or fewer than two entries), the
record in cell 0 has empty origin and destination after the rebuild. -/
theorem rebuild_route_empty_of_lookup_fails (env : Env F) (doc : JsonVariant F)
    (g : Globals F) (hpos : 0 < (rebuild env doc g).aircraftCount)
    (hfail : routeLookupFails
      (env.route (trim ((rebuild env doc g).aircraft 0).callsign))) :
    ((rebuild env doc g).aircraft 0).origin = "" ∧
      ((rebuild env doc g).aircraft 0).destination = "" := by
  obtain ⟨sorted, hnone, _, hzero⟩ := rebuild_cells env doc g
  have h0 := hzero hpos
  have hcs : ((rebuild env doc g).aircraft 0).callsign = (sorted 0).callsign := by
    have he := fetchRouteInfo_eraseRoute env (sorted 0)
    rw [← h0] at he
    have hc : (eraseRoute ((rebuild env doc g).aircraft 0)).callsign
        = (eraseRoute (sorted 0)).callsign := congrArg Aircraft.callsign he
    exact hc
  rw [hcs] at hfail
  have hsame := fetchRouteInfo_of_fails env (sorted 0) hfail
  rw [h0, hsame]
  have hs := hnone 0 hpos
  exact ⟨(congrArg Aircraft.origin hs).symm, (congrArg Aircraft.destination hs).symm⟩

/-- The mixed feed with a lookup that answers the single-element route EYVI: the nearest
record, D, keeps empty route fields. -/
theorem rebuild_route_empty_of_lookup_fails_witness :
    ((rebuild (envSingleRoute mixedStates) (feedOf mixedStates) startGlobals).aircraft 0).icao24
        = "a1" ∧
      ((rebuild (envSingleRoute mixedStates) (feedOf mixedStates) startGlobals).aircraft 0).origin
        = "" ∧
      ((rebuild (envSingleRoute mixedStates) (feedOf mixedStates)
        startGlobals).aircraft 0).destination = "" :=
  ⟨by decide,
   rebuild_route_empty_of_lookup_fails (envSingleRoute mixedStates) (feedOf mixedStates)
    startGlobals (by decide)
    (Or.inr (Or.inr ⟨JsonVariant.object [("route", JsonVariant.array
        [JsonVariant.string "EYVI"])], rfl,
      Or.inr (Or.inr ⟨[JsonVariant.string "EYVI"], rfl, by decide⟩)⟩))⟩

/-- C17. After a rebuild every record at an index from 1 on has empty origin and
destination, and the record in cell 0 has a non-empty route field only if the lookup of
this cycle, made for its callsign, answered 200 with a `route` array of at least two entries
from which both fields were set; nothing of the routes held before the call remains. -/
theorem rebuild_routes_fresh (env : Env F) (doc : JsonVariant F) (g : Globals F) :
    (∀ i, 1 ≤ i → i < (rebuild env doc g).aircraftCount →
      ((rebuild env doc g).aircraft i).origin = "" ∧
        ((rebuild env doc g).aircraft i).destination = "") ∧
    (0 < (rebuild env doc g).aircraftCount →
      (((rebuild env doc g).aircraft 0).origin ≠ "" ∨
        ((rebuild env doc g).aircraft 0).destination ≠ "") →
      ∃ rdoc route, (trim ((rebuild env doc g).aircraft 0).callsign).length ≠ 0 ∧
        (env.route (trim ((rebuild env doc g).aircraft 0).callsign)).code = 200 ∧
        (env.route (trim ((rebuild env doc g).aircraft 0).callsign)).body = some rdoc ∧
        rdoc.member "route" = JsonVariant.array route ∧ 2 ≤ route.length ∧
        ((rebuild env doc g).aircraft 0).origin
          = (route.getD 0 JsonVariant.null).asString env.serializeJson ∧
        ((rebuild env doc g).aircraft 0).destination
          = (route.getD (route.length - 1) JsonVariant.null).asString env.serializeJson) := by
  obtain ⟨sorted, hnone, hrest, hzero⟩ := rebuild_cells env doc g
  constructor
  · intro i hi hlt
    rw [hrest i (by omega)]
    have hs := hnone i hlt
    exact ⟨(congrArg Aircraft.origin hs).symm, (congrArg Aircraft.destination hs).symm⟩
  · intro hpos hne
    have h0 := hzero hpos
    have hcs : ((rebuild env doc g).aircraft 0).callsign = (sorted 0).callsign := by
      have he := fetchRouteInfo_eraseRoute env (sorted 0)
      rw [← h0] at he
      have hc : (eraseRoute ((rebuild env doc g).aircraft 0)).callsign
          = (eraseRoute (sorted 0)).callsign := congrArg Aircraft.callsign he
      exact hc
    have hs := hnone 0 hpos
    rcases fetchRouteInfo_cases env (sorted 0) with hsame | ⟨rdoc, route, h1, h2, h3, h4, h5, h6⟩
    · exfalso
      rw [h0, hsame] at hne
      rcases hne with hne | hne
      · exact hne (congrArg Aircraft.origin hs).symm
      · exact hne (congrArg Aircraft.destination hs).symm
    · rw [hcs]
      refine ⟨rdoc, route, h1, h2, h3, h4, h5, ?_, ?_⟩
      · rw [h0, h6]
      · rw [h0, h6]

/-- A cycle over the mixed feed run after one that gave cell 0 the route EYVI to EGLL: with
a lookup that finds nothing every route field is empty again, cell 0 included; with the
lookup that knows `ALPHA1`, cell 0 gets its route from this lookup and cell 1 has none. -/
theorem rebuild_routes_fresh_witness :
    (routedGlobals.aircraft 0).origin = "EYVI" ∧
      (registry (rebuild (envOf mixedStates) (feedOf mixedStates) routedGlobals)).map
        (fun r => (r.origin, r.destination)) = [("", ""), ("", ""), ("", ""), ("", "")] ∧
      (((rebuild (envWithRoute mixedStates) (feedOf mixedStates) routedGlobals).aircraft 1).origin
          = "" ∧
        ((rebuild (envWithRoute mixedStates) (feedOf mixedStates)
          routedGlobals).aircraft 1).destination = "") ∧
      ∃ rdoc route,
        (trim ((rebuild (envWithRoute mixedStates) (feedOf mixedStates)
          routedGlobals).aircraft 0).callsign).length ≠ 0 ∧
        ((envWithRoute mixedStates).route (trim ((rebuild (envWithRoute mixedStates)
          (feedOf mixedStates) routedGlobals).aircraft 0).callsign)).code = 200 ∧
        ((envWithRoute mixedStates).route (trim ((rebuild (envWithRoute mixedStates)
          (feedOf mixedStates) routedGlobals).aircraft 0).callsign)).body = some rdoc ∧
        rdoc.member "route" = JsonVariant.array route ∧ 2 ≤ route.length ∧
        ((rebuild (envWithRoute mixedStates) (feedOf mixedStates)
            routedGlobals).aircraft 0).origin
          = (route.getD 0 JsonVariant.null).asString (envWithRoute mixedStates).serializeJson ∧
        ((rebuild (envWithRoute mixedStates) (feedOf mixedStates)
            routedGlobals).aircraft 0).destination
          = (route.getD (route.length - 1) JsonVariant.null).asString
              (envWithRoute mixedStates).serializeJson :=
  ⟨by decide, by decide,
   (rebuild_routes_fresh (envWithRoute mixedStates) (feedOf mixedStates) routedGlobals).1 1
      (by decide) (by decide),
   (rebuild_routes_fresh (envWithRoute mixedStates) (feedOf mixedStates) routedGlobals).2
      (by decide) (Or.inl (by decide))⟩

end RouteClaims

/-! ## The claims on what a cycle depends on, and on the display -/

section DeterminismClaims

variable {F : Type} [LinearOrderedRing F]

theorem storeAircraft_congr (env : Env F) (slot slot' : Aircraft F) (sv : StateVector F)
    (h : slot.lastSeen = slot'.lastSeen) :
    storeAircraft env slot sv = storeAircraft env slot' sv := by
  simp only [storeAircraft, h]

theorem swapAircraft_congr (n i j : Nat) (a a' : Nat → Aircraft F) (hi : i < n) (hj : j < n)
    (h : ∀ m, m < n → a m = a' m) : ∀ m, m < n → swapAircraft a i j m = swapAircraft a' i j m := by
  intro m hm
  rw [swapAircraft_eq, swapAircraft_eq]
  simp only [Function.comp]
  apply h
  rw [Equiv.swap_apply_def]
  split_ifs <;> assumption

/-- The inner loop reads and writes only cells below `n`: two arrays that agree there still
do afterwards. -/
theorem sortInner_congr (n i : Nat) (k : Nat) : ∀ (j : Nat) (a a' : Nat → Aircraft F),
    i < n → j + k ≤ n → (∀ m, m < n → a m = a' m) →
    ∀ m, m < n → sortInner i k j a m = sortInner i k j a' m := by
  induction k with
  | zero => intro j a a' _ _ h m hm; exact h m hm
  | succ k ih =>
    intro j a a' hi hjk h m hm
    simp only [sortInner]
    have hj : j < n := by omega
    rw [h j hj, h i hi]
    refine ih (j + 1) _ _ hi (by omega) ?_ m hm
    intro p hp
    split
    · exact swapAircraft_congr n i j a a' hi hj h p hp
    · exact h p hp

theorem sortOuter_congr (n : Nat) (k : Nat) : ∀ (i : Nat) (a a' : Nat → Aircraft F),
    i + k < n ∨ k = 0 → (∀ m, m < n → a m = a' m) →
    ∀ m, m < n → sortOuter n k i a m = sortOuter n k i a' m := by
  induction k with
  | zero => intro i a a' _ h m hm; exact h m hm
  | succ k ih =>
    intro i a a' hik h m hm
    have hin : i + (k + 1) < n := by omega
    simp only [sortOuter]
    exact ih (i + 1) _ _ (by omega)
      (sortInner_congr n i (n - (i + 1)) (i + 1) a a' (by omega) (by omega) h) m hm

/-- The rebuilt registry depends on the prior globals only through the altitude ceiling and
the `lastSeen` fields, which the cycle never assigns. -/
theorem rebuild_congr (env : Env F) (doc : JsonVariant F) (g g' : Globals F)
    (hmax : g.currentMaxAltitude = g'.currentMaxAltitude)
    (hseen : ∀ i, (g.aircraft i).lastSeen = (g'.aircraft i).lastSeen) :
    (rebuild env doc g).aircraftCount = (rebuild env doc g').aircraftCount ∧
      registry (rebuild env doc g) = registry (rebuild env doc g') := by
  rcases rebuild_cases env doc g with ⟨hs, hr⟩ | ⟨hs, hr⟩
  · rcases rebuild_cases env doc g' with ⟨_, hr'⟩ | ⟨hs', _⟩
    · rw [hr, hr']; exact ⟨rfl, rfl⟩
    · exact absurd hs hs'
  · rcases rebuild_cases env doc g' with ⟨hs', _⟩ | ⟨_, hr'⟩
    · exact absurd hs' hs
    · have hrec : scanRecords env g (feedStates doc) = scanRecords env g' (feedStates doc) := by
        simp only [scanRecords, hmax]
        apply List.map_congr_left
        intro p _
        exact storeAircraft_congr env _ _ p.2 (hseen p.1)
      have hreg := registry_scanLoop env (feedStates doc)
        { g with serial := g.serial ++ [SerialEvent.found (feedStates doc).length],
                 aircraftCount := 0 } rfl
      have hreg' := registry_scanLoop env (feedStates doc)
        { g' with serial := g'.serial ++ [SerialEvent.found (feedStates doc).length],
                  aircraftCount := 0 } rfl
      have hregs : registry (scanLoop env (feedStates doc)
          { g with serial := g.serial ++ [SerialEvent.found (feedStates doc).length],
                   aircraftCount := 0 })
          = registry (scanLoop env (feedStates doc)
          { g' with serial := g'.serial ++ [SerialEvent.found (feedStates doc).length],
                    aircraftCount := 0 }) := by
        rw [hreg, hreg']; exact hrec
      generalize scanLoop env (feedStates doc)
        { g with serial := g.serial ++ [SerialEvent.found (feedStates doc).length],
                 aircraftCount := 0 } = G at hr hregs
      generalize scanLoop env (feedStates doc)
        { g' with serial := g'.serial ++ [SerialEvent.found (feedStates doc).length],
                  aircraftCount := 0 } = G' at hr' hregs
      have hcount : G.aircraftCount = G'.aircraftCount := by
        have := congrArg List.length hregs
        simpa [registry] using this
      have hcells : ∀ m, m < G.aircraftCount → G.aircraft m = G'.aircraft m := by
        intro m hm
        have h1 : (registry G)[m]? = some (G.aircraft m) := by
          simp [registry, List.getElem?_range hm]
        have h2 : (registry G')[m]? = some (G'.aircraft m) := by
          simp [registry, List.getElem?_range (hcount ▸ hm)]
        rw [hregs, h2] at h1
        exact (Option.some.inj h1).symm
      have hsorted : ∀ m, m < G.aircraftCount →
          (sortByDistance G).aircraft m = (sortByDistance G').aircraft m := by
        intro m hm
        simp only [sortByDistance, ← hcount]
        exact sortOuter_congr G.aircraftCount (G.aircraftCount - 1) 0 G.aircraft G'.aircraft
          (by omega) hcells m hm
      rw [hr, hr']
      refine ⟨?_, ?_⟩
      · rw [enrichClosest_count, enrichClosest_count]; exact hcount
      · simp only [registry, enrichClosest_count]
        show List.map _ (List.range G.aircraftCount) = List.map _ (List.range G'.aircraftCount)
        rw [← hcount]
        apply List.map_congr_left
        intro m hm
        have hm' : m < G.aircraftCount := List.mem_range.mp hm
        unfold enrichClosest
        have hp : (0 : Nat) < G.aircraftCount := by omega
        have hp' : (0 : Nat) < G'.aircraftCount := by omega
        simp only [sortByDistance] at hsorted
        simp only [sortByDistance, gt_iff_lt, hp, hp', if_true]
        by_cases h0 : m = 0
        · subst h0
          simp only [Function.update_same]
          rw [hsorted 0 hp]
        · simp only [Function.update_noteq h0]
          exact hsorted m hm'

theorem scanLoop_lastSeen (env : Env F) (states : List (JsonVariant F)) (g : Globals F)
    (hg : g.aircraftCount ≤ MAX_AIRCRAFT) (i : Nat) :
    ((scanLoop env states g).aircraft i).lastSeen = (g.aircraft i).lastSeen := by
  rw [(scanLoop_spec env states g hg).2.2 i]
  split
  · rfl
  · split <;> rfl

/-- The cycle never assigns `lastSeen`: if it is zero in every cell before a rebuild, it is
zero in every cell after it. -/
theorem rebuild_lastSeen (env : Env F) (doc : JsonVariant F) (g : Globals F)
    (h : ∀ i, (g.aircraft i).lastSeen = 0) (i : Nat) :
    ((rebuild env doc g).aircraft i).lastSeen = 0 := by
  rcases rebuild_cases env doc g with ⟨_, hr⟩ | ⟨_, hr⟩
  · rw [hr]; exact h i
  · rw [hr]
    have he := enrichClosest_eraseRoute env
      { sortByDistance (scanLoop env (feedStates doc)
          { g with serial := g.serial ++ [SerialEvent.found (feedStates doc).length],
                   aircraftCount := 0 }) with
        serial := (sortByDistance (scanLoop env (feedStates doc)
          { g with serial := g.serial ++ [SerialEvent.found (feedStates doc).length],
                   aircraftCount := 0 })).serial ++
          [SerialEvent.tracking (sortByDistance (scanLoop env (feedStates doc)
            { g with serial := g.serial ++ [SerialEvent.found (feedStates doc).length],
                     aircraftCount := 0 })).aircraftCount] } i
    have hl : ∀ x y : Aircraft F, eraseRoute x = eraseRoute y → x.lastSeen = y.lastSeen :=
      fun x y hxy =>
        show (eraseRoute x).lastSeen = (eraseRoute y).lastSeen from
          congrArg Aircraft.lastSeen hxy
    rw [hl _ _ he]
    obtain ⟨σ, hσ, _⟩ := sortByDistance_perm (scanLoop env (feedStates doc)
      { g with serial := g.serial ++ [SerialEvent.found (feedStates doc).length],
               aircraftCount := 0 })
    show ((sortByDistance _).aircraft i).lastSeen = 0
    rw [hσ]
    simp only [Function.comp]
    rw [scanLoop_lastSeen env _ _ (Nat.zero_le _)]
    exact h (σ i)

theorem updateAircraftData_lastSeen (env : Env F) (g : Globals F)
    (h : ∀ i, (g.aircraft i).lastSeen = 0) (i : Nat) :
    ((updateAircraftData env g).aircraft i).lastSeen = 0 := by
  unfold updateAircraftData
  split
  · exact h i
  · dsimp only
    split
    · split
      · exact rebuild_lastSeen env _
          { g with serial := g.serial ++ [SerialEvent.fetching] } (fun j => h j) i
      · exact h i
    · exact h i

/-- In every state the sketch reaches, `lastSeen` is zero in every cell of the array. -/
theorem reachable_lastSeen (d : Device F) (hd : Reachable d) :
    ∀ i, (d.globals.aircraft i).lastSeen = 0 := by
  induction hd with
  | start radius altitude interval => intro i; rfl
  | update env d _ ih => exact updateAircraftData_lastSeen env d.globals ih
  | write doc d _ ih =>
    intro i
    have ha := (apiSettings_fields doc d.globals).2.2.2.2
    show ((apiSettings doc d.globals).aircraft i).lastSeen = 0
    rw [ha]; exact ih i
  | tick env currentMillis d _ ih =>
    intro i
    have hg1 : ∀ j, ((if elapsedMillis currentMillis d.globals.lastUpdate
          ≥ updateThreshold d.globals then updateAircraftData env d.globals
        else d.globals).aircraft j).lastSeen = 0 := by
      intro j
      split
      · exact updateAircraftData_lastSeen env d.globals ih j
      · exact ih j
    unfold loop
    dsimp only
    generalize (if elapsedMillis currentMillis d.globals.lastUpdate
          ≥ updateThreshold d.globals then updateAircraftData env d.globals
        else d.globals) = g1 at hg1 ⊢
    split
    · split <;> exact hg1 i
    · split <;> exact hg1 i

/-- C18. The count and the records of the registry after a successful cycle are the same
from any two states the sketch can reach that hold the same altitude ceiling: they depend on
the feed, the observer, the ceiling and the route response, not on the registry before the
call; in particular a second rebuild on the same inputs returns the same registry. -/
theorem rebuild_independent_of_prior_registry (env : Env F) (doc : JsonVariant F)
    (d d' : Device F) (hd : Reachable d) (hd' : Reachable d')
    (hmax : d.globals.currentMaxAltitude = d'.globals.currentMaxAltitude) :
    (rebuild env doc d.globals).aircraftCount = (rebuild env doc d'.globals).aircraftCount ∧
      registry (rebuild env doc d.globals) = registry (rebuild env doc d'.globals) ∧
      registry (rebuild env doc (rebuild env doc d.globals))
        = registry (rebuild env doc d.globals) := by
  have h1 := rebuild_congr env doc d.globals d'.globals hmax
    (fun i => by rw [reachable_lastSeen d hd i, reachable_lastSeen d' hd' i])
  have h2 := rebuild_congr env doc (rebuild env doc d.globals) d.globals
    (rebuild_maxAltitude env doc d.globals)
    (fun i => by
      rw [rebuild_lastSeen env doc d.globals (reachable_lastSeen d hd) i,
        reachable_lastSeen d hd i])
  exact ⟨h1.1, h1.2, h2.2⟩

/-- The mixed feed rebuilt from the start-up state (empty registry) and from the state after
a cycle that tracked B and A: the same four records in the same order. -/
theorem rebuild_independent_of_prior_registry_witness :
    registry startDevice.globals = [] ∧ (registry trackedDevice.globals).length = 2 ∧
      (rebuild (envOf mixedStates) (feedOf mixedStates) startDevice.globals).aircraftCount
        = (rebuild (envOf mixedStates) (feedOf mixedStates) trackedDevice.globals).aircraftCount ∧
      registry (rebuild (envOf mixedStates) (feedOf mixedStates) startDevice.globals)
        = registry (rebuild (envOf mixedStates) (feedOf mixedStates) trackedDevice.globals) ∧
      registry (rebuild (envOf mixedStates) (feedOf mixedStates)
          (rebuild (envOf mixedStates) (feedOf mixedStates) startDevice.globals))
        = registry (rebuild (envOf mixedStates) (feedOf mixedStates) startDevice.globals) :=
  ⟨by decide, by decide,
   rebuild_independent_of_prior_registry (envOf mixedStates) (feedOf mixedStates)
    startDevice trackedDevice (Reachable.start 100 12000 30)
    (Reachable.update (envOf [stateA, stateB]) startDevice (Reachable.start 100 12000 30))
    rfl⟩

theorem scanLoop_lastDisplayRotation (env : Env F) : ∀ (states : List (JsonVariant F))
    (g : Globals F), (scanLoop env states g).lastDisplayRotation = g.lastDisplayRotation := by
  intro states
  induction states with
  | nil => intro g; rfl
  | cons s rest ih =>
    intro g
    simp only [scanLoop]
    split
    · rfl
    · rw [ih]
      cases hp : passes g.currentMaxAltitude (parseState s.asArray) with
      | false => rw [scanBody_of_not_passes env _ g hp]
      | true => rw [scanBody_of_passes env _ g hp]

theorem rebuild_lastDisplayRotation (env : Env F) (doc : JsonVariant F) (g : Globals F) :
    (rebuild env doc g).lastDisplayRotation = g.lastDisplayRotation := by
  rcases rebuild_cases env doc g with ⟨_, hr⟩ | ⟨_, hr⟩
  · rw [hr]
  · rw [hr]
    have he : ∀ g4 : Globals F,
        (enrichClosest env g4).lastDisplayRotation = g4.lastDisplayRotation := by
      intro g4; unfold enrichClosest; split <;> rfl
    rw [he]
    exact scanLoop_lastDisplayRotation env (feedStates doc) _

theorem updateAircraftData_lastDisplayRotation (env : Env F) (g : Globals F) :
    (updateAircraftData env g).lastDisplayRotation = g.lastDisplayRotation := by
  unfold updateAircraftData
  split
  · rfl
  · dsimp only
    split
    · split
      · exact rebuild_lastDisplayRotation env _
          { g with serial := g.serial ++ [SerialEvent.fetching] }
      · rfl
    · rfl

/-- C19. The drawing call a pass of `loop()` makes, if it makes one, is the idle display
exactly when the registry (after the acquisition step of that pass) is empty, and is
`drawAircraft(aircraft[0])` otherwise; it is made when the timer of that branch has run out
(1000 ms idle, 500 ms tracking). A pass whose acquisition step ran on a feed with zero
states finds the registry empty and can only request the idle display. -/
theorem loop_display_request (env : Env F) (currentMillis : Nat) (d : Device F) :
    ∃ out, (loop env currentMillis d).display = d.display ++ out ∧
      (∀ req, req ∈ out →
        (req = DisplayRequest.radarScan ↔
          (loop env currentMillis d).globals.aircraftCount = 0) ∧
        ((loop env currentMillis d).globals.aircraftCount ≠ 0 →
          req = DisplayRequest.aircraft ((loop env currentMillis d).globals.aircraft 0))) ∧
      ((loop env currentMillis d).globals.aircraftCount = 0 →
        elapsedMillis currentMillis d.lastRadarDraw ≥ 1000 →
        out = [DisplayRequest.radarScan]) ∧
      ((loop env currentMillis d).globals.aircraftCount ≠ 0 →
        elapsedMillis currentMillis d.globals.lastDisplayRotation ≥ 500 →
        out = [DisplayRequest.aircraft ((loop env currentMillis d).globals.aircraft 0)]) ∧
      (∀ doc, elapsedMillis currentMillis d.globals.lastUpdate ≥ updateThreshold d.globals →
        env.wifiConnected = true → env.feed.code = 200 → env.feed.body = some doc →
        feedStates doc = [] →
        (loop env currentMillis d).globals.aircraftCount = 0 ∧
          ∀ req, req ∈ out → req = DisplayRequest.radarScan) := by
  have hrot : (if elapsedMillis currentMillis d.globals.lastUpdate ≥ updateThreshold d.globals
      then updateAircraftData env d.globals else d.globals).lastDisplayRotation
      = d.globals.lastDisplayRotation := by
    split
    · exact updateAircraftData_lastDisplayRotation env d.globals
    · rfl
  have hzero : ∀ doc,
      elapsedMillis currentMillis d.globals.lastUpdate ≥ updateThreshold d.globals →
      env.wifiConnected = true → env.feed.code = 200 → env.feed.body = some doc →
      feedStates doc = [] →
      (if elapsedMillis currentMillis d.globals.lastUpdate ≥ updateThreshold d.globals
        then updateAircraftData env d.globals else d.globals).aircraftCount = 0 := by
    intro doc hdue hwifi hcode hbody hstates
    rw [if_pos hdue]
    have hnone : ∀ s ∈ feedStates doc,
        passes d.globals.currentMaxAltitude (parseState s.asArray) = false := by
      rw [hstates]; intro s hs; exact absurd hs (List.not_mem_nil s)
    have hc := (rebuild_no_survivor env doc
      { d.globals with serial := d.globals.serial ++ [SerialEvent.fetching] } hnone).1
    simp only [updateAircraftData, hwifi, hcode, hbody]
    simpa using hc
  unfold loop
  dsimp only
  generalize (if elapsedMillis currentMillis d.globals.lastUpdate ≥ updateThreshold d.globals
      then updateAircraftData env d.globals else d.globals) = g1 at hrot hzero ⊢
  by_cases hc : g1.aircraftCount = 0
  · by_cases hf : elapsedMillis currentMillis d.lastRadarDraw ≥ 1000
    · refine ⟨[DisplayRequest.radarScan], ?_, ?_, ?_, ?_, ?_⟩
      · simp only [hc, hf, if_true]
      · intro req hreq
        simp only [List.mem_singleton] at hreq
        simp only [hc, hf, if_true, hreq, true_iff, ne_eq, not_true_eq_false, false_implies,
          and_self]
      · intro _ _; rfl
      · intro hne; simp only [hc, hf, if_true, ne_eq, not_true_eq_false] at hne
      · intro doc _ _ _ _ _
        simp only [hc, hf, if_true, List.mem_singleton, imp_self, implies_true, and_self]
    · refine ⟨[], ?_, ?_, ?_, ?_, ?_⟩
      · simp only [hc, hf, if_true, if_false, List.append_nil]
      · intro req hreq; exact absurd hreq (List.not_mem_nil req)
      · intro _ hfire; exact absurd hfire hf
      · intro hne; simp only [hc, hf, if_true, if_false, ne_eq, not_true_eq_false] at hne
      · intro doc _ _ _ _ _
        refine ⟨?_, fun req hreq => absurd hreq (List.not_mem_nil req)⟩
        simp only [hc, hf, if_true, if_false]
  · by_cases hf : elapsedMillis currentMillis g1.lastDisplayRotation ≥ 500
    · refine ⟨[DisplayRequest.aircraft (g1.aircraft 0)], ?_, ?_, ?_, ?_, ?_⟩
      · simp only [hc, hf, if_true, if_false]
      · intro req hreq
        simp only [List.mem_singleton] at hreq
        simp only [hc, hf, if_true, if_false, hreq, ne_eq, not_false_eq_true, true_implies,
          and_true, iff_false]
        exact fun h => DisplayRequest.noConfusion h
      · intro h0; simp only [hc, hf, if_true, if_false] at h0
      · intro _ _; simp only [hc, hf, if_true, if_false]
      · intro doc h1 h2 h3 h4 h5
        exact absurd (hzero doc h1 h2 h3 h4 h5) hc
    · refine ⟨[], ?_, ?_, ?_, ?_, ?_⟩
      · simp only [hc, hf, if_false, List.append_nil]
      · intro req hreq; exact absurd hreq (List.not_mem_nil req)
      · intro h0; simp only [hc, hf, if_false] at h0
      · intro _ hfire; rw [← hrot] at hfire; exact absurd hfire hf
      · intro doc h1 h2 h3 h4 h5
        exact absurd (hzero doc h1 h2 h3 h4 h5) hc

/-- Two passes from the state that tracks B and A (last cycle at 60000 ms, 30 s interval).
At 95000 ms the cycle is due and the feed has zero states: the registry is emptied and the
idle display is requested. At 61000 ms no cycle is due and the nearest record, B, is
drawn. -/
theorem loop_display_request_witness :
    trackedDevice.globals.aircraftCount = 2 ∧
    (∃ out, (loop (envOf []) 95000 trackedDevice).display = trackedDevice.display ++ out ∧
      (loop (envOf []) 95000 trackedDevice).globals.aircraftCount = 0 ∧
      (∀ req, req ∈ out → req = DisplayRequest.radarScan) ∧
      out = [DisplayRequest.radarScan]) ∧
    (∃ out, (loop (envOf []) 61000 trackedDevice).display = trackedDevice.display ++ out ∧
      out = [DisplayRequest.aircraft ((loop (envOf []) 61000 trackedDevice).globals.aircraft 0)] ∧
      ((loop (envOf []) 61000 trackedDevice).globals.aircraft 0).icao24 = "b2") := by
  refine ⟨by decide, ?_, ?_⟩
  · obtain ⟨out, h1, _, h3, _, h5⟩ := loop_display_request (envOf []) 95000 trackedDevice
    have hz := h5 (feedOf []) (by decide) rfl rfl rfl rfl
    exact ⟨out, h1, hz.1, hz.2, h3 hz.1 (by decide)⟩
  · obtain ⟨out, h1, _, _, h4, _⟩ := loop_display_request (envOf []) 61000 trackedDevice
    exact ⟨out, h1, h4 (by decide) (by decide), by decide⟩

end DeterminismClaims

/-! ## The range of the distance in exact arithmetic, and the wrap of the timer -/

section NumericClaims

/-- For latitudes in `[-90°, 90°]` the Haversine intermediate lies in `[0, 1]`. -/
theorem haversineA_range (lat1 lon1 lat2 lon2 : ℝ) (h1 : -90 ≤ lat1) (h1' : lat1 ≤ 90)
    (h2 : -90 ≤ lat2) (h2' : lat2 ≤ 90) :
    0 ≤ haversineA realLibm lat1 lon1 lat2 lon2 ∧
      haversineA realLibm lat1 lon1 lat2 lon2 ≤ 1 := by
  have hc : ∀ lat : ℝ, -90 ≤ lat → lat ≤ 90 → 0 ≤ Real.cos (lat * Real.pi / 180) := by
    intro lat ha hb
    apply Real.cos_nonneg_of_neg_pi_div_two_le_of_le <;> nlinarith [Real.pi_pos]
  have hc1 := hc lat1 h1 h1'
  have hc2 := hc lat2 h2 h2'
  have hcc : 0 ≤ Real.cos (lat1 * Real.pi / 180) * Real.cos (lat2 * Real.pi / 180) :=
    mul_nonneg hc1 hc2
  have hv0 : 0 ≤ Real.sin ((lon2 - lon1) * Real.pi / 180 / 2)
      * Real.sin ((lon2 - lon1) * Real.pi / 180 / 2) := mul_self_nonneg _
  have hv1 : Real.sin ((lon2 - lon1) * Real.pi / 180 / 2)
      * Real.sin ((lon2 - lon1) * Real.pi / 180 / 2) ≤ 1 := by
    have := Real.sin_sq_le_one ((lon2 - lon1) * Real.pi / 180 / 2)
    nlinarith
  have hu0 : 0 ≤ Real.sin ((lat2 - lat1) * Real.pi / 180 / 2)
      * Real.sin ((lat2 - lat1) * Real.pi / 180 / 2) := mul_self_nonneg _
  have hu : Real.sin ((lat2 - lat1) * Real.pi / 180 / 2)
      * Real.sin ((lat2 - lat1) * Real.pi / 180 / 2)
      = (1 - (Real.cos (lat2 * Real.pi / 180) * Real.cos (lat1 * Real.pi / 180)
          + Real.sin (lat2 * Real.pi / 180) * Real.sin (lat1 * Real.pi / 180))) / 2 := by
    have e1 := Real.sin_sq_eq_half_sub ((lat2 - lat1) * Real.pi / 180 / 2)
    have e2 : 2 * ((lat2 - lat1) * Real.pi / 180 / 2)
        = lat2 * Real.pi / 180 - lat1 * Real.pi / 180 := by ring
    rw [e2, Real.cos_sub] at e1
    rw [← sq, e1]; ring
  have hsum : Real.cos (lat1 * Real.pi / 180) * Real.cos (lat2 * Real.pi / 180)
      - Real.sin (lat1 * Real.pi / 180) * Real.sin (lat2 * Real.pi / 180) ≤ 1 := by
    rw [← Real.cos_add]; exact Real.cos_le_one _
  have hA : haversineA realLibm lat1 lon1 lat2 lon2
      = Real.sin ((lat2 - lat1) * Real.pi / 180 / 2)
          * Real.sin ((lat2 - lat1) * Real.pi / 180 / 2)
        + Real.cos (lat1 * Real.pi / 180) * Real.cos (lat2 * Real.pi / 180)
          * (Real.sin ((lon2 - lon1) * Real.pi / 180 / 2)
            * Real.sin ((lon2 - lon1) * Real.pi / 180 / 2)) := by
    simp only [haversineA, realLibm]; ring
  rw [hA]
  constructor
  · exact add_nonneg hu0 (mul_nonneg hcc hv0)
  · have hle : Real.cos (lat1 * Real.pi / 180) * Real.cos (lat2 * Real.pi / 180)
        * (Real.sin ((lon2 - lon1) * Real.pi / 180 / 2)
          * Real.sin ((lon2 - lon1) * Real.pi / 180 / 2))
        ≤ Real.cos (lat1 * Real.pi / 180) * Real.cos (lat2 * Real.pi / 180) := by
      have := mul_le_mul_of_nonneg_left hv1 hcc
      simpa using this
    rw [hu]
    nlinarith

/-- In exact real arithmetic, for latitudes in `[-90°, 90°]`, the Haversine intermediate
`a` satisfies `0 <= a <= 1`, so `a` and `1 - a`, the arguments of the two square roots, are
non-negative, and the distance `R * 2 * atan2(sqrt a, sqrt (1 - a))` lies in
`[0, π · 6371]`.  The `float` code rounds `a` and can leave this range: see
`calculateDistance_antipode`. -/
theorem calculateDistance_in_range (lat1 lon1 lat2 lon2 : ℝ) (h1 : -90 ≤ lat1)
    (h1' : lat1 ≤ 90) (h2 : -90 ≤ lat2) (h2' : lat2 ≤ 90) :
    0 ≤ haversineA realLibm lat1 lon1 lat2 lon2 ∧
      haversineA realLibm lat1 lon1 lat2 lon2 ≤ 1 ∧
      0 ≤ 1 - haversineA realLibm lat1 lon1 lat2 lon2 ∧
      calculateDistance realLibm lat1 lon1 lat2 lon2
        = 6371 * (2 * realLibm.atan2 (realLibm.sqrt (haversineA realLibm lat1 lon1 lat2 lon2))
            (realLibm.sqrt (1 - haversineA realLibm lat1 lon1 lat2 lon2))) ∧
      0 ≤ calculateDistance realLibm lat1 lon1 lat2 lon2 ∧
      calculateDistance realLibm lat1 lon1 lat2 lon2 ≤ Real.pi * 6371 := by
  obtain ⟨ha0, ha1⟩ := haversineA_range lat1 lon1 lat2 lon2 h1 h1' h2 h2'
  have hdef : calculateDistance realLibm lat1 lon1 lat2 lon2
      = 6371 * (2 * realLibm.atan2 (realLibm.sqrt (haversineA realLibm lat1 lon1 lat2 lon2))
          (realLibm.sqrt (1 - haversineA realLibm lat1 lon1 lat2 lon2))) := rfl
  have harg0 : 0 ≤ realLibm.atan2 (realLibm.sqrt (haversineA realLibm lat1 lon1 lat2 lon2))
      (realLibm.sqrt (1 - haversineA realLibm lat1 lon1 lat2 lon2)) := by
    show 0 ≤ Complex.arg _
    rw [Complex.arg_nonneg_iff]
    exact Real.sqrt_nonneg _
  have harg1 : realLibm.atan2 (realLibm.sqrt (haversineA realLibm lat1 lon1 lat2 lon2))
      (realLibm.sqrt (1 - haversineA realLibm lat1 lon1 lat2 lon2)) ≤ Real.pi / 2 := by
    show Complex.arg _ ≤ Real.pi / 2
    rw [Complex.arg_le_pi_div_two_iff]
    left
    exact Real.sqrt_nonneg _
  refine ⟨ha0, ha1, by linarith, hdef, ?_, ?_⟩
  · rw [hdef]; positivity
  · rw [hdef]; nlinarith [Real.pi_pos]

/-- Vilnius (54.68°, 25.28°) to London (51.5°, -0.12°): both latitudes are in range, so
the intermediate and the distance are. -/
theorem calculateDistance_in_range_witness :
    0 ≤ haversineA realLibm 54.68 25.28 51.5 (-0.12) ∧
      haversineA realLibm 54.68 25.28 51.5 (-0.12) ≤ 1 ∧
      0 ≤ calculateDistance realLibm 54.68 25.28 51.5 (-0.12) ∧
      calculateDistance realLibm 54.68 25.28 51.5 (-0.12) ≤ Real.pi * 6371 :=
  ⟨(calculateDistance_in_range 54.68 25.28 51.5 (-0.12) (by norm_num) (by norm_num)
      (by norm_num) (by norm_num)).1,
   (calculateDistance_in_range 54.68 25.28 51.5 (-0.12) (by norm_num) (by norm_num)
      (by norm_num) (by norm_num)).2.1,
   (calculateDistance_in_range 54.68 25.28 51.5 (-0.12) (by norm_num) (by norm_num)
      (by norm_num) (by norm_num)).2.2.2.2.1,
   (calculateDistance_in_range 54.68 25.28 51.5 (-0.12) (by norm_num) (by norm_num)
      (by norm_num) (by norm_num)).2.2.2.2.2⟩

/-- C30. The elapsed-time tests of `loop()` are wraparound-safe: for true times
`tLast <= tNow` less than `2^32` ms apart, the unsigned difference of the two 32-bit counter
readings is the true elapsed time, also when the counter wrapped in between. -/
theorem elapsedMillis_wraparound (tLast tNow : Nat) (h1 : tLast ≤ tNow)
    (h2 : tNow - tLast < 2 ^ 32) :
    elapsedMillis (tNow % 2 ^ 32) (tLast % 2 ^ 32) = tNow - tLast ∧
      elapsedMillis tNow tLast = tNow - tLast := by
  have key : elapsedMillis tNow tLast = tNow - tLast := by
    unfold elapsedMillis
    norm_num at h2 ⊢
    omega
  refine ⟨?_, key⟩
  rw [← key]
  unfold elapsedMillis
  simp only [Nat.mod_mod]

/-- A last reading 100 ms before the counter wraps and a reading 50 ms after it: the
readings are 4294967196 and 50, and the difference is 150. -/
theorem elapsedMillis_wraparound_witness :
    elapsedMillis ((2 ^ 32 + 50) % 2 ^ 32) ((2 ^ 32 - 100) % 2 ^ 32)
        = (2 ^ 32 + 50) - (2 ^ 32 - 100) ∧
      (2 ^ 32 + 50) % 2 ^ 32 = 50 ∧ (2 ^ 32 - 100) % 2 ^ 32 = 4294967196 ∧
      (2 ^ 32 + 50) - (2 ^ 32 - 100) = 150 :=
  ⟨(elapsedMillis_wraparound (2 ^ 32 - 100) (2 ^ 32 + 50) (by norm_num) (by norm_num)).1,
   by norm_num, by norm_num, by norm_num⟩

end NumericClaims

/-! ## The claims on the order and the content of the registry, second part -/

section OrderClaims

variable {F : Type} [LinearOrderedRing F]

/-- On cells already in ascending order the inner loop makes no exchange. -/
theorem sortInner_id (i : Nat) (k : Nat) : ∀ (j : Nat) (a : Nat → Aircraft F),
    (∀ m, j ≤ m → m < j + k → (a i).distance ≤ (a m).distance) → sortInner i k j a = a := by
  induction k with
  | zero => intro j a _; rfl
  | succ k ih =>
    intro j a h
    simp only [sortInner]
    rw [if_neg (not_lt.mpr (h j (Nat.le_refl j) (by omega)))]
    exact ih (j + 1) a (fun m h1 h2 => h m (by omega) (by omega))

theorem sortOuter_id (n : Nat) (k : Nat) : ∀ (i : Nat) (a : Nat → Aircraft F),
    (∀ p q, p < q → q < n → (a p).distance ≤ (a q).distance) → sortOuter n k i a = a := by
  induction k with
  | zero => intro i a _; rfl
  | succ k ih =>
    intro i a h
    simp only [sortOuter]
    rw [sortInner_id i (n - (i + 1)) (i + 1) a (fun m h1 h2 => h i m (by omega) (by omega))]
    exact ih (i + 1) a h

/-- C23 fails as stated. The feed X, Y, W with distances 2, 2, 1: the exchange of W with X
carries X past Y, and the registry is W, Y, X, with the two equal distances in the
opposite of feed order. -/
theorem rebuild_sort_not_stable :
    (survivors startGlobals.currentMaxAltitude [stateX, stateY, stateW]).map
        (fun sv => sv.icao24) = ["x1", "y2", "w3"] ∧
      (registry (rebuild (envOf [stateX, stateY, stateW]) (feedOf [stateX, stateY, stateW])
        startGlobals)).map (fun r => (r.icao24, r.distance))
        = [("w3", 1), ("y2", 2), ("x1", 2)] := by
  constructor <;> decide

/-- C23, as amended. The sort is an exchange sort and is not stable in general; when the
retained records arrive in non-decreasing order of distance it makes no exchange, and the
registry keeps them in feed order, records of equal distance included. -/
theorem rebuild_keeps_feed_order_of_sorted (env : Env F) (doc : JsonVariant F)
    (g : Globals F)
    (hsorted : List.Pairwise (fun a b : Aircraft F => a.distance ≤ b.distance)
      (scanRecords env g (feedStates doc))) :
    (registry (rebuild env doc g)).map eraseRoute = scanRecords env g (feedStates doc) := by
  rcases rebuild_cases env doc g with ⟨hs, hr⟩ | ⟨_, hr⟩
  · rw [hr, hs]
    simp [registry, scanRecords, retained, survivors]
  · rw [hr]
    have h1 : ∀ (g4 : Globals F), (registry (enrichClosest env g4)).map eraseRoute
        = (registry g4).map eraseRoute := by
      intro g4
      simp only [registry, enrichClosest_count, List.map_map]
      apply List.map_congr_left
      intro i _
      exact enrichClosest_eraseRoute env g4 i
    rw [h1]
    have hreg := registry_scanLoop env (feedStates doc)
      { g with serial := g.serial ++ [SerialEvent.found (feedStates doc).length],
               aircraftCount := 0 } rfl
    have hrec : scanRecords env
        { g with serial := g.serial ++ [SerialEvent.found (feedStates doc).length],
                 aircraftCount := 0 } (feedStates doc)
        = scanRecords env g (feedStates doc) := rfl
    rw [hrec] at hreg
    generalize scanLoop env (feedStates doc)
      { g with serial := g.serial ++ [SerialEvent.found (feedStates doc).length],
               aircraftCount := 0 } = G at hreg
    rw [← hreg] at hsorted ⊢
    have hcells : ∀ p q, p < q → q < G.aircraftCount →
        (G.aircraft p).distance ≤ (G.aircraft q).distance := by
      intro p q hpq hq
      have hp : p < G.aircraftCount := by omega
      have hlp : p < (registry G).length := by simpa [registry] using hp
      have hlq : q < (registry G).length := by simpa [registry] using hq
      have := List.pairwise_iff_getElem.mp hsorted p q hlp hlq hpq
      simpa [registry] using this
    have hid : (sortByDistance G).aircraft = G.aircraft := by
      simp only [sortByDistance]
      exact sortOuter_id G.aircraftCount (G.aircraftCount - 1) 0 G.aircraft hcells
    have hregs : registry
        { sortByDistance G with
          serial := (sortByDistance G).serial
            ++ [SerialEvent.tracking (sortByDistance G).aircraftCount] } = registry G := by
      simp only [registry]
      rw [hid]
      rfl
    rw [hregs]
    have herase : ∀ r ∈ registry G, eraseRoute r = r := by
      intro r hr'
      rw [hreg] at hr'
      simp only [scanRecords, List.mem_map] at hr'
      obtain ⟨p, _, hp⟩ := hr'
      rw [← hp]; rfl
    calc (registry G).map eraseRoute = (registry G).map id :=
          List.map_congr_left (fun r hr' => herase r hr')
      _ = registry G := List.map_id _

/-- The feed X, Y, A with distances 2, 2, 50 arrives in ascending order: the registry is
X, Y, A, the tie in feed order. -/
theorem rebuild_keeps_feed_order_of_sorted_witness :
    (registry (rebuild (envOf [stateX, stateY, stateA]) (feedOf [stateX, stateY, stateA])
        startGlobals)).map eraseRoute
      = scanRecords (envOf [stateX, stateY, stateA]) startGlobals
          (feedStates (feedOf [stateX, stateY, stateA])) ∧
    (scanRecords (envOf [stateX, stateY, stateA]) startGlobals
        (feedStates (feedOf [stateX, stateY, stateA]))).map (fun r => (r.icao24, r.distance))
      = [("x1", 2), ("y2", 2), ("a1", 50)] :=
  ⟨rebuild_keeps_feed_order_of_sorted (envOf [stateX, stateY, stateA])
      (feedOf [stateX, stateY, stateA]) startGlobals (by decide),
   by decide⟩

set_option maxRecDepth 20000 in
/-- C24. For some feed with more than ten vectors that pass the tests, the registry omits a
passing vector that is strictly nearer than the record in cell 0: with ten vectors at
distances 10 to 145 followed by W at distance 1, W is not stored and cell 0 is at
distance 10. -/
theorem rebuild_omits_nearer_record :
    ∃ (env : Env ℤ) (doc : JsonVariant ℤ) (g : Globals ℤ) (s : JsonVariant ℤ),
      s ∈ feedStates doc ∧
      10 < (survivors g.currentMaxAltitude (feedStates doc)).length ∧
      passes g.currentMaxAltitude (parseState s.asArray) = true ∧
      0 < (rebuild env doc g).aircraftCount ∧
      (∀ r ∈ registry (rebuild env doc g), r.icao24 ≠ (parseState s.asArray).icao24) ∧
      env.calculateDistance env.MY_LATITUDE env.MY_LONGITUDE
          (parseState s.asArray).lat (parseState s.asArray).lon
        < ((rebuild env doc g).aircraft 0).distance := by
  refine ⟨envOf crowdedStates, feedOf crowdedStates, startGlobals, stateW, ?_, by decide,
    by decide, by decide, by decide, by decide⟩
  show stateW ∈ crowdedStates
  simp [crowdedStates]

/-- C26. The route lookup changes nothing but the origin and destination of the record it
is given: every other field of that record is the same after the call, and at its call site
`aircraftCount`, every other cell, the order of the registry and the other globals are
unchanged, whatever the lookup returns. -/
theorem fetchRouteInfo_frame (env : Env F) (g : Globals F) (plane : Aircraft F) :
    eraseRoute (fetchRouteInfo env plane).1 = eraseRoute plane ∧
      ((fetchRouteInfo env plane).1.icao24 = plane.icao24 ∧
        (fetchRouteInfo env plane).1.callsign = plane.callsign ∧
        (fetchRouteInfo env plane).1.latitude = plane.latitude ∧
        (fetchRouteInfo env plane).1.longitude = plane.longitude ∧
        (fetchRouteInfo env plane).1.altitude = plane.altitude ∧
        (fetchRouteInfo env plane).1.distance = plane.distance ∧
        (fetchRouteInfo env plane).1.onGround = plane.onGround) ∧
      (enrichClosest env g).aircraftCount = g.aircraftCount ∧
      (∀ i, i ≠ 0 → (enrichClosest env g).aircraft i = g.aircraft i) ∧
      eraseRoute ((enrichClosest env g).aircraft 0) = eraseRoute (g.aircraft 0) ∧
      (registry (enrichClosest env g)).map eraseRoute = (registry g).map eraseRoute ∧
      (enrichClosest env g).currentSearchRadius = g.currentSearchRadius ∧
      (enrichClosest env g).currentMaxAltitude = g.currentMaxAltitude ∧
      (enrichClosest env g).currentUpdateInterval = g.currentUpdateInterval ∧
      (enrichClosest env g).lastUpdate = g.lastUpdate := by
  have he := fetchRouteInfo_eraseRoute env plane
  have hf : ∀ {β : Type} (f : Aircraft F → β), (∀ r, f (eraseRoute r) = f r) →
      f (fetchRouteInfo env plane).1 = f plane := by
    intro β f hfr
    rw [← hfr (fetchRouteInfo env plane).1, he, hfr]
  refine ⟨he, ⟨hf _ (fun _ => rfl), hf _ (fun _ => rfl), hf _ (fun _ => rfl),
    hf _ (fun _ => rfl), hf _ (fun _ => rfl), hf _ (fun _ => rfl), hf _ (fun _ => rfl)⟩,
    enrichClosest_count env g, ?_, enrichClosest_eraseRoute env g 0, ?_, ?_, ?_, ?_, ?_⟩
  · intro i hi
    unfold enrichClosest
    split
    · simp only [Function.update_noteq hi]
    · rfl
  · simp only [registry, enrichClosest_count, List.map_map]
    apply List.map_congr_left
    intro i _
    exact enrichClosest_eraseRoute env g i
  · unfold enrichClosest; split <;> rfl
  · unfold enrichClosest; split <;> rfl
  · unfold enrichClosest; split <;> rfl
  · unfold enrichClosest; split <;> rfl

end OrderClaims

/-! ## Serial output, array bounds and the acquisition timer -/

section TimerLemmas

variable {F : Type} [LinearOrderedRing F]

/-- What the scan loop prints: `stored` messages only, each with an index that is at least
the count at entry and below `MAX_AIRCRAFT`. -/
theorem scanLoop_serial (env : Env F) : ∀ (states : List (JsonVariant F)) (g : Globals F),
    ∃ out, (scanLoop env states g).serial = g.serial ++ out ∧
      ∀ e ∈ out, e ≠ SerialEvent.fetching ∧
        ∀ idx, e.storedIndex = some idx → g.aircraftCount ≤ idx ∧ idx < MAX_AIRCRAFT := by
  intro states
  induction states with
  | nil => intro g; exact ⟨[], by simp [scanLoop], fun e he => absurd he (List.not_mem_nil e)⟩
  | cons s rest ih =>
    intro g
    simp only [scanLoop]
    by_cases hfull : g.aircraftCount ≥ MAX_AIRCRAFT
    · rw [if_pos hfull]
      exact ⟨[], by simp, fun e he => absurd he (List.not_mem_nil e)⟩
    · rw [if_neg hfull]
      cases hp : passes g.currentMaxAltitude (parseState s.asArray) with
      | false =>
        rw [scanBody_of_not_passes env _ g hp]
        exact ih g
      | true =>
        rw [scanBody_of_passes env _ g hp]
        obtain ⟨out, hout, hall⟩ := ih
          { g with
            aircraft := Function.update g.aircraft g.aircraftCount
              (storeAircraft env (g.aircraft g.aircraftCount) (parseState s.asArray))
            serial := g.serial ++
              [SerialEvent.stored g.aircraftCount
                (storeAircraft env (g.aircraft g.aircraftCount)
                  (parseState s.asArray)).callsign
                (parseState s.asArray).altitude
                (storeAircraft env (g.aircraft g.aircraftCount)
                  (parseState s.asArray)).distance
                (parseState s.asArray).onGround]
            aircraftCount := g.aircraftCount + 1 }
        refine ⟨SerialEvent.stored g.aircraftCount
            (storeAircraft env (g.aircraft g.aircraftCount) (parseState s.asArray)).callsign
            (parseState s.asArray).altitude
            (storeAircraft env (g.aircraft g.aircraftCount) (parseState s.asArray)).distance
            (parseState s.asArray).onGround :: out, ?_, ?_⟩
        · rw [hout]; simp
        · intro e he
          rcases List.mem_cons.mp he with h | h
          · rw [h]
            refine ⟨fun hc => SerialEvent.noConfusion hc, ?_⟩
            intro idx hidx
            simp only [SerialEvent.storedIndex, Option.some.injEq] at hidx
            omega
          · obtain ⟨h1, h2⟩ := hall e h
            refine ⟨h1, fun idx hidx => ?_⟩
            have := h2 idx hidx
            simp only at this
            omega

theorem fetchRouteInfo_serial (env : Env F) (plane : Aircraft F) :
    ∀ e ∈ (fetchRouteInfo env plane).2, e ≠ SerialEvent.fetching ∧ e.storedIndex = none := by
  unfold fetchRouteInfo applyRoute
  dsimp only
  intro e he
  repeat' split at he
  all_goals
    simp only [List.mem_cons, List.mem_singleton, List.not_mem_nil, or_false] at he
  all_goals
    first
      | exact absurd he id
      | (rcases he with h | h <;> rw [h] <;>
          exact ⟨fun hc => SerialEvent.noConfusion hc, rfl⟩)
      | (rw [he]; exact ⟨fun hc => SerialEvent.noConfusion hc, rfl⟩)

/-- What the parsed branch prints: no `fetching` message, and `stored` messages with an
index below `MAX_AIRCRAFT` only. -/
theorem rebuild_serial (env : Env F) (doc : JsonVariant F) (g : Globals F) :
    ∃ out, (rebuild env doc g).serial = g.serial ++ out ∧
      ∀ e ∈ out, e ≠ SerialEvent.fetching ∧
        ∀ idx, e.storedIndex = some idx → idx < MAX_AIRCRAFT := by
  rcases rebuild_cases env doc g with ⟨_, hr⟩ | ⟨_, hr⟩
  · rw [hr]
    refine ⟨[SerialEvent.noAircraftFound], rfl, ?_⟩
    intro e he
    rw [List.mem_singleton.mp he]
    exact ⟨fun hc => SerialEvent.noConfusion hc, fun idx hidx => by
      simp [SerialEvent.storedIndex] at hidx⟩
  · rw [hr]
    obtain ⟨out, hout, hall⟩ := scanLoop_serial env (feedStates doc)
      { g with serial := g.serial ++ [SerialEvent.found (feedStates doc).length],
               aircraftCount := 0 }
    generalize scanLoop env (feedStates doc)
      { g with serial := g.serial ++ [SerialEvent.found (feedStates doc).length],
               aircraftCount := 0 } = G at hout ⊢
    have hroute := fetchRouteInfo_serial env ((sortByDistance G).aircraft 0)
    have hser : (sortByDistance G).serial = G.serial := rfl
    simp only at hout
    have hplain : ∀ e : SerialEvent F, (e = SerialEvent.found (feedStates doc).length ∨
        e = SerialEvent.tracking (sortByDistance G).aircraftCount) →
        e ≠ SerialEvent.fetching ∧ ∀ idx, e.storedIndex = some idx → idx < MAX_AIRCRAFT := by
      rintro e (h | h) <;> rw [h] <;>
        exact ⟨fun hc => SerialEvent.noConfusion hc, fun idx hidx => by
          simp [SerialEvent.storedIndex] at hidx⟩
    unfold enrichClosest
    split
    · refine ⟨SerialEvent.found (feedStates doc).length ::
        (out ++ SerialEvent.tracking (sortByDistance G).aircraftCount ::
          (fetchRouteInfo env ((sortByDistance G).aircraft 0)).2), ?_, ?_⟩
      · simp [hser, hout]
      · intro e he
        simp only [List.mem_append, List.mem_cons] at he
        rcases he with h | h | h | h
        · exact hplain e (Or.inl h)
        · exact ⟨(hall e h).1, fun idx hidx => ((hall e h).2 idx hidx).2⟩
        · exact hplain e (Or.inr h)
        · obtain ⟨h1, h2⟩ := hroute e h
          exact ⟨h1, fun idx hidx => by rw [h2] at hidx; exact absurd hidx (by simp)⟩
    · refine ⟨SerialEvent.found (feedStates doc).length ::
        (out ++ [SerialEvent.tracking (sortByDistance G).aircraftCount]), ?_, ?_⟩
      · simp [hser, hout]
      · intro e he
        simp only [List.mem_append, List.mem_cons, List.not_mem_nil, or_false] at he
        rcases he with h | h | h
        · exact hplain e (Or.inl h)
        · exact ⟨(hall e h).1, fun idx hidx => ((hall e h).2 idx hidx).2⟩
        · exact hplain e (Or.inr h)

/-- A call that reaches the network prints `fetching` once, first, and after it `stored`
messages with an index below `MAX_AIRCRAFT` only. -/
theorem updateAircraftData_serial (env : Env F) (g : Globals F)
    (hwifi : env.wifiConnected = true) :
    ∃ out, (updateAircraftData env g).serial = g.serial ++ SerialEvent.fetching :: out ∧
      ∀ e ∈ out, e ≠ SerialEvent.fetching ∧
        ∀ idx, e.storedIndex = some idx → idx < MAX_AIRCRAFT := by
  have hplain : ∀ e : SerialEvent F, (e = SerialEvent.jsonParseError ∨
      e = SerialEvent.httpError env.feed.code ∨ e = SerialEvent.rateLimited) →
      e ≠ SerialEvent.fetching ∧ ∀ idx, e.storedIndex = some idx → idx < MAX_AIRCRAFT := by
    rintro e (h | h | h) <;> rw [h] <;>
      exact ⟨fun hc => SerialEvent.noConfusion hc, fun idx hidx => by
        simp [SerialEvent.storedIndex] at hidx⟩
  unfold updateAircraftData
  simp only [hwifi, Bool.true_eq_false, if_false]
  by_cases hc : env.feed.code = 200
  · simp only [hc, if_true]
    cases hb : env.feed.body with
    | none =>
      refine ⟨[SerialEvent.jsonParseError], by simp, ?_⟩
      intro e he
      exact hplain e (Or.inl (List.mem_singleton.mp he))
    | some doc =>
      obtain ⟨out, hout, hall⟩ := rebuild_serial env doc
        { g with serial := g.serial ++ [SerialEvent.fetching] }
      refine ⟨out, ?_, hall⟩
      simp only [hout, List.append_assoc, List.singleton_append]
  · simp only [if_neg hc]
    by_cases h429 : env.feed.code = 429
    · refine ⟨[SerialEvent.httpError env.feed.code, SerialEvent.rateLimited], ?_, ?_⟩
      · simp [h429]
      · intro e he
        simp only [List.mem_cons, List.mem_singleton, List.not_mem_nil, or_false] at he
        rcases he with h | h
        · exact hplain e (Or.inr (Or.inl h))
        · exact hplain e (Or.inr (Or.inr h))
    · refine ⟨[SerialEvent.httpError env.feed.code], ?_, ?_⟩
      · simp [h429]
      · intro e he
        exact hplain e (Or.inr (Or.inl (List.mem_singleton.mp he)))

/-- The rebuild writes no cell at an index from `MAX_AIRCRAFT` on. -/
theorem rebuild_cells_above (env : Env F) (doc : JsonVariant F) (g : Globals F) (i : Nat)
    (hi : MAX_AIRCRAFT ≤ i) : (rebuild env doc g).aircraft i = g.aircraft i := by
  have hi10 : 10 ≤ i := hi
  rcases rebuild_cases env doc g with ⟨_, hr⟩ | ⟨_, hr⟩
  · rw [hr]
  · rw [hr]
    obtain ⟨_, hcount, hcells⟩ := scanLoop_spec env (feedStates doc)
      { g with serial := g.serial ++ [SerialEvent.found (feedStates doc).length],
               aircraftCount := 0 } (Nat.zero_le _)
    obtain ⟨σ, hσ, hfix⟩ := sortByDistance_perm (scanLoop env (feedStates doc)
      { g with serial := g.serial ++ [SerialEvent.found (feedStates doc).length],
               aircraftCount := 0 })
    have hle : (scanLoop env (feedStates doc)
        { g with serial := g.serial ++ [SerialEvent.found (feedStates doc).length],
                 aircraftCount := 0 }).aircraftCount ≤ 10 := by
      rw [hcount]
      have := List.length_take_le (MAX_AIRCRAFT - 0)
        (survivors g.currentMaxAltitude (feedStates doc))
      simp only [MAX_AIRCRAFT, Nat.sub_zero] at this ⊢
      omega
    have hcell := hcells i
    simp only [Nat.not_lt_zero, if_false, Nat.sub_zero] at hcell
    have hnone : (List.take MAX_AIRCRAFT
        (survivors g.currentMaxAltitude (feedStates doc)))[i]? = none := by
      apply List.getElem?_eq_none
      have := List.length_take_le MAX_AIRCRAFT
        (survivors g.currentMaxAltitude (feedStates doc))
      simp only [MAX_AIRCRAFT] at this ⊢
      omega
    rw [hnone] at hcell
    have h0 : i ≠ 0 := by omega
    unfold enrichClosest
    split
    · simp only [Function.update_noteq h0]
      rw [hσ]
      simp only [Function.comp, hfix i (by omega)]
      exact hcell
    · show (sortByDistance _).aircraft i = g.aircraft i
      rw [hσ]
      simp only [Function.comp, hfix i (by omega)]
      exact hcell

theorem updateAircraftData_cells_above (env : Env F) (g : Globals F) (i : Nat)
    (hi : MAX_AIRCRAFT ≤ i) : (updateAircraftData env g).aircraft i = g.aircraft i := by
  unfold updateAircraftData
  split
  · rfl
  · dsimp only
    split
    · split
      · exact rebuild_cells_above env _
          { g with serial := g.serial ++ [SerialEvent.fetching] } i hi
      · rfl
    · rfl

theorem updateAircraftData_count_le (env : Env F) (g : Globals F)
    (hg : g.aircraftCount ≤ MAX_AIRCRAFT) :
    (updateAircraftData env g).aircraftCount ≤ MAX_AIRCRAFT := by
  unfold updateAircraftData
  split
  · exact hg
  · dsimp only
    split
    · split
      · exact rebuild_count_le env _ _
      · exact hg
    · exact hg

/-- The globals after a pass of `loop()`: those after its acquisition step, with
`lastDisplayRotation` possibly set by the display step. -/
theorem loop_globals (env : Env F) (currentMillis : Nat) (d : Device F) :
    (loop env currentMillis d).globals =
        (if elapsedMillis currentMillis d.globals.lastUpdate ≥ updateThreshold d.globals then
          updateAircraftData env d.globals else d.globals) ∨
      (loop env currentMillis d).globals =
        { (if elapsedMillis currentMillis d.globals.lastUpdate ≥ updateThreshold d.globals
            then updateAircraftData env d.globals else d.globals) with
          lastDisplayRotation := currentMillis } := by
  unfold loop
  dsimp only
  generalize (if elapsedMillis currentMillis d.globals.lastUpdate ≥ updateThreshold d.globals
    then updateAircraftData env d.globals else d.globals) = g1
  split
  · split
    · left; rfl
    · left; rfl
  · split
    · right; rfl
    · left; rfl

/-- The threshold of the acquisition test is `interval * 1000` when the interval is at
least 1 and the product fits the `int` type. -/
theorem updateThreshold_eq (g : Globals F) (h1 : 1 ≤ g.currentUpdateInterval)
    (hfit : g.currentUpdateInterval * 1000 < 2 ^ 31) :
    (updateThreshold g : Int) = g.currentUpdateInterval * 1000 := by
  unfold updateThreshold
  have hnn : 0 ≤ g.currentUpdateInterval * 1000 := by omega
  have hlt : g.currentUpdateInterval * 1000 < 2 ^ 32 := by
    have : (2 : Int) ^ 31 < 2 ^ 32 := by norm_num
    omega
  rw [Int.emod_eq_of_lt hnn hlt]
  exact Int.toNat_of_nonneg hnn

theorem reachable_count_le (d : Device F) (hd : Reachable d) :
    d.globals.aircraftCount ≤ MAX_AIRCRAFT := by
  induction hd with
  | start radius altitude interval => exact Nat.zero_le _
  | update env d _ ih => exact updateAircraftData_count_le env d.globals ih
  | write doc d _ ih =>
    show (apiSettings doc d.globals).aircraftCount ≤ MAX_AIRCRAFT
    rw [(apiSettings_fields doc d.globals).2.2.2.1]; exact ih
  | tick env currentMillis d _ ih =>
    have hg1 : (if elapsedMillis currentMillis d.globals.lastUpdate
          ≥ updateThreshold d.globals then updateAircraftData env d.globals
        else d.globals).aircraftCount ≤ MAX_AIRCRAFT := by
      split
      · exact updateAircraftData_count_le env d.globals ih
      · exact ih
    rcases loop_globals env currentMillis d with h | h
    · rw [h]; exact hg1
    · rw [h]; exact hg1

theorem loop_of_due (env : Env F) (currentMillis : Nat) (d : Device F)
    (h : elapsedMillis currentMillis d.globals.lastUpdate ≥ updateThreshold d.globals) :
    (loop env currentMillis d).globals.serial = (updateAircraftData env d.globals).serial ∧
      (loop env currentMillis d).globals.aircraft
        = (updateAircraftData env d.globals).aircraft ∧
      (loop env currentMillis d).globals.aircraftCount
        = (updateAircraftData env d.globals).aircraftCount ∧
      (loop env currentMillis d).globals.lastUpdate
        = (updateAircraftData env d.globals).lastUpdate := by
  rcases loop_globals env currentMillis d with hl | hl <;> rw [hl, if_pos h] <;>
    exact ⟨rfl, rfl, rfl, rfl⟩

theorem loop_of_not_due (env : Env F) (currentMillis : Nat) (d : Device F)
    (h : elapsedMillis currentMillis d.globals.lastUpdate < updateThreshold d.globals) :
    (loop env currentMillis d).globals.serial = d.globals.serial ∧
      (loop env currentMillis d).globals.aircraft = d.globals.aircraft ∧
      (loop env currentMillis d).globals.aircraftCount = d.globals.aircraftCount ∧
      (loop env currentMillis d).globals.lastUpdate = d.globals.lastUpdate := by
  have hn : ¬ elapsedMillis currentMillis d.globals.lastUpdate ≥ updateThreshold d.globals :=
    Nat.not_le.mpr h
  rcases loop_globals env currentMillis d with hl | hl <;> rw [hl, if_neg hn] <;>
    exact ⟨rfl, rfl, rfl, rfl⟩

/-- A pass of `loop()` that hands a record to `drawAircraft` hands over `aircraft[0]`, and
the count it tested just before is not zero. -/
theorem loop_aircraft_request (env : Env F) (currentMillis : Nat) (d : Device F)
    (out : List (DisplayRequest F)) (plane : Aircraft F)
    (hout : (loop env currentMillis d).display = d.display ++ out)
    (hplane : DisplayRequest.aircraft plane ∈ out) :
    (loop env currentMillis d).globals.aircraftCount ≠ 0 ∧
      plane = (loop env currentMillis d).globals.aircraft 0 := by
  unfold loop at hout ⊢
  dsimp only at hout ⊢
  generalize (if elapsedMillis currentMillis d.globals.lastUpdate ≥ updateThreshold d.globals
      then updateAircraftData env d.globals else d.globals) = g1 at hout ⊢
  by_cases hc : g1.aircraftCount = 0
  · by_cases hf : elapsedMillis currentMillis d.lastRadarDraw ≥ 1000
    · simp only [hc, hf, if_true] at hout
      have heq : out = [DisplayRequest.radarScan] := (List.append_cancel_left hout).symm
      rw [heq] at hplane
      simp at hplane
    · simp only [hc, hf, if_true, if_false] at hout
      have hnil : out = [] := by
        have := congrArg List.length hout
        simp only [List.length_append] at this
        exact List.length_eq_zero.mp (by omega)
      rw [hnil] at hplane
      exact absurd hplane (List.not_mem_nil _)
  · by_cases hf : elapsedMillis currentMillis g1.lastDisplayRotation ≥ 500
    · simp only [hc, hf, if_true, if_false] at hout ⊢
      have heq : out = [DisplayRequest.aircraft (g1.aircraft 0)] :=
        (List.append_cancel_left hout).symm
      rw [heq] at hplane
      simp only [List.mem_singleton] at hplane
      exact ⟨hc, DisplayRequest.aircraft.inj hplane⟩
    · simp only [hc, hf, if_false] at hout
      have hnil : out = [] := by
        have := congrArg List.length hout
        simp only [List.length_append] at this
        exact List.length_eq_zero.mp (by omega)
      rw [hnil] at hplane
      exact absurd hplane (List.not_mem_nil _)

end TimerLemmas

/-! ## The claims on the acquisition timer and on the array bounds -/

section TimerClaims

variable {F : Type} [LinearOrderedRing F]

/-- C25. On a pass of `loop()` the acquisition cycle runs if and only if the milliseconds
elapsed since `lastUpdate` are at least `currentUpdateInterval * 1000`, for the interval the
settings hold at that pass (at least 1, product within the `int` range): when they are, the
globals are those `updateAircraftData` leaves; when they are not, the registry, the Serial
output and `lastUpdate` are untouched. A configuration write changes the interval the next
pass compares with, and leaves `lastUpdate` alone. -/
theorem loop_acquisition_iff_due (env : Env F) (currentMillis : Nat) (d : Device F)
    (h1 : 1 ≤ d.globals.currentUpdateInterval)
    (hfit : d.globals.currentUpdateInterval * 1000 < 2 ^ 31) :
    (d.globals.currentUpdateInterval * 1000
        ≤ (elapsedMillis currentMillis d.globals.lastUpdate : Int) →
      (loop env currentMillis d).globals.serial = (updateAircraftData env d.globals).serial ∧
      (loop env currentMillis d).globals.aircraft
        = (updateAircraftData env d.globals).aircraft ∧
      (loop env currentMillis d).globals.aircraftCount
        = (updateAircraftData env d.globals).aircraftCount ∧
      (loop env currentMillis d).globals.lastUpdate
        = (updateAircraftData env d.globals).lastUpdate) ∧
    ((elapsedMillis currentMillis d.globals.lastUpdate : Int)
        < d.globals.currentUpdateInterval * 1000 →
      (loop env currentMillis d).globals.serial = d.globals.serial ∧
      (loop env currentMillis d).globals.aircraft = d.globals.aircraft ∧
      (loop env currentMillis d).globals.aircraftCount = d.globals.aircraftCount ∧
      (loop env currentMillis d).globals.lastUpdate = d.globals.lastUpdate) ∧
    (env.wifiConnected = true →
      (d.globals.currentUpdateInterval * 1000
          ≤ (elapsedMillis currentMillis d.globals.lastUpdate : Int) ↔
        ∃ out, (loop env currentMillis d).globals.serial
          = d.globals.serial ++ SerialEvent.fetching :: out)) ∧
    (∀ doc : SettingsDoc F,
      (apiSettings doc d.globals).currentUpdateInterval
          = doc.interval.getD d.globals.currentUpdateInterval ∧
        (apiSettings doc d.globals).lastUpdate = d.globals.lastUpdate) := by
  have hthr := updateThreshold_eq d.globals h1 hfit
  refine ⟨?_, ?_, ?_, ?_⟩
  · intro hdue
    exact loop_of_due env currentMillis d (by rw [← hthr] at hdue; exact_mod_cast hdue)
  · intro hlt
    exact loop_of_not_due env currentMillis d (by rw [← hthr] at hlt; exact_mod_cast hlt)
  · intro hwifi
    constructor
    · intro hdue
      have hs := (loop_of_due env currentMillis d
        (by rw [← hthr] at hdue; exact_mod_cast hdue)).1
      obtain ⟨out, hout, _⟩ := updateAircraftData_serial env d.globals hwifi
      exact ⟨out, by rw [hs, hout]⟩
    · rintro ⟨out, hout⟩
      by_contra hnot
      have hlt : (elapsedMillis currentMillis d.globals.lastUpdate : Int)
          < d.globals.currentUpdateInterval * 1000 := lt_of_not_le hnot
      have hs := (loop_of_not_due env currentMillis d
        (by rw [← hthr] at hlt; exact_mod_cast hlt)).1
      rw [hs] at hout
      have hlen := congrArg List.length hout
      simp only [List.length_append, List.length_cons] at hlen
      omega
  · intro doc
    obtain ⟨r, a, i⟩ := doc
    cases r <;> cases a <;> cases i <;> exact ⟨rfl, rfl⟩

/-- The state that tracks B and A (last cycle at 60000 ms, interval 30 s): at 89999 ms the
pass leaves Serial and `lastUpdate` alone, at 90000 ms the cycle runs; after the write
`interval = 10` the pass at 70000 ms runs the cycle. -/
theorem loop_acquisition_iff_due_witness :
    ((loop (envOf []) 89999 trackedDevice).globals.serial = trackedDevice.globals.serial ∧
      (loop (envOf []) 89999 trackedDevice).globals.lastUpdate = 60000) ∧
    (∃ out, (loop (envOf []) 90000 trackedDevice).globals.serial
      = trackedDevice.globals.serial ++ SerialEvent.fetching :: out) ∧
    (∃ out, (loop (envOf []) 70000
        { trackedDevice with
          globals := apiSettings writeAltitudeInterval trackedDevice.globals }).globals.serial
      = (apiSettings writeAltitudeInterval trackedDevice.globals).serial
          ++ SerialEvent.fetching :: out) := by
  have ha := (loop_acquisition_iff_due (envOf []) 89999 trackedDevice (by decide)
    (by decide)).2.1 (by decide)
  have hb := ((loop_acquisition_iff_due (envOf []) 90000 trackedDevice (by decide)
    (by decide)).2.2.1 rfl).mp (by decide)
  have hc := ((loop_acquisition_iff_due (envOf []) 70000
    { trackedDevice with globals := apiSettings writeAltitudeInterval trackedDevice.globals }
    (by decide) (by decide)).2.2.1 rfl).mp (by decide)
  exact ⟨⟨ha.1, ha.2.2.2⟩, hb, hc⟩

/-- C29. In every state the sketch reaches `aircraftCount` is at most 10, and the accesses
to `aircraft[MAX_AIRCRAFT]` stay in bounds: a cycle keeps the count at most 10, writes no
cell at an index from 10 on and stores only at indices below 10 (the index each `stored`
message prints); the sort rearranges only cells below 10; `drawSummary` reads only indices
below `aircraftCount`; and `loop()` passes `aircraft[0]` to `drawAircraft` only when
`aircraftCount > 0`. -/
theorem reachable_array_in_bounds (d : Device F) (hd : Reachable d) :
    d.globals.aircraftCount ≤ 10 ∧
    (∀ env : Env F,
      (updateAircraftData env d.globals).aircraftCount ≤ 10 ∧
      (∀ i, 10 ≤ i → (updateAircraftData env d.globals).aircraft i = d.globals.aircraft i) ∧
      (∀ out, (updateAircraftData env d.globals).serial = d.globals.serial ++ out →
        ∀ e ∈ out, ∀ idx, e.storedIndex = some idx → idx < 10)) ∧
    (∃ σ : Equiv.Perm Nat, (sortByDistance d.globals).aircraft = d.globals.aircraft ∘ σ ∧
      ∀ m, 10 ≤ m → σ m = m) ∧
    (∀ p ∈ drawSummary d.globals,
      p.1 < d.globals.aircraftCount ∧ p.1 < 10 ∧ p.2 = d.globals.aircraft p.1) ∧
    (∀ (env : Env F) (currentMillis : Nat) (out : List (DisplayRequest F)),
      (loop env currentMillis d).display = d.display ++ out →
      ∀ plane, DisplayRequest.aircraft plane ∈ out →
        0 < (loop env currentMillis d).globals.aircraftCount ∧
        (loop env currentMillis d).globals.aircraftCount ≤ 10 ∧
        plane = (loop env currentMillis d).globals.aircraft 0) := by
  have hcount : d.globals.aircraftCount ≤ 10 := reachable_count_le d hd
  refine ⟨hcount, ?_, ?_, ?_, ?_⟩
  · intro env
    refine ⟨updateAircraftData_count_le env d.globals hcount,
      fun i hi => updateAircraftData_cells_above env d.globals i hi, ?_⟩
    intro out hout e he idx hidx
    cases hw : env.wifiConnected with
    | false =>
      have hsame : updateAircraftData env d.globals = d.globals := by
        simp [updateAircraftData, hw]
      rw [hsame] at hout
      have hnil : out = [] := by
        have := congrArg List.length hout
        simp only [List.length_append] at this
        exact List.length_eq_zero.mp (by omega)
      rw [hnil] at he
      exact absurd he (List.not_mem_nil e)
    | true =>
      obtain ⟨out', hout', hall⟩ := updateAircraftData_serial env d.globals hw
      rw [hout'] at hout
      have heq : out = SerialEvent.fetching :: out' := (List.append_cancel_left hout).symm
      rw [heq] at he
      rcases List.mem_cons.mp he with h | h
      · rw [h] at hidx
        simp [SerialEvent.storedIndex] at hidx
      · exact (hall e h).2 idx hidx
  · obtain ⟨σ, hσ, hfix⟩ := sortByDistance_perm d.globals
    exact ⟨σ, hσ, fun m hm => hfix m (by omega)⟩
  · intro p hp
    unfold drawSummary at hp
    split at hp
    · exact absurd hp (List.not_mem_nil p)
    · simp only [List.mem_map, List.mem_range] at hp
      obtain ⟨i, hi, rfl⟩ := hp
      have hmin : i < d.globals.aircraftCount := lt_of_lt_of_le hi (Nat.min_le_left _ _)
      exact ⟨hmin, by omega, rfl⟩
  · intro env currentMillis out hout plane hplane
    have hreach : Reachable (loop env currentMillis d) := Reachable.tick env currentMillis d hd
    have hle := reachable_count_le _ hreach
    have h := loop_aircraft_request env currentMillis d out plane hout hplane
    exact ⟨Nat.pos_of_ne_zero h.1, hle, h.2⟩

/-- The state that tracks B and A: the count is 2, `drawSummary` reads cells 0 and 1, and a
cycle on the feed of eleven records leaves the count at most 10. -/
theorem reachable_array_in_bounds_witness :
    trackedDevice.globals.aircraftCount = 2 ∧ trackedDevice.globals.aircraftCount ≤ 10 ∧
      (drawSummary trackedDevice.globals).map (fun p => p.1) = [0, 1] ∧
      (updateAircraftData (envOf crowdedStates) trackedDevice.globals).aircraftCount ≤ 10 ∧
      (∀ p ∈ drawSummary trackedDevice.globals,
        p.1 < trackedDevice.globals.aircraftCount ∧ p.1 < 10 ∧
          p.2 = trackedDevice.globals.aircraft p.1) := by
  have h := reachable_array_in_bounds trackedDevice
    (Reachable.update (envOf [stateA, stateB]) startDevice (Reachable.start 100 12000 30))
  exact ⟨by decide, h.1, by decide, (h.2.1 (envOf crowdedStates)).1, h.2.2.2.1⟩

end TimerClaims

/-! ## Rounding: bounds that survive it -/

section RoundingLemmas

/-- Rounding to the nearest integer does not pass an integer above. -/
theorem roundHalfEven_le (y : ℚ) (U : ℤ) (h : y ≤ U) : roundHalfEven y ≤ U := by
  have hfl : (⌊y⌋ : ℚ) ≤ y := Int.floor_le y
  have hn : ⌊y⌋ ≤ U := by exact_mod_cast le_trans hfl h
  have hstep : ¬ (y - ⌊y⌋ < 1 / 2) → ⌊y⌋ + 1 ≤ U := by
    intro hlt
    by_contra hcon
    have hUle : U ≤ ⌊y⌋ := by omega
    have : (U : ℚ) ≤ (⌊y⌋ : ℚ) := by exact_mod_cast hUle
    apply hlt
    linarith
  unfold roundHalfEven
  dsimp only
  split
  · exact hn
  · rename_i h1
    split
    · exact hstep h1
    · split
      · exact hn
      · exact hstep h1

/-- Rounding to the nearest integer does not pass an integer below. -/
theorem le_roundHalfEven (y : ℚ) (L : ℤ) (h : (L : ℚ) ≤ y) : L ≤ roundHalfEven y := by
  have hn : L ≤ ⌊y⌋ := Int.le_floor.mpr h
  unfold roundHalfEven
  dsimp only
  split
  · exact hn
  · split
    · omega
    · split
      · exact hn
      · omega

/-- The halving loop finds the leading bit when its budget covers the number. -/
theorem bitLengthAux_spec : ∀ (fuel n : ℕ), n ≤ fuel → n ≠ 0 →
    2 ^ bitLengthAux fuel n ≤ n ∧ n < 2 ^ (bitLengthAux fuel n + 1) := by
  intro fuel
  induction fuel with
  | zero => intro n h1 h2; omega
  | succ fuel ih =>
    intro n h1 h2
    unfold bitLengthAux
    split
    · constructor
      · simp only [pow_zero]; omega
      · simp only [zero_add, pow_one]; omega
    · rename_i hn
      obtain ⟨ha, hb⟩ := ih (n / 2) (by omega) (by omega)
      rw [pow_succ] at hb
      constructor
      · rw [pow_succ]; omega
      · rw [pow_succ, pow_succ]; omega

/-- `2 ^ leadingBit n <= n < 2 ^ (leadingBit n + 1)` for a positive `n`. -/
theorem leadingBit_spec (n : ℕ) (hn : n ≠ 0) :
    2 ^ leadingBit n ≤ n ∧ n < 2 ^ (leadingBit n + 1) :=
  bitLengthAux_spec n n (le_refl n) hn

/-- The quotient of two positive naturals lies within a factor 2 of the power of two given
by the difference of their leading bits. -/
theorem log2_quotient_bounds (n d : ℕ) (hn0 : n ≠ 0) (hd0 : d ≠ 0) :
    (2 : ℚ) ^ ((leadingBit n : ℤ) - (leadingBit d : ℤ) - 1) ≤ (n : ℚ) / (d : ℚ) ∧
      (n : ℚ) / (d : ℚ) < (2 : ℚ) ^ ((leadingBit n : ℤ) - (leadingBit d : ℤ) + 1) := by
  have hdpos : (0 : ℚ) < (d : ℚ) := by exact_mod_cast Nat.pos_of_ne_zero hd0
  have hn1 : ((2 : ℚ) ^ (leadingBit n : ℤ)) ≤ (n : ℚ) := by
    rw [zpow_natCast]
    exact_mod_cast (leadingBit_spec n hn0).1
  have hn2 : (n : ℚ) < (2 : ℚ) ^ ((leadingBit n : ℤ) + 1) := by
    have := (leadingBit_spec n hn0).2
    have h2 : ((leadingBit n : ℤ) + 1) = ((leadingBit n + 1 : ℕ) : ℤ) := by
      push_cast; ring
    rw [h2, zpow_natCast]
    exact_mod_cast this
  have hd1 : ((2 : ℚ) ^ (leadingBit d : ℤ)) ≤ (d : ℚ) := by
    rw [zpow_natCast]
    exact_mod_cast (leadingBit_spec d hd0).1
  have hd2 : (d : ℚ) < (2 : ℚ) ^ ((leadingBit d : ℤ) + 1) := by
    have := (leadingBit_spec d hd0).2
    have h2 : ((leadingBit d : ℤ) + 1) = ((leadingBit d + 1 : ℕ) : ℤ) := by
      push_cast; ring
    rw [h2, zpow_natCast]
    exact_mod_cast this
  have h2pos : ∀ z : ℤ, (0 : ℚ) < (2 : ℚ) ^ z := fun z => zpow_pos (by norm_num) z
  constructor
  · have e : ((leadingBit n : ℤ) - (leadingBit d : ℤ) - 1)
        = (leadingBit n : ℤ) - ((leadingBit d : ℤ) + 1) := by ring
    rw [e, zpow_sub₀ (by norm_num : (2 : ℚ) ≠ 0), div_le_div_iff₀ (h2pos _) hdpos]
    calc 2 ^ (leadingBit n : ℤ) * (d : ℚ)
        ≤ (n : ℚ) * (d : ℚ) := mul_le_mul_of_nonneg_right hn1 (le_of_lt hdpos)
      _ ≤ (n : ℚ) * 2 ^ ((leadingBit d : ℤ) + 1) :=
          mul_le_mul_of_nonneg_left (le_of_lt hd2) (by positivity)
  · have e : ((leadingBit n : ℤ) - (leadingBit d : ℤ) + 1)
        = ((leadingBit n : ℤ) + 1) - (leadingBit d : ℤ) := by ring
    rw [e, zpow_sub₀ (by norm_num : (2 : ℚ) ≠ 0), div_lt_div_iff₀ hdpos (h2pos _)]
    calc (n : ℚ) * 2 ^ (leadingBit d : ℤ)
        < 2 ^ ((leadingBit n : ℤ) + 1) * 2 ^ (leadingBit d : ℤ) :=
          mul_lt_mul_of_pos_right hn2 (h2pos _)
      _ ≤ 2 ^ ((leadingBit n : ℤ) + 1) * (d : ℚ) :=
          mul_le_mul_of_nonneg_left hd1 (le_of_lt (h2pos _))

/-- `floorLog2 q` is the binary exponent of a positive `q`. -/
theorem floorLog2_spec (q : ℚ) (hq : 0 < q) :
    (2 : ℚ) ^ floorLog2 q ≤ q ∧ q < (2 : ℚ) ^ (floorLog2 q + 1) := by
  have hnum : 0 < q.num := Rat.num_pos.mpr hq
  have hn0 : q.num.natAbs ≠ 0 := by omega
  have hd0 : q.den ≠ 0 := q.den_nz
  have hnat : (q.num.natAbs : ℤ) = q.num := Int.natAbs_of_nonneg (le_of_lt hnum)
  have hqeq : (q.num.natAbs : ℚ) / (q.den : ℚ) = q := by
    have h1 : ((q.num.natAbs : ℤ) : ℚ) = (q.num : ℚ) := by rw [hnat]
    have h2 : ((q.num.natAbs : ℤ) : ℚ) = (q.num.natAbs : ℚ) := Int.cast_natCast _
    rw [← h2, h1]
    exact Rat.num_div_den q
  obtain ⟨hlow, hup⟩ := log2_quotient_bounds q.num.natAbs q.den hn0 hd0
  rw [hqeq] at hlow hup
  unfold floorLog2
  dsimp only
  split
  · rename_i h
    exact ⟨h, hup⟩
  · rename_i h
    refine ⟨hlow, ?_⟩
    have e : ((leadingBit q.num.natAbs : ℤ) - (leadingBit q.den : ℤ) - 1 + 1)
        = (leadingBit q.num.natAbs : ℤ) - (leadingBit q.den : ℤ) := by ring
    rw [e]
    exact lt_of_not_le h

/-- Powers of two are positive. -/
theorem two_zpow_pos (z : ℤ) : (0 : ℚ) < (2 : ℚ) ^ z := zpow_pos (by norm_num) z

/-- The spacing is positive. -/
theorem FloatFormat.ulp_pos (f : FloatFormat) (x : ℚ) : 0 < f.ulp x := two_zpow_pos _

/-- Rounding a positive number does not pass a power of two above it. -/
theorem FloatFormat.roundMag_le (f : FloatFormat) (hp : 1 ≤ f.prec) (x : ℚ) (hx : 0 < x) (k : ℤ)
    (hk : f.emin ≤ k) (h : x ≤ (2 : ℚ) ^ k) : f.roundMag x ≤ (2 : ℚ) ^ k := by
  obtain ⟨hlow, _⟩ := floorLog2_spec x hx
  have he0 : floorLog2 x ≤ k := (zpow_le_zpow_iff_right₀ (by norm_num : (1 : ℚ) < 2)).mp (le_trans hlow h)
  have he : max (floorLog2 x) f.emin ≤ k := max_le he0 hk
  have hp' : (1 : ℤ) ≤ (f.prec : ℤ) := by exact_mod_cast hp
  have hD : 0 ≤ k - (max (floorLog2 x) f.emin - ((f.prec : ℤ) - 1)) := by omega
  have hU : (((2 : ℤ) ^ (k - (max (floorLog2 x) f.emin - ((f.prec : ℤ) - 1))).toNat : ℤ) : ℚ)
      = (2 : ℚ) ^ k / f.ulp x := by
    unfold FloatFormat.ulp
    rw [← zpow_sub₀ (by norm_num : (2 : ℚ) ≠ 0)]
    push_cast
    rw [← zpow_natCast, Int.toNat_of_nonneg hD]
  have hy : x / f.ulp x ≤
      (((2 : ℤ) ^ (k - (max (floorLog2 x) f.emin - ((f.prec : ℤ) - 1))).toNat : ℤ) : ℚ) := by
    rw [hU]
    exact div_le_div_of_nonneg_right h (le_of_lt (f.ulp_pos x))
  have hr := roundHalfEven_le _ _ hy
  have hr' : (roundHalfEven (x / f.ulp x) : ℚ) ≤ (2 : ℚ) ^ k / f.ulp x := by
    rw [← hU]
    exact_mod_cast hr
  unfold FloatFormat.roundMag
  calc (roundHalfEven (x / f.ulp x) : ℚ) * f.ulp x
      ≤ (2 : ℚ) ^ k / f.ulp x * f.ulp x :=
        mul_le_mul_of_nonneg_right hr' (le_of_lt (f.ulp_pos x))
    _ = (2 : ℚ) ^ k := div_mul_cancel₀ _ (ne_of_gt (f.ulp_pos x))

/-- Rounding a positive number does not pass a power of two below it. -/
theorem FloatFormat.le_roundMag (f : FloatFormat) (hp : 1 ≤ f.prec) (x : ℚ) (hx : 0 < x) (k : ℤ)
    (hk : f.emin ≤ k) (h : (2 : ℚ) ^ k ≤ x) : (2 : ℚ) ^ k ≤ f.roundMag x := by
  obtain ⟨hlow, hup⟩ := floorLog2_spec x hx
  have he0 : k < floorLog2 x + 1 :=
    (zpow_lt_zpow_iff_right₀ (by norm_num : (1 : ℚ) < 2)).mp (lt_of_le_of_lt h hup)
  have he : max (floorLog2 x) f.emin = floorLog2 x := max_eq_left (by omega)
  have hp' : (1 : ℤ) ≤ (f.prec : ℤ) := by exact_mod_cast hp
  have hulp : f.ulp x = (2 : ℚ) ^ (floorLog2 x - ((f.prec : ℤ) - 1)) := by
    unfold FloatFormat.ulp
    rw [he]
  have hD : 0 ≤ (f.prec : ℤ) - 1 := by omega
  have hL : (((2 : ℤ) ^ ((f.prec : ℤ) - 1).toNat : ℤ) : ℚ) = (2 : ℚ) ^ floorLog2 x / f.ulp x := by
    rw [hulp, ← zpow_sub₀ (by norm_num : (2 : ℚ) ≠ 0)]
    push_cast
    rw [← zpow_natCast, Int.toNat_of_nonneg hD]
    congr 1
    ring
  have hy : (((2 : ℤ) ^ ((f.prec : ℤ) - 1).toNat : ℤ) : ℚ) ≤ x / f.ulp x := by
    rw [hL]
    exact div_le_div_of_nonneg_right hlow (le_of_lt (f.ulp_pos x))
  have hr := le_roundHalfEven _ _ hy
  have hr' : (2 : ℚ) ^ floorLog2 x / f.ulp x ≤ (roundHalfEven (x / f.ulp x) : ℚ) := by
    rw [← hL]
    exact_mod_cast hr
  have hke : (2 : ℚ) ^ k ≤ (2 : ℚ) ^ floorLog2 x := zpow_le_zpow_right₀ (by norm_num) (by omega)
  unfold FloatFormat.roundMag
  calc (2 : ℚ) ^ k ≤ (2 : ℚ) ^ floorLog2 x := hke
    _ = (2 : ℚ) ^ floorLog2 x / f.ulp x * f.ulp x :=
        (div_mul_cancel₀ _ (ne_of_gt (f.ulp_pos x))).symm
    _ ≤ (roundHalfEven (x / f.ulp x) : ℚ) * f.ulp x :=
        mul_le_mul_of_nonneg_right hr' (le_of_lt (f.ulp_pos x))

/-- The rounded magnitude is not negative. -/
theorem FloatFormat.roundMag_nonneg (f : FloatFormat) (x : ℚ) (hx : 0 < x) : 0 ≤ f.roundMag x := by
  unfold FloatFormat.roundMag
  have h0 : ((0 : ℤ) : ℚ) ≤ x / f.ulp x := by
    simp only [Int.cast_zero]
    exact le_of_lt (div_pos hx (f.ulp_pos x))
  have := le_roundHalfEven _ _ h0
  have h1 : (0 : ℚ) ≤ (roundHalfEven (x / f.ulp x) : ℚ) := by exact_mod_cast this
  exact mul_nonneg h1 (le_of_lt (f.ulp_pos x))

/-- A number of magnitude at most `2 ^ k` rounds to a finite value of magnitude at most
`2 ^ k`, for `k` in the exponent range of the format. -/
theorem FloatFormat.round_abs_le (f : FloatFormat) (hp : 1 ≤ f.prec) (q : ℚ) (k : ℤ)
    (hk : f.emin ≤ k) (hk' : k ≤ f.emax) (h : |q| ≤ (2 : ℚ) ^ k) :
    ∃ v, f.round q = Ieee.finite v ∧ |v| ≤ (2 : ℚ) ^ k := by
  by_cases hq : q = 0
  · refine ⟨0, ?_, ?_⟩
    · simp [FloatFormat.round, hq]
    · simpa using le_of_lt (two_zpow_pos k)
  · have hx : 0 < |q| := abs_pos.mpr hq
    have hm := f.roundMag_le hp |q| hx k hk h
    have hn := f.roundMag_nonneg |q| hx
    have hlt : ¬ ((2 : ℚ) ^ (f.emax + 1) ≤ f.roundMag |q|) := by
      intro hcon
      have h1 : (2 : ℚ) ^ (f.emax + 1) ≤ (2 : ℚ) ^ k := le_trans hcon hm
      have := (zpow_le_zpow_iff_right₀ (by norm_num : (1 : ℚ) < 2)).mp h1
      omega
    refine ⟨if q < 0 then -f.roundMag |q| else f.roundMag |q|, ?_, ?_⟩
    · simp only [FloatFormat.round, hq, if_false, hlt]
    · split
      · rw [abs_neg, abs_of_nonneg hn]; exact hm
      · rw [abs_of_nonneg hn]; exact hm

/-- A positive number between `2 ^ k` and `2 ^ k2` rounds to a finite value between the
same bounds, for exponents in the range of the format. -/
theorem FloatFormat.round_pos_bounds (f : FloatFormat) (hp : 1 ≤ f.prec) (q : ℚ) (k k2 : ℤ)
    (hk : f.emin ≤ k) (hk2 : k2 ≤ f.emax) (h1 : (2 : ℚ) ^ k ≤ q) (h2 : q ≤ (2 : ℚ) ^ k2) :
    ∃ v, f.round q = Ieee.finite v ∧ (2 : ℚ) ^ k ≤ v ∧ v ≤ (2 : ℚ) ^ k2 := by
  have hq : 0 < q := lt_of_lt_of_le (two_zpow_pos k) h1
  have habs : |q| = q := abs_of_pos hq
  have hkk : k ≤ k2 := (zpow_le_zpow_iff_right₀ (by norm_num : (1 : ℚ) < 2)).mp (le_trans h1 h2)
  have hm := f.roundMag_le hp q hq k2 (by omega) h2
  have hl := f.le_roundMag hp q hq k hk h1
  have hlt : ¬ ((2 : ℚ) ^ (f.emax + 1) ≤ f.roundMag q) := by
    intro hcon
    have h3 : (2 : ℚ) ^ (f.emax + 1) ≤ (2 : ℚ) ^ k2 := le_trans hcon hm
    have := (zpow_le_zpow_iff_right₀ (by norm_num : (1 : ℚ) < 2)).mp h3
    omega
  refine ⟨f.roundMag q, ?_, hl, hm⟩
  simp only [FloatFormat.round, ne_of_gt hq, habs, if_false, hlt, not_lt.mpr (le_of_lt hq)]

/-- A double-precision result of magnitude at most `2 ^ k` stays finite, with the same
bound, when it is stored in a `float`. -/
theorem round_to_float_abs_le (q : ℚ) (k : ℤ) (hk : -126 ≤ k) (hk2 : k ≤ 127)
    (h : |q| ≤ (2 : ℚ) ^ k) :
    ∃ v, binary32.cast (binary64.round q) = Ieee.finite v ∧ |v| ≤ (2 : ℚ) ^ k := by
  obtain ⟨w, hw, hwb⟩ := binary64.round_abs_le (by decide) q k
    (by simp only [binary64]; omega) (by simp only [binary64]; omega) h
  obtain ⟨v, hv, hvb⟩ := binary32.round_abs_le (by decide) w k
    (by simp only [binary32]; omega) (by simp only [binary32]; omega) hwb
  exact ⟨v, by rw [hw]; exact hv, hvb⟩

end RoundingLemmas

/-! ## The claims on the bounding box -/

section BoundingBoxClaims

/-- C21 fails as stated. At latitude 90° the rounded angle is just short of π/2 and the
library cosine is `6.1e-17`, not zero, so no zero is divided by; but for the radius
`1e30` km (stored as the nearest `float`, a value the settings handler accepts) the
quotient `1.47e44` is past the `float` range: `lonDelta` is `+inf`, and `minLon` and
`maxLon` are `-inf` and `+inf`. -/
theorem boundingBox_overflows_at_pole :
    binary32.round (10 ^ 30) = Ieee.finite 1000000015047466219876688855040 ∧
    libmTable.cos (binary64.div (binary64.mul (Ieee.finite 90) libmTable.PI) (Ieee.finite 180))
      = Ieee.finite (4967757600021511 / 81129638414606681695789005144064) ∧
    boundingBox libmTable (Ieee.finite 90) (Ieee.finite 0)
        (Ieee.finite 1000000015047466219876688855040)
      = { minLat := Ieee.finite (-9009009064802063644109045760)
          maxLat := Ieee.finite 9009009064802063644109045760
          minLon := Ieee.inf true
          maxLon := Ieee.inf false } := by
  have hPI : libmTable.PI = Ieee.finite (884279719003555 / 281474976710656) := rfl
  have e1 :
      binary64.mul (Ieee.finite 90) (Ieee.finite (884279719003555 / 281474976710656))
        = Ieee.finite (4974073419394997 / 17592186044416) := by decide!
  have e2 :
      binary64.div (Ieee.finite (4974073419394997 / 17592186044416)) (Ieee.finite 180)
        = Ieee.finite (884279719003555 / 562949953421312) := by decide!
  have e3 :
      binary64.mul (Ieee.finite 111)
        (Ieee.finite (4967757600021511 / 81129638414606681695789005144064))
        = Ieee.finite (2153988646884327 / 316912650057057350374175801344) := by decide!
  have e4 :
      binary64.div (Ieee.finite 1000000015047466219876688855040)
        (Ieee.finite (2153988646884327 / 316912650057057350374175801344))
        = Ieee.finite 147128284675127398951047444024452383898599424 := by decide!
  have e5 :
      binary32.cast (Ieee.finite 147128284675127398951047444024452383898599424)
        = Ieee.inf false := by decide!
  have e6 :
      binary64.div (Ieee.finite 1000000015047466219876688855040) (Ieee.finite 111)
        = Ieee.finite 9009009144571767479188062208 := by decide!
  have e7 :
      binary32.cast (Ieee.finite 9009009144571767479188062208)
        = Ieee.finite 9009009064802063644109045760 := by decide!
  have e8 :
      binary64.sub (Ieee.finite 90) (Ieee.finite 9009009064802063644109045760)
        = Ieee.finite (-9009009064802063644109045760) := by decide!
  have e9 :
      binary32.cast (Ieee.finite (-9009009064802063644109045760))
        = Ieee.finite (-9009009064802063644109045760) := by decide!
  have e10 :
      binary64.add (Ieee.finite 90) (Ieee.finite 9009009064802063644109045760)
        = Ieee.finite 9009009064802063644109045760 := by decide!
  have e11 :
      binary32.cast (Ieee.finite 9009009064802063644109045760)
        = Ieee.finite 9009009064802063644109045760 := by decide!
  have e12 : binary64.sub (Ieee.finite 0) (Ieee.inf false) = Ieee.inf true := rfl
  have e13 : binary32.cast (Ieee.inf true) = Ieee.inf true := rfl
  have e14 : binary64.add (Ieee.finite 0) (Ieee.inf false) = Ieee.inf false := rfl
  have e15 : binary32.cast (Ieee.inf false) = Ieee.inf false := rfl
  have hcos : libmTable.cos (Ieee.finite (884279719003555 / 562949953421312))
      = Ieee.finite (4967757600021511 / 81129638414606681695789005144064) := by decide!
  refine ⟨by decide!, ?_, ?_⟩
  · rw [hPI, e1, e2, hcos]
  · simp only [boundingBox, hPI, hcos, e1, e2, e3, e4, e5, e6, e7, e8, e9, e10, e11, e12, e13,
      e14, e15]

/-- C21, as amended. The bounding box has no guard and no clamp.  For an observer with
`|lat| <= 90` and `|lon| <= 180`, a library cosine of the rounded angle that is at least
`2 ^ -54` (it is `6.1e-17` at ±90°) and at most 1, and a positive radius up to `10^18` km:
the divisor `111.0 * cos(...)` is a positive number, so no zero is divided by, and
`minLat`, `maxLat`, `minLon`, `maxLon` are finite. -/
theorem boundingBox_finite (m : Libm Ieee) (lat lon radius cosv : ℚ)
    (hlat : |lat| ≤ 90) (hlon : |lon| ≤ 180)
    (hcos : m.cos (binary64.div (binary64.mul (Ieee.finite lat) m.PI) (Ieee.finite 180))
      = Ieee.finite cosv)
    (hc1 : (2 : ℚ) ^ (-54 : ℤ) ≤ cosv) (hc2 : cosv ≤ 1)
    (hr1 : 0 < radius) (hr2 : radius ≤ 10 ^ 18) :
    (∃ d, binary64.mul (Ieee.finite 111) (Ieee.finite cosv) = Ieee.finite d ∧ 0 < d) ∧
    ∃ a b c e, boundingBox m (Ieee.finite lat) (Ieee.finite lon) (Ieee.finite radius)
      = { minLat := Ieee.finite a, maxLat := Ieee.finite b,
          minLon := Ieee.finite c, maxLon := Ieee.finite e } := by
  have hcpos : 0 < cosv := lt_of_lt_of_le (two_zpow_pos _) hc1
  -- the divisor
  obtain ⟨d, hd, hd1, hd2⟩ := binary64.round_pos_bounds (by decide) (111 * cosv) (-48) 7
    (by decide) (by decide)
    (by
      have : (2 : ℚ) ^ (-48 : ℤ) = 64 * (2 : ℚ) ^ (-54 : ℤ) := by norm_num
      rw [this]; nlinarith)
    (by
      have : (2 : ℚ) ^ (7 : ℤ) = 128 := by norm_num
      rw [this]; nlinarith)
  have hdpos : 0 < d := lt_of_lt_of_le (two_zpow_pos _) hd1
  have hmul : binary64.mul (Ieee.finite 111) (Ieee.finite cosv) = Ieee.finite d := hd
  -- the two half-widths
  obtain ⟨la, hla, hlab⟩ := round_to_float_abs_le (radius / 111) 60 (by norm_num) (by norm_num)
    (by
      rw [abs_of_pos (div_pos hr1 (by norm_num))]
      have : (2 : ℚ) ^ (60 : ℤ) = 1152921504606846976 := by norm_num
      rw [this, div_le_iff₀ (by norm_num)]
      linarith)
  obtain ⟨lo, hlo, hlob⟩ := round_to_float_abs_le (radius / d) 108 (by norm_num) (by norm_num)
    (by
      rw [abs_of_pos (div_pos hr1 hdpos), div_le_iff₀ hdpos]
      have h60 : (2 : ℚ) ^ (108 : ℤ) = 2 ^ (60 : ℤ) * 2 ^ (48 : ℤ) := by
        rw [← zpow_add₀ (by norm_num : (2 : ℚ) ≠ 0)]; norm_num
      have h48 : (2 : ℚ) ^ (48 : ℤ) * (2 : ℚ) ^ (-48 : ℤ) = 1 := by
        rw [← zpow_add₀ (by norm_num : (2 : ℚ) ≠ 0)]; norm_num
      have hr60 : radius ≤ (2 : ℚ) ^ (60 : ℤ) := by
        have : (2 : ℚ) ^ (60 : ℤ) = 1152921504606846976 := by norm_num
        rw [this]; linarith
      calc radius ≤ (2 : ℚ) ^ (60 : ℤ) := hr60
        _ = 2 ^ (60 : ℤ) * (2 ^ (48 : ℤ) * 2 ^ (-48 : ℤ)) := by rw [h48, mul_one]
        _ ≤ 2 ^ (60 : ℤ) * (2 ^ (48 : ℤ) * d) := by
            apply mul_le_mul_of_nonneg_left _ (le_of_lt (two_zpow_pos _))
            exact mul_le_mul_of_nonneg_left hd1 (le_of_lt (two_zpow_pos _))
        _ = 2 ^ (108 : ℤ) * d := by rw [h60]; ring)
  have hlatb : |lat| ≤ (2 : ℚ) ^ (60 : ℤ) := by
    have : (2 : ℚ) ^ (60 : ℤ) = 1152921504606846976 := by norm_num
    rw [this]; linarith
  have hlonb : |lon| ≤ (2 : ℚ) ^ (108 : ℤ) := by
    have : (2 : ℚ) ^ (108 : ℤ) = 324518553658426726783156020576256 := by norm_num
    rw [this]; linarith
  have h61 : (2 : ℚ) ^ (60 : ℤ) + (2 : ℚ) ^ (60 : ℤ) = (2 : ℚ) ^ (61 : ℤ) := by norm_num
  have h109 : (2 : ℚ) ^ (108 : ℤ) + (2 : ℚ) ^ (108 : ℤ) = (2 : ℚ) ^ (109 : ℤ) := by
    norm_num
  obtain ⟨a, ha, _⟩ := round_to_float_abs_le (lat - la) 61 (by norm_num) (by norm_num)
    (by rw [← h61]; exact le_trans (abs_sub lat la) (add_le_add hlatb hlab))
  obtain ⟨b, hb, _⟩ := round_to_float_abs_le (lat + la) 61 (by norm_num) (by norm_num)
    (by rw [← h61]; exact le_trans (abs_add lat la) (add_le_add hlatb hlab))
  obtain ⟨c, hc, _⟩ := round_to_float_abs_le (lon - lo) 109 (by norm_num) (by norm_num)
    (by rw [← h109]; exact le_trans (abs_sub lon lo) (add_le_add hlonb hlob))
  obtain ⟨e, he, _⟩ := round_to_float_abs_le (lon + lo) 109 (by norm_num) (by norm_num)
    (by rw [← h109]; exact le_trans (abs_add lon lo) (add_le_add hlonb hlob))
  refine ⟨⟨d, hmul, hdpos⟩, a, b, c, e, ?_⟩
  have hdiv1 : binary64.div (Ieee.finite radius) (Ieee.finite 111)
      = binary64.round (radius / 111) := by
    simp [FloatFormat.div]
  have hdiv2 : binary64.div (Ieee.finite radius) (Ieee.finite d)
      = binary64.round (radius / d) := by
    simp [FloatFormat.div, ne_of_gt hdpos]
  simp only [boundingBox, hcos, hmul, hdiv1, hdiv2, hla, hlo, FloatFormat.sub, FloatFormat.add,
    ha, hb, hc, he]

/-- An observer at the pole with the radius 100 km: the cosine is `6.1e-17`, the divisor
`6.8e-15`, and the box is finite, `89.099 .. 90.901` in latitude and `±1.47e16` in
longitude. -/
theorem boundingBox_finite_witness :
    ((∃ d, binary64.mul (Ieee.finite 111)
        (Ieee.finite (4967757600021511 / 81129638414606681695789005144064))
          = Ieee.finite d ∧ 0 < d) ∧
      ∃ a b c e, boundingBox libmTable (Ieee.finite 90) (Ieee.finite 0) (Ieee.finite 100)
        = { minLat := Ieee.finite a, maxLat := Ieee.finite b,
            minLon := Ieee.finite c, maxLon := Ieee.finite e }) ∧
    boundingBox libmTable (Ieee.finite 90) (Ieee.finite 0) (Ieee.finite 100)
      = { minLat := Ieee.finite (11678397 / 131072)
          maxLat := Ieee.finite (11914563 / 131072)
          minLon := Ieee.finite (-14712828158017536)
          maxLon := Ieee.finite 14712828158017536 } := by
  have hPI : libmTable.PI = Ieee.finite (884279719003555 / 281474976710656) := rfl
  have e1 :
      binary64.mul (Ieee.finite 90) (Ieee.finite (884279719003555 / 281474976710656))
        = Ieee.finite (4974073419394997 / 17592186044416) := by decide!
  have e2 :
      binary64.div (Ieee.finite (4974073419394997 / 17592186044416)) (Ieee.finite 180)
        = Ieee.finite (884279719003555 / 562949953421312) := by decide!
  have e3 :
      binary64.mul (Ieee.finite 111)
        (Ieee.finite (4967757600021511 / 81129638414606681695789005144064))
        = Ieee.finite (2153988646884327 / 316912650057057350374175801344) := by decide!
  have e4 :
      binary64.div (Ieee.finite 100)
        (Ieee.finite (2153988646884327 / 316912650057057350374175801344))
        = Ieee.finite 14712828246121954 := by decide!
  have e5 :
      binary32.cast (Ieee.finite 14712828246121954)
        = Ieee.finite 14712828158017536 := by decide!
  have e6 :
      binary64.div (Ieee.finite 100) (Ieee.finite 111)
        = Ieee.finite (8114593923190083 / 9007199254740992) := by decide!
  have e7 :
      binary32.cast (Ieee.finite (8114593923190083 / 9007199254740992))
        = Ieee.finite (15114609 / 16777216) := by decide!
  have e8 :
      binary64.sub (Ieee.finite 90) (Ieee.finite (15114609 / 16777216))
        = Ieee.finite (1494834831 / 16777216) := by decide!
  have e9 :
      binary32.cast (Ieee.finite (1494834831 / 16777216))
        = Ieee.finite (11678397 / 131072) := by decide!
  have e10 :
      binary64.add (Ieee.finite 90) (Ieee.finite (15114609 / 16777216))
        = Ieee.finite (1525064049 / 16777216) := by decide!
  have e11 :
      binary32.cast (Ieee.finite (1525064049 / 16777216))
        = Ieee.finite (11914563 / 131072) := by decide!
  have e12 :
      binary64.sub (Ieee.finite 0) (Ieee.finite 14712828158017536)
        = Ieee.finite (-14712828158017536) := by decide!
  have e13 :
      binary32.cast (Ieee.finite (-14712828158017536))
        = Ieee.finite (-14712828158017536) := by decide!
  have e14 :
      binary64.add (Ieee.finite 0) (Ieee.finite 14712828158017536)
        = Ieee.finite 14712828158017536 := by decide!
  have e15 :
      binary32.cast (Ieee.finite 14712828158017536)
        = Ieee.finite 14712828158017536 := by decide!
  have hcos : libmTable.cos (Ieee.finite (884279719003555 / 562949953421312))
      = Ieee.finite (4967757600021511 / 81129638414606681695789005144064) := by decide!
  have hcos2 : libmTable.cos
      (binary64.div (binary64.mul (Ieee.finite 90) libmTable.PI) (Ieee.finite 180))
      = Ieee.finite (4967757600021511 / 81129638414606681695789005144064) := by
    rw [hPI, e1, e2, hcos]
  refine ⟨boundingBox_finite libmTable 90 0 100
    (4967757600021511 / 81129638414606681695789005144064)
    (by norm_num [abs_of_nonneg]) (by norm_num [abs_of_nonneg]) hcos2 (by norm_num) (by norm_num)
    (by norm_num) (by norm_num), ?_⟩
  simp only [boundingBox, hPI, hcos, e1, e2, e3, e4, e5, e6, e7, e8, e9, e10, e11, e12, e13, e14, e15]

end BoundingBoxClaims

/-! ## The claims on the range of the distance, in `float` arithmetic -/

section DistanceRangeLemmas

/-- The local `a` of `calculateDistance` for the observer (58.5, 0) and the point
(-58.5, 180), its antipode, traced operation by operation: the `float` term
`sin(dLat/2)^2` is `0.72699535`, the `double` term `cos(lat1) * cos(lat2) * sin(dLon/2)^2` is
`0.27300475`, their sum `1.0000000990605855` is stored in the `float a` as
`1.0000001192092896`, one unit in the last place above 1. -/
theorem haversineA_antipode (m : Libm Ieee)
    (hPI : m.PI = Ieee.finite (884279719003555 / 281474976710656))
    (hsin1 : m.sin (Ieee.finite (-8564917 / 8388608)) = Ieee.finite (-14304929 / 16777216))
    (hsin2 : m.sin (Ieee.finite (13176795 / 8388608)) = Ieee.finite 1)
    (hcos1 : m.cos (Ieee.finite (2299127269409243 / 2251799813685248))
      = Ieee.finite (4706248682712733 / 9007199254740992))
    (hcos2 : m.cos (Ieee.finite (-2299127269409243 / 2251799813685248))
      = Ieee.finite (4706248682712733 / 9007199254740992)) :
    Ieee.haversineA m (Ieee.finite (117 / 2)) (Ieee.finite 0) (Ieee.finite (-117 / 2))
      (Ieee.finite 180) = Ieee.finite (8388609 / 8388608) := by
  have e1 :
      binary32.sub (Ieee.finite (-117 / 2)) (Ieee.finite (117 / 2))
        = Ieee.finite (-117) := by decide!
  have e2 :
      binary64.mul (Ieee.finite (-117)) (Ieee.finite (884279719003555 / 281474976710656))
        = Ieee.finite (-808286930651687 / 2199023255552) := by decide!
  have e3 :
      binary64.div (Ieee.finite (-808286930651687 / 2199023255552)) (Ieee.finite 180)
        = Ieee.finite (-2299127269409243 / 1125899906842624) := by decide!
  have e4 :
      binary32.cast (Ieee.finite (-2299127269409243 / 1125899906842624))
        = Ieee.finite (-8564917 / 4194304) := by decide!
  have e5 : binary32.sub (Ieee.finite 180) (Ieee.finite 0) = Ieee.finite 180 := by decide!
  have e6 :
      binary64.mul (Ieee.finite 180) (Ieee.finite (884279719003555 / 281474976710656))
        = Ieee.finite (4974073419394997 / 8796093022208) := by decide!
  have e7 :
      binary64.div (Ieee.finite (4974073419394997 / 8796093022208)) (Ieee.finite 180)
        = Ieee.finite (884279719003555 / 281474976710656) := by decide!
  have e8 :
      binary32.cast (Ieee.finite (884279719003555 / 281474976710656))
        = Ieee.finite (13176795 / 4194304) := by decide!
  have e9 :
      binary32.div (Ieee.finite (-8564917 / 4194304)) (Ieee.finite 2)
        = Ieee.finite (-8564917 / 8388608) := by decide!
  have e10 :
      binary32.div (Ieee.finite (13176795 / 4194304)) (Ieee.finite 2)
        = Ieee.finite (13176795 / 8388608) := by decide!
  have e11 :
      binary32.mul (Ieee.finite (-14304929 / 16777216)) (Ieee.finite (-14304929 / 16777216))
        = Ieee.finite (6098479 / 8388608) := by decide!
  have e12 :
      binary64.mul (Ieee.finite (117 / 2)) (Ieee.finite (884279719003555 / 281474976710656))
        = Ieee.finite (808286930651687 / 4398046511104) := by decide!
  have e13 :
      binary64.div (Ieee.finite (808286930651687 / 4398046511104)) (Ieee.finite 180)
        = Ieee.finite (2299127269409243 / 2251799813685248) := by decide!
  have e14 :
      binary64.mul (Ieee.finite (-117 / 2)) (Ieee.finite (884279719003555 / 281474976710656))
        = Ieee.finite (-808286930651687 / 4398046511104) := by decide!
  have e15 :
      binary64.div (Ieee.finite (-808286930651687 / 4398046511104)) (Ieee.finite 180)
        = Ieee.finite (-2299127269409243 / 2251799813685248) := by decide!
  have e16 :
      binary64.mul (Ieee.finite (4706248682712733 / 9007199254740992))
        (Ieee.finite (4706248682712733 / 9007199254740992))
        = Ieee.finite (19211001421201 / 70368744177664) := by decide!
  have e17 :
      binary64.mul (Ieee.finite (19211001421201 / 70368744177664)) (Ieee.finite 1)
        = Ieee.finite (19211001421201 / 70368744177664) := by decide!
  have e18 :
      binary64.add (Ieee.finite (6098479 / 8388608)) (Ieee.finite (19211001421201 / 70368744177664))
        = Ieee.finite (70368751148433 / 70368744177664) := by decide!
  have e19 :
      binary32.cast (Ieee.finite (70368751148433 / 70368744177664))
        = Ieee.finite (8388609 / 8388608) := by decide!
  simp only [Ieee.haversineA, hPI, hsin1, hsin2, hcos1, hcos2, e1, e2, e3, e4, e5, e6, e7, e8, e9, e10, e11, e12, e13, e14, e15, e16, e17, e18, e19]

/-- For that pair `1 - a` is negative, its square root is a NaN, and so are `atan2`, the
angle `c` and the distance. -/
theorem calculateDistance_antipode (m : Libm Ieee)
    (hPI : m.PI = Ieee.finite (884279719003555 / 281474976710656))
    (hsin1 : m.sin (Ieee.finite (-8564917 / 8388608)) = Ieee.finite (-14304929 / 16777216))
    (hsin2 : m.sin (Ieee.finite (13176795 / 8388608)) = Ieee.finite 1)
    (hcos1 : m.cos (Ieee.finite (2299127269409243 / 2251799813685248))
      = Ieee.finite (4706248682712733 / 9007199254740992))
    (hcos2 : m.cos (Ieee.finite (-2299127269409243 / 2251799813685248))
      = Ieee.finite (4706248682712733 / 9007199254740992))
    (hsqrt : ∀ q : ℚ, q < 0 → m.sqrt (Ieee.finite q) = Ieee.nan)
    (hatan : ∀ y : Ieee, m.atan2 y Ieee.nan = Ieee.nan) :
    Ieee.calculateDistance m (Ieee.finite (117 / 2)) (Ieee.finite 0) (Ieee.finite (-117 / 2))
      (Ieee.finite 180) = Ieee.nan := by
  have ha := haversineA_antipode m hPI hsin1 hsin2 hcos1 hcos2
  have e20 : binary32.sub (Ieee.finite 1) (Ieee.finite (8388609 / 8388608))
      = Ieee.finite (-1 / 8388608) := by decide!
  have hneg : m.sqrt (Ieee.finite (-1 / 8388608)) = Ieee.nan := hsqrt _ (by norm_num)
  have hstep : Ieee.calculateDistance m (Ieee.finite (117 / 2)) (Ieee.finite 0)
      (Ieee.finite (-117 / 2)) (Ieee.finite 180)
      = binary32.mul (Ieee.finite 6371) (binary32.mul (Ieee.finite 2)
          (m.atan2
            (m.sqrt (Ieee.haversineA m (Ieee.finite (117 / 2)) (Ieee.finite 0)
              (Ieee.finite (-117 / 2)) (Ieee.finite 180)))
            (m.sqrt (binary32.sub (Ieee.finite 1)
              (Ieee.haversineA m (Ieee.finite (117 / 2)) (Ieee.finite 0)
                (Ieee.finite (-117 / 2)) (Ieee.finite 180)))))) := rfl
  rw [hstep, ha, e20, hneg, hatan]
  rfl

/-- The distance from the observer (58.5, 0) to the point right above it is 0: both sines
are `sin(0) = 0`, `a` is 0, and `atan2(sqrt 0, sqrt 1)` is 0. -/
theorem calculateDistance_overhead (m : Libm Ieee)
    (hPI : m.PI = Ieee.finite (884279719003555 / 281474976710656))
    (hsin0 : m.sin (Ieee.finite 0) = Ieee.finite 0)
    (hcos1 : m.cos (Ieee.finite (2299127269409243 / 2251799813685248))
      = Ieee.finite (4706248682712733 / 9007199254740992))
    (hsqrt0 : m.sqrt (Ieee.finite 0) = Ieee.finite 0)
    (hsqrt1 : m.sqrt (Ieee.finite 1) = Ieee.finite 1)
    (hatan : m.atan2 (Ieee.finite 0) (Ieee.finite 1) = Ieee.finite 0) :
    Ieee.calculateDistance m (Ieee.finite (117 / 2)) (Ieee.finite 0) (Ieee.finite (117 / 2))
      (Ieee.finite 0) = Ieee.finite 0 := by
  have z1 :
      binary32.sub (Ieee.finite (117 / 2)) (Ieee.finite (117 / 2))
        = Ieee.finite 0 := by decide!
  have z2 :
      binary64.mul (Ieee.finite 0) (Ieee.finite (884279719003555 / 281474976710656))
        = Ieee.finite 0 := by decide!
  have z3 : binary64.div (Ieee.finite 0) (Ieee.finite 180) = Ieee.finite 0 := by decide!
  have z4 : binary32.cast (Ieee.finite 0) = Ieee.finite 0 := by decide!
  have z5 : binary32.sub (Ieee.finite 0) (Ieee.finite 0) = Ieee.finite 0 := by decide!
  have z6 : binary32.div (Ieee.finite 0) (Ieee.finite 2) = Ieee.finite 0 := by decide!
  have z7 : binary32.mul (Ieee.finite 0) (Ieee.finite 0) = Ieee.finite 0 := by decide!
  have z8 :
      binary64.mul (Ieee.finite (117 / 2)) (Ieee.finite (884279719003555 / 281474976710656))
        = Ieee.finite (808286930651687 / 4398046511104) := by decide!
  have z9 :
      binary64.div (Ieee.finite (808286930651687 / 4398046511104)) (Ieee.finite 180)
        = Ieee.finite (2299127269409243 / 2251799813685248) := by decide!
  have z10 :
      binary64.mul (Ieee.finite (4706248682712733 / 9007199254740992))
        (Ieee.finite (4706248682712733 / 9007199254740992))
        = Ieee.finite (19211001421201 / 70368744177664) := by decide!
  have z11 :
      binary64.mul (Ieee.finite (19211001421201 / 70368744177664)) (Ieee.finite 0)
        = Ieee.finite 0 := by decide!
  have z12 : binary64.mul (Ieee.finite 0) (Ieee.finite 0) = Ieee.finite 0 := by decide!
  have z13 : binary64.add (Ieee.finite 0) (Ieee.finite 0) = Ieee.finite 0 := by decide!
  have z14 : binary32.sub (Ieee.finite 1) (Ieee.finite 0) = Ieee.finite 1 := by decide!
  have z15 : binary32.mul (Ieee.finite 2) (Ieee.finite 0) = Ieee.finite 0 := by decide!
  have z16 : binary32.mul (Ieee.finite 6371) (Ieee.finite 0) = Ieee.finite 0 := by decide!
  simp only [Ieee.calculateDistance, hPI, hsin0, hcos1, hsqrt0, hsqrt1, hatan, z1, z2, z3, z4, z5, z6, z7, z8, z9, z10, z11, z12, z13, z14, z15, z16]

/-- No value is below or equal to a NaN. -/
theorem Ieee.not_le_nan (x : Ieee) : ¬ (x ≤ Ieee.nan) := by
  cases x <;> exact Bool.false_ne_true

/-- A NaN is below or equal to no value. -/
theorem Ieee.not_nan_le (x : Ieee) : ¬ (Ieee.nan ≤ x) := by
  cases x <;> exact Bool.false_ne_true

/-- No value is below a NaN. -/
theorem Ieee.not_lt_nan (x : Ieee) : ¬ (x < Ieee.nan) := by
  cases x <;> exact Bool.false_ne_true

/-- The library table returns NaN for the square root of a negative number. -/
theorem libmTable_sqrt_neg (q : ℚ) (hq : q < 0) : libmTable.sqrt (Ieee.finite q) = Ieee.nan := by
  simp [libmTable, hq]

/-- The library table returns NaN for `atan2` of a NaN. -/
theorem libmTable_atan2_nan (y : Ieee) : libmTable.atan2 y Ieee.nan = Ieee.nan := by
  simp [libmTable]

/-- The distance from the observer (58.5, 0) to the point one degree north of it,
(59.5, 0), traced operation by operation: `dLat/2` is `0.008726646`, its sine
`0.008726535`, `a = 7.615242e-05`, the angle `c = 0.017453292`, and the distance returned is
`111.19492` km. -/
theorem calculateDistance_north (m : Libm Ieee)
    (hPI : m.PI = Ieee.finite (884279719003555 / 281474976710656))
    (hsin0 : m.sin (Ieee.finite 0) = Ieee.finite 0)
    (hsin1 : m.sin (Ieee.finite (9370165 / 1073741824)) = Ieee.finite (4685023 / 536870912))
    (hcos1 : m.cos (Ieee.finite (2299127269409243 / 2251799813685248))
      = Ieee.finite (4706248682712733 / 9007199254740992))
    (hcos2 : m.cos (Ieee.finite (4676857180507691 / 4503599627370496))
      = Ieee.finite (2285749582306059 / 4503599627370496))
    (hsqrt1 : m.sqrt (Ieee.finite (10466309 / 137438953472))
      = Ieee.finite (4685023 / 536870912))
    (hsqrt2 : m.sqrt (Ieee.finite (8387969 / 8388608)) = Ieee.finite (16776577 / 16777216))
    (hatan : m.atan2 (Ieee.finite (4685023 / 536870912)) (Ieee.finite (16776577 / 16777216))
      = Ieee.finite (9370165 / 1073741824)) :
    Ieee.calculateDistance m (Ieee.finite (117 / 2)) (Ieee.finite 0) (Ieee.finite (119 / 2))
      (Ieee.finite 0) = Ieee.finite (14574541 / 131072) := by
  have p1 :
      binary32.sub (Ieee.finite (119 / 2)) (Ieee.finite (117 / 2))
        = Ieee.finite 1 := by decide!
  have p2 :
      binary64.mul (Ieee.finite 1) (Ieee.finite (884279719003555 / 281474976710656))
        = Ieee.finite (884279719003555 / 281474976710656) := by decide!
  have p3 :
      binary64.div (Ieee.finite (884279719003555 / 281474976710656)) (Ieee.finite 180)
        = Ieee.finite (5030569068109113 / 288230376151711744) := by decide!
  have p4 :
      binary32.cast (Ieee.finite (5030569068109113 / 288230376151711744))
        = Ieee.finite (9370165 / 536870912) := by decide!
  have p5 : binary32.sub (Ieee.finite 0) (Ieee.finite 0) = Ieee.finite 0 := by decide!
  have p6 :
      binary64.mul (Ieee.finite 0) (Ieee.finite (884279719003555 / 281474976710656))
        = Ieee.finite 0 := by decide!
  have p7 : binary64.div (Ieee.finite 0) (Ieee.finite 180) = Ieee.finite 0 := by decide!
  have p8 : binary32.cast (Ieee.finite 0) = Ieee.finite 0 := by decide!
  have p9 :
      binary32.div (Ieee.finite (9370165 / 536870912)) (Ieee.finite 2)
        = Ieee.finite (9370165 / 1073741824) := by decide!
  have p10 : binary32.div (Ieee.finite 0) (Ieee.finite 2) = Ieee.finite 0 := by decide!
  have p11 :
      binary32.mul (Ieee.finite (4685023 / 536870912)) (Ieee.finite (4685023 / 536870912))
        = Ieee.finite (10466309 / 137438953472) := by decide!
  have p12 :
      binary64.mul (Ieee.finite (117 / 2)) (Ieee.finite (884279719003555 / 281474976710656))
        = Ieee.finite (808286930651687 / 4398046511104) := by decide!
  have p13 :
      binary64.div (Ieee.finite (808286930651687 / 4398046511104)) (Ieee.finite 180)
        = Ieee.finite (2299127269409243 / 2251799813685248) := by decide!
  have p14 :
      binary64.mul (Ieee.finite (119 / 2)) (Ieee.finite (884279719003555 / 281474976710656))
        = Ieee.finite (1644207602522235 / 8796093022208) := by decide!
  have p15 :
      binary64.div (Ieee.finite (1644207602522235 / 8796093022208)) (Ieee.finite 180)
        = Ieee.finite (4676857180507691 / 4503599627370496) := by decide!
  have p16 :
      binary64.mul (Ieee.finite (4706248682712733 / 9007199254740992))
        (Ieee.finite (2285749582306059 / 4503599627370496))
        = Ieee.finite (2388601752109991 / 9007199254740992) := by decide!
  have p17 :
      binary64.mul (Ieee.finite (2388601752109991 / 9007199254740992)) (Ieee.finite 0)
        = Ieee.finite 0 := by decide!
  have p18 : binary64.mul (Ieee.finite 0) (Ieee.finite 0) = Ieee.finite 0 := by decide!
  have p19 :
      binary64.add (Ieee.finite (10466309 / 137438953472)) (Ieee.finite 0)
        = Ieee.finite (10466309 / 137438953472) := by decide!
  have p20 :
      binary32.cast (Ieee.finite (10466309 / 137438953472))
        = Ieee.finite (10466309 / 137438953472) := by decide!
  have p21 :
      binary32.sub (Ieee.finite 1) (Ieee.finite (10466309 / 137438953472))
        = Ieee.finite (8387969 / 8388608) := by decide!
  have p22 :
      binary32.mul (Ieee.finite 2) (Ieee.finite (9370165 / 1073741824))
        = Ieee.finite (9370165 / 536870912) := by decide!
  have p23 :
      binary32.mul (Ieee.finite 6371) (Ieee.finite (9370165 / 536870912))
        = Ieee.finite (14574541 / 131072) := by decide!
  simp only [Ieee.calculateDistance, hPI, hsin0, hsin1, hcos1, hcos2, hsqrt1, hsqrt2, hatan, p1,
    p2, p3, p4, p5, p6, p7, p8, p9, p10, p11, p12, p13, p14, p15, p16, p17, p18, p19, p20, p21,
    p22, p23]

/-- The distance from (0, 0) to its antipode (0, 180), traced operation by operation:
`dLon` is the `float` nearest to π, `3.1415927`, which is above π; `a` is exactly 1, the
angle `c = 2 * atan2(1, 0)` is `3.1415927` again, and the distance returned is
`20015.087890625` km. -/
theorem calculateDistance_equator_antipode (m : Libm Ieee)
    (hPI : m.PI = Ieee.finite (884279719003555 / 281474976710656))
    (hsin0 : m.sin (Ieee.finite 0) = Ieee.finite 0)
    (hsin1 : m.sin (Ieee.finite (13176795 / 8388608)) = Ieee.finite 1)
    (hcos0 : m.cos (Ieee.finite 0) = Ieee.finite 1)
    (hsqrt0 : m.sqrt (Ieee.finite 0) = Ieee.finite 0)
    (hsqrt1 : m.sqrt (Ieee.finite 1) = Ieee.finite 1)
    (hatan : m.atan2 (Ieee.finite 1) (Ieee.finite 0) = Ieee.finite (13176795 / 8388608)) :
    Ieee.calculateDistance m (Ieee.finite 0) (Ieee.finite 0) (Ieee.finite 0) (Ieee.finite 180)
      = Ieee.finite (10247725 / 512) := by
  have q1 : binary32.sub (Ieee.finite 0) (Ieee.finite 0) = Ieee.finite 0 := by decide!
  have q2 :
      binary64.mul (Ieee.finite 0) (Ieee.finite (884279719003555 / 281474976710656))
        = Ieee.finite 0 := by decide!
  have q3 : binary64.div (Ieee.finite 0) (Ieee.finite 180) = Ieee.finite 0 := by decide!
  have q4 : binary32.cast (Ieee.finite 0) = Ieee.finite 0 := by decide!
  have q5 : binary32.sub (Ieee.finite 180) (Ieee.finite 0) = Ieee.finite 180 := by decide!
  have q6 :
      binary64.mul (Ieee.finite 180) (Ieee.finite (884279719003555 / 281474976710656))
        = Ieee.finite (4974073419394997 / 8796093022208) := by decide!
  have q7 :
      binary64.div (Ieee.finite (4974073419394997 / 8796093022208)) (Ieee.finite 180)
        = Ieee.finite (884279719003555 / 281474976710656) := by decide!
  have q8 :
      binary32.cast (Ieee.finite (884279719003555 / 281474976710656))
        = Ieee.finite (13176795 / 4194304) := by decide!
  have q9 : binary32.div (Ieee.finite 0) (Ieee.finite 2) = Ieee.finite 0 := by decide!
  have q10 :
      binary32.div (Ieee.finite (13176795 / 4194304)) (Ieee.finite 2)
        = Ieee.finite (13176795 / 8388608) := by decide!
  have q11 : binary32.mul (Ieee.finite 0) (Ieee.finite 0) = Ieee.finite 0 := by decide!
  have q12 : binary64.mul (Ieee.finite 1) (Ieee.finite 1) = Ieee.finite 1 := by decide!
  have q13 : binary64.add (Ieee.finite 0) (Ieee.finite 1) = Ieee.finite 1 := by decide!
  have q14 : binary32.cast (Ieee.finite 1) = Ieee.finite 1 := by decide!
  have q15 : binary32.sub (Ieee.finite 1) (Ieee.finite 1) = Ieee.finite 0 := by decide!
  have q16 :
      binary32.mul (Ieee.finite 2) (Ieee.finite (13176795 / 8388608))
        = Ieee.finite (13176795 / 4194304) := by decide!
  have q17 :
      binary32.mul (Ieee.finite 6371) (Ieee.finite (13176795 / 4194304))
        = Ieee.finite (10247725 / 512) := by decide!
  simp only [Ieee.calculateDistance, hPI, hsin0, hsin1, hcos0, hsqrt0, hsqrt1, hatan, q1, q2, q3,
    q4, q5, q6, q7, q8, q9, q10, q11, q12, q13, q14, q15, q16, q17]

/-- The number `20015.087890625` is above half the circumference `π * 6371` of the sphere the
sketch measures on (`20015.0868...`). -/
theorem half_circumference_lt : Real.pi * 6371 < ((10247725 / 512 : ℚ) : ℝ) := by
  have h := Real.pi_lt_d20
  have hc : ((10247725 / 512 : ℚ) : ℝ) = 10247725 / 512 := by push_cast; rfl
  rw [hc]
  linarith

end DistanceRangeLemmas

section DistanceRangeClaims

/-- C28 does not hold of the `float` code. For the observer (58.5, 0) and the point
(-58.5, 180), both latitudes inside `[-90°, 90°]`, and every library that returns the
correctly rounded sines and cosines of the angles reached: the Haversine intermediate is
`a = 1.0000001192092896 > 1`, the argument `1 - a` of the second square root is
`-1.19e-7 < 0`, and with a square root that is NaN below zero and an `atan2` that is NaN on
a NaN, the distance returned is a NaN, which lies in no interval. For the points (0, 0) and
(0, 180) the same code returns the number `20015.087890625`, which is above `π * 6371`. -/
theorem calculateDistance_nan_near_antipode (m : Libm Ieee)
    (hPI : m.PI = Ieee.finite (884279719003555 / 281474976710656))
    (hsin0 : m.sin (Ieee.finite 0) = Ieee.finite 0)
    (hsin1 : m.sin (Ieee.finite (-8564917 / 8388608)) = Ieee.finite (-14304929 / 16777216))
    (hsin2 : m.sin (Ieee.finite (13176795 / 8388608)) = Ieee.finite 1)
    (hcos0 : m.cos (Ieee.finite 0) = Ieee.finite 1)
    (hcos1 : m.cos (Ieee.finite (2299127269409243 / 2251799813685248))
      = Ieee.finite (4706248682712733 / 9007199254740992))
    (hcos2 : m.cos (Ieee.finite (-2299127269409243 / 2251799813685248))
      = Ieee.finite (4706248682712733 / 9007199254740992))
    (hsqrt0 : m.sqrt (Ieee.finite 0) = Ieee.finite 0)
    (hsqrt1 : m.sqrt (Ieee.finite 1) = Ieee.finite 1)
    (hsqrt : ∀ q : ℚ, q < 0 → m.sqrt (Ieee.finite q) = Ieee.nan)
    (hatan0 : m.atan2 (Ieee.finite 1) (Ieee.finite 0) = Ieee.finite (13176795 / 8388608))
    (hatan : ∀ y : Ieee, m.atan2 y Ieee.nan = Ieee.nan) :
    Ieee.haversineA m (Ieee.finite (117 / 2)) (Ieee.finite 0) (Ieee.finite (-117 / 2))
        (Ieee.finite 180) = Ieee.finite (8388609 / 8388608) ∧
      ¬ (Ieee.haversineA m (Ieee.finite (117 / 2)) (Ieee.finite 0) (Ieee.finite (-117 / 2))
        (Ieee.finite 180) ≤ Ieee.finite 1) ∧
      binary32.sub (Ieee.finite 1)
        (Ieee.haversineA m (Ieee.finite (117 / 2)) (Ieee.finite 0) (Ieee.finite (-117 / 2))
          (Ieee.finite 180)) = Ieee.finite (-1 / 8388608) ∧
      Ieee.calculateDistance m (Ieee.finite (117 / 2)) (Ieee.finite 0)
        (Ieee.finite (-117 / 2)) (Ieee.finite 180) = Ieee.nan ∧
      (∀ lower upper : Ieee,
        ¬ (lower ≤ Ieee.calculateDistance m (Ieee.finite (117 / 2)) (Ieee.finite 0)
            (Ieee.finite (-117 / 2)) (Ieee.finite 180)) ∧
        ¬ (Ieee.calculateDistance m (Ieee.finite (117 / 2)) (Ieee.finite 0)
            (Ieee.finite (-117 / 2)) (Ieee.finite 180) ≤ upper)) ∧
      Ieee.calculateDistance m (Ieee.finite 0) (Ieee.finite 0) (Ieee.finite 0)
        (Ieee.finite 180) = Ieee.finite (10247725 / 512) ∧
      Real.pi * 6371 < ((10247725 / 512 : ℚ) : ℝ) := by
  have ha := haversineA_antipode m hPI hsin1 hsin2 hcos1 hcos2
  have hd := calculateDistance_antipode m hPI hsin1 hsin2 hcos1 hcos2 hsqrt hatan
  have he := calculateDistance_equator_antipode m hPI hsin0 hsin2 hcos0 hsqrt0 hsqrt1 hatan0
  refine ⟨ha, ?_, ?_, hd, ?_, he, half_circumference_lt⟩
  · rw [ha]; decide!
  · rw [ha]; decide!
  · intro lower upper
    rw [hd]
    exact ⟨Ieee.not_le_nan lower, Ieee.not_nan_le upper⟩

/-- The library table of the worked examples meets the twelve conditions, so on it the
distance from (58.5, 0) to (-58.5, 180) is a NaN and the distance from (0, 0) to (0, 180) is
`20015.087890625`. -/
theorem calculateDistance_nan_near_antipode_witness :
    Ieee.haversineA libmTable (Ieee.finite (117 / 2)) (Ieee.finite 0)
        (Ieee.finite (-117 / 2)) (Ieee.finite 180) = Ieee.finite (8388609 / 8388608) ∧
      Ieee.calculateDistance libmTable (Ieee.finite (117 / 2)) (Ieee.finite 0)
        (Ieee.finite (-117 / 2)) (Ieee.finite 180) = Ieee.nan ∧
      Ieee.calculateDistance libmTable (Ieee.finite 0) (Ieee.finite 0) (Ieee.finite 0)
        (Ieee.finite 180) = Ieee.finite (10247725 / 512) := by
  have h := calculateDistance_nan_near_antipode libmTable rfl (by decide!) (by decide!)
    (by decide!) (by decide!) (by decide!) (by decide!) (by decide!) (by decide!)
    libmTable_sqrt_neg (by decide!) libmTable_atan2_nan
  exact ⟨h.1, h.2.2.2.1, h.2.2.2.2.2.1⟩

end DistanceRangeClaims

/-! ## The cycle over numbers that need not be ordered -/

section UnorderedCycleLemmas

variable {F : Type} [Zero F] [One F] [Neg F] [LT F] [DecidableEq F]
  [DecidableRel (fun a b : F => a < b)]

/-- A state vector that has a position and is not an airborne record above the ceiling is
stored in `aircraft[aircraftCount]`, whatever the comparison of the number type is. -/
theorem scanBody_store (env : Env F) (state : Option (List (JsonVariant F))) (g : Globals F)
    (h1 : ¬ ((parseState state).lat = 0 ∧ (parseState state).lon = 0))
    (h2 : ¬ ((parseState state).onGround = false ∧
      (parseState state).altitude > g.currentMaxAltitude)) :
    scanBody env state g =
      { g with
        aircraft := Function.update g.aircraft g.aircraftCount
          (storeAircraft env (g.aircraft g.aircraftCount) (parseState state))
        serial := g.serial ++
          [SerialEvent.stored g.aircraftCount
            (storeAircraft env (g.aircraft g.aircraftCount) (parseState state)).callsign
            (parseState state).altitude
            (storeAircraft env (g.aircraft g.aircraftCount) (parseState state)).distance
            (parseState state).onGround]
        aircraftCount := g.aircraftCount + 1 } := by
  simp only [scanBody]
  rw [if_neg h1, if_neg h2]

/-- The scan of a feed of two state vectors that both pass, from an empty registry: the
count is 2 and the two records are in cells 0 and 1, in feed order. -/
theorem scanLoop_two (env : Env F) (s1 s2 : JsonVariant F) (g : Globals F)
    (hc : g.aircraftCount = 0)
    (h1 : ¬ ((parseState s1.asArray).lat = 0 ∧ (parseState s1.asArray).lon = 0))
    (h2 : ¬ ((parseState s1.asArray).onGround = false ∧
      (parseState s1.asArray).altitude > g.currentMaxAltitude))
    (h3 : ¬ ((parseState s2.asArray).lat = 0 ∧ (parseState s2.asArray).lon = 0))
    (h4 : ¬ ((parseState s2.asArray).onGround = false ∧
      (parseState s2.asArray).altitude > g.currentMaxAltitude)) :
    (scanLoop env [s1, s2] g).aircraftCount = 2 ∧
      (scanLoop env [s1, s2] g).aircraft 0
        = storeAircraft env (g.aircraft 0) (parseState s1.asArray) ∧
      (scanLoop env [s1, s2] g).aircraft 1
        = storeAircraft env (g.aircraft 1) (parseState s2.asArray) := by
  have hb1 := scanBody_store env s1.asArray g h1 h2
  have hb2 := scanBody_store env s2.asArray (scanBody env s1.asArray g) h3
    (by rw [hb1]; exact h4)
  have hc1 : (scanBody env s1.asArray g).aircraftCount = 1 := by rw [hb1]; simp [hc]
  have hc2 : (scanBody env s2.asArray (scanBody env s1.asArray g)).aircraftCount = 2 := by
    rw [hb2]; simp [hc1]
  have hloop : scanLoop env [s1, s2] g
      = scanBody env s2.asArray (scanBody env s1.asArray g) := by
    simp [scanLoop, hc, hc1, MAX_AIRCRAFT]
  have ha1 : (scanBody env s1.asArray g).aircraft
      = Function.update g.aircraft 0
          (storeAircraft env (g.aircraft 0) (parseState s1.asArray)) := by
    rw [hb1]
    simp only [hc]
  have ha2 : (scanBody env s2.asArray (scanBody env s1.asArray g)).aircraft
      = Function.update (scanBody env s1.asArray g).aircraft 1
          (storeAircraft env ((scanBody env s1.asArray g).aircraft 1)
            (parseState s2.asArray)) := by
    rw [hb2]
    simp only [hc1]
  rw [hloop]
  refine ⟨hc2, ?_, ?_⟩
  · rw [ha2, Function.update_noteq (by decide : (0 : ℕ) ≠ 1), ha1, Function.update_same]
  · rw [ha2, Function.update_same, ha1, Function.update_noteq (by decide : (1 : ℕ) ≠ 0)]

/-- The sort of a registry of two records makes its one comparison,
`aircraft[1].distance < aircraft[0].distance`, and leaves the cells as they are when it is
false. -/
theorem sortByDistance_two_keep (g : Globals F) (hc : g.aircraftCount = 2)
    (h : ¬ ((g.aircraft 1).distance < (g.aircraft 0).distance)) :
    (sortByDistance g).aircraft = g.aircraft ∧ (sortByDistance g).aircraftCount = 2 := by
  refine ⟨?_, hc⟩
  simp only [sortByDistance, hc]
  show sortOuter 2 1 0 g.aircraft = g.aircraft
  simp only [sortOuter, sortInner, zero_add, Nat.reduceAdd, Nat.reduceSub]
  rw [if_neg h]

/-- The route lookup leaves the identifier and the distance of its record. -/
theorem fetchRouteInfo_key (env : Env F) (plane : Aircraft F) :
    (fetchRouteInfo env plane).1.icao24 = plane.icao24 ∧
      (fetchRouteInfo env plane).1.distance = plane.distance := by
  unfold fetchRouteInfo applyRoute
  dsimp only
  repeat' split
  all_goals exact ⟨rfl, rfl⟩

/-- The lookup for the nearest record leaves the count, and the identifier and the distance
of every cell. -/
theorem enrichClosest_key (env : Env F) (g : Globals F) :
    (enrichClosest env g).aircraftCount = g.aircraftCount ∧
      ∀ i, ((enrichClosest env g).aircraft i).icao24 = (g.aircraft i).icao24 ∧
        ((enrichClosest env g).aircraft i).distance = (g.aircraft i).distance := by
  unfold enrichClosest
  split
  · refine ⟨rfl, fun i => ?_⟩
    by_cases hi : i = 0
    · subst hi
      simp only [Function.update_same]
      exact fetchRouteInfo_key env _
    · simp only [Function.update_noteq hi, and_self]
  · exact ⟨rfl, fun _ => ⟨rfl, rfl⟩⟩

/-- The sort of a registry of two records exchanges the two cells when its one comparison,
`aircraft[1].distance < aircraft[0].distance`, is true. -/
theorem sortByDistance_two_swap (g : Globals F) (hc : g.aircraftCount = 2)
    (h : (g.aircraft 1).distance < (g.aircraft 0).distance) :
    (sortByDistance g).aircraft 0 = g.aircraft 1 ∧
      (sortByDistance g).aircraft 1 = g.aircraft 0 ∧ (sortByDistance g).aircraftCount = 2 := by
  have hs : (sortByDistance g).aircraft = swapAircraft g.aircraft 0 1 := by
    simp only [sortByDistance, hc]
    show sortOuter 2 1 0 g.aircraft = swapAircraft g.aircraft 0 1
    simp only [sortOuter, sortInner, zero_add, Nat.reduceAdd, Nat.reduceSub]
    rw [if_pos h]
  refine ⟨?_, ?_, hc⟩
  · rw [hs]; simp [swapAircraft]
  · rw [hs]; simp [swapAircraft]

/-- A rebuild on a feed of two state vectors that both pass the tests of the scan. With
`d1`, `d2` the distances `calculateDistance` gives the first and the second: the count is 2;
when `d2 < d1` is false the records stay in feed order, and when it is true the second
record is in cell 0 and the first in cell 1. -/
theorem rebuild_two_cells (env : Env F) (doc s1 s2 : JsonVariant F) (g : Globals F)
    (hstates : (doc.member "states").asArray = some [s1, s2])
    (h1 : ¬ ((parseState s1.asArray).lat = 0 ∧ (parseState s1.asArray).lon = 0))
    (h2 : ¬ ((parseState s1.asArray).onGround = false ∧
      (parseState s1.asArray).altitude > g.currentMaxAltitude))
    (h3 : ¬ ((parseState s2.asArray).lat = 0 ∧ (parseState s2.asArray).lon = 0))
    (h4 : ¬ ((parseState s2.asArray).onGround = false ∧
      (parseState s2.asArray).altitude > g.currentMaxAltitude)) :
    (rebuild env doc g).aircraftCount = 2 ∧
      (¬ (env.calculateDistance env.MY_LATITUDE env.MY_LONGITUDE (parseState s2.asArray).lat
            (parseState s2.asArray).lon
          < env.calculateDistance env.MY_LATITUDE env.MY_LONGITUDE (parseState s1.asArray).lat
            (parseState s1.asArray).lon) →
        ((rebuild env doc g).aircraft 0).icao24 = (parseState s1.asArray).icao24 ∧
        ((rebuild env doc g).aircraft 0).distance
          = env.calculateDistance env.MY_LATITUDE env.MY_LONGITUDE (parseState s1.asArray).lat
            (parseState s1.asArray).lon ∧
        ((rebuild env doc g).aircraft 1).icao24 = (parseState s2.asArray).icao24 ∧
        ((rebuild env doc g).aircraft 1).distance
          = env.calculateDistance env.MY_LATITUDE env.MY_LONGITUDE (parseState s2.asArray).lat
            (parseState s2.asArray).lon) ∧
      (env.calculateDistance env.MY_LATITUDE env.MY_LONGITUDE (parseState s2.asArray).lat
            (parseState s2.asArray).lon
          < env.calculateDistance env.MY_LATITUDE env.MY_LONGITUDE (parseState s1.asArray).lat
            (parseState s1.asArray).lon →
        ((rebuild env doc g).aircraft 0).icao24 = (parseState s2.asArray).icao24 ∧
        ((rebuild env doc g).aircraft 0).distance
          = env.calculateDistance env.MY_LATITUDE env.MY_LONGITUDE (parseState s2.asArray).lat
            (parseState s2.asArray).lon ∧
        ((rebuild env doc g).aircraft 1).icao24 = (parseState s1.asArray).icao24 ∧
        ((rebuild env doc g).aircraft 1).distance
          = env.calculateDistance env.MY_LATITUDE env.MY_LONGITUDE (parseState s1.asArray).lat
            (parseState s1.asArray).lon) := by
  obtain ⟨hc, h0, h1c⟩ := scanLoop_two env s1 s2
    { g with serial := g.serial ++ [SerialEvent.found 2], aircraftCount := 0 } rfl h1 h2 h3 h4
  have hd0 : ((scanLoop env [s1, s2]
      { g with serial := g.serial ++ [SerialEvent.found 2], aircraftCount := 0 }).aircraft
        0).distance = env.calculateDistance env.MY_LATITUDE env.MY_LONGITUDE
          (parseState s1.asArray).lat (parseState s1.asArray).lon := by
    rw [h0]; rfl
  have hd1 : ((scanLoop env [s1, s2]
      { g with serial := g.serial ++ [SerialEvent.found 2], aircraftCount := 0 }).aircraft
        1).distance = env.calculateDistance env.MY_LATITUDE env.MY_LONGITUDE
          (parseState s2.asArray).lat (parseState s2.asArray).lon := by
    rw [h1c]; rfl
  have hi0 : ((scanLoop env [s1, s2]
      { g with serial := g.serial ++ [SerialEvent.found 2], aircraftCount := 0 }).aircraft
        0).icao24 = (parseState s1.asArray).icao24 := by
    rw [h0]; rfl
  have hi1 : ((scanLoop env [s1, s2]
      { g with serial := g.serial ++ [SerialEvent.found 2], aircraftCount := 0 }).aircraft
        1).icao24 = (parseState s2.asArray).icao24 := by
    rw [h1c]; rfl
  have hreb : rebuild env doc g
      = enrichClosest env
          { sortByDistance (scanLoop env [s1, s2]
              { g with serial := g.serial ++ [SerialEvent.found 2], aircraftCount := 0 }) with
            serial := (sortByDistance (scanLoop env [s1, s2]
              { g with serial := g.serial ++ [SerialEvent.found 2],
                       aircraftCount := 0 })).serial ++
              [SerialEvent.tracking (sortByDistance (scanLoop env [s1, s2]
                { g with serial := g.serial ++ [SerialEvent.found 2],
                         aircraftCount := 0 })).aircraftCount] } := by
    unfold rebuild
    rw [hstates]
    rfl
  obtain ⟨hkc, hk⟩ := enrichClosest_key env
    { sortByDistance (scanLoop env [s1, s2]
        { g with serial := g.serial ++ [SerialEvent.found 2], aircraftCount := 0 }) with
      serial := (sortByDistance (scanLoop env [s1, s2]
        { g with serial := g.serial ++ [SerialEvent.found 2],
                 aircraftCount := 0 })).serial ++
        [SerialEvent.tracking (sortByDistance (scanLoop env [s1, s2]
          { g with serial := g.serial ++ [SerialEvent.found 2],
                   aircraftCount := 0 })).aircraftCount] }
  rw [hreb]
  refine ⟨by rw [hkc]; exact hc, ?_, ?_⟩
  · intro hnot
    obtain ⟨hsa, -⟩ := sortByDistance_two_keep _ hc (by rw [hd0, hd1]; exact hnot)
    refine ⟨?_, ?_, ?_, ?_⟩
    · rw [(hk 0).1]; show ((sortByDistance _).aircraft 0).icao24 = _; rw [hsa]; exact hi0
    · rw [(hk 0).2]; show ((sortByDistance _).aircraft 0).distance = _; rw [hsa]; exact hd0
    · rw [(hk 1).1]; show ((sortByDistance _).aircraft 1).icao24 = _; rw [hsa]; exact hi1
    · rw [(hk 1).2]; show ((sortByDistance _).aircraft 1).distance = _; rw [hsa]; exact hd1
  · intro hlt
    obtain ⟨hs0, hs1, -⟩ := sortByDistance_two_swap _ hc (by rw [hd0, hd1]; exact hlt)
    refine ⟨?_, ?_, ?_, ?_⟩
    · rw [(hk 0).1]; show ((sortByDistance _).aircraft 0).icao24 = _; rw [hs0]; exact hi1
    · rw [(hk 0).2]; show ((sortByDistance _).aircraft 0).distance = _; rw [hs0]; exact hd1
    · rw [(hk 1).1]; show ((sortByDistance _).aircraft 1).icao24 = _; rw [hs1]; exact hi0
    · rw [(hk 1).2]; show ((sortByDistance _).aircraft 1).distance = _; rw [hs1]; exact hd0

end UnorderedCycleLemmas

/-! ## The claim on the sorted registry, in `float` arithmetic -/

section UnsortedLemmas

/-- The distance function of `antipodeEnv` gives state N, at the antipode, a NaN. -/
theorem antipodeEnv_distance_N :
    antipodeEnv.calculateDistance antipodeEnv.MY_LATITUDE antipodeEnv.MY_LONGITUDE
      (Ieee.finite (-117 / 2)) (Ieee.finite 180) = Ieee.nan := by
  have c1 : binary32.cast (Ieee.finite (117 / 2)) = Ieee.finite (117 / 2) := by decide!
  have c2 : binary32.cast (Ieee.finite 0) = Ieee.finite 0 := by decide!
  have c3 : binary32.cast (Ieee.finite (-117 / 2)) = Ieee.finite (-117 / 2) := by decide!
  have c4 : binary32.cast (Ieee.finite 180) = Ieee.finite 180 := by decide!
  show Ieee.calculateDistance libmTable (binary32.cast (Ieee.finite (117 / 2)))
    (binary32.cast (Ieee.finite 0)) (binary32.cast (Ieee.finite (-117 / 2)))
    (binary32.cast (Ieee.finite 180)) = Ieee.nan
  rw [c1, c2, c3, c4]
  exact calculateDistance_antipode libmTable rfl (by decide!) (by decide!) (by decide!)
    (by decide!) libmTable_sqrt_neg libmTable_atan2_nan

/-- The distance function of `antipodeEnv` gives state O, above the observer, 0 km. -/
theorem antipodeEnv_distance_O :
    antipodeEnv.calculateDistance antipodeEnv.MY_LATITUDE antipodeEnv.MY_LONGITUDE
      (Ieee.finite (117 / 2)) (Ieee.finite 0) = Ieee.finite 0 := by
  have c1 : binary32.cast (Ieee.finite (117 / 2)) = Ieee.finite (117 / 2) := by decide!
  have c2 : binary32.cast (Ieee.finite 0) = Ieee.finite 0 := by decide!
  show Ieee.calculateDistance libmTable (binary32.cast (Ieee.finite (117 / 2)))
    (binary32.cast (Ieee.finite 0)) (binary32.cast (Ieee.finite (117 / 2)))
    (binary32.cast (Ieee.finite 0)) = Ieee.finite 0
  rw [c1, c2]
  exact calculateDistance_overhead libmTable rfl (by decide!) (by decide!) (by decide!)
    (by decide!) (by decide!)

/-- The distance function of `antipodeEnv` gives state P, one degree north of the
observer, `111.19492` km. -/
theorem antipodeEnv_distance_P :
    antipodeEnv.calculateDistance antipodeEnv.MY_LATITUDE antipodeEnv.MY_LONGITUDE
      (Ieee.finite (119 / 2)) (Ieee.finite 0) = Ieee.finite (14574541 / 131072) := by
  have c1 : binary32.cast (Ieee.finite (117 / 2)) = Ieee.finite (117 / 2) := by decide!
  have c2 : binary32.cast (Ieee.finite 0) = Ieee.finite 0 := by decide!
  have c3 : binary32.cast (Ieee.finite (119 / 2)) = Ieee.finite (119 / 2) := by decide!
  show Ieee.calculateDistance libmTable (binary32.cast (Ieee.finite (117 / 2)))
    (binary32.cast (Ieee.finite 0)) (binary32.cast (Ieee.finite (119 / 2)))
    (binary32.cast (Ieee.finite 0)) = Ieee.finite (14574541 / 131072)
  rw [c1, c2, c3]
  exact calculateDistance_north libmTable rfl (by decide!) (by decide!) (by decide!)
    (by decide!) (by decide!) (by decide!) (by decide!)

/-- The box of the request for the observer and the radius of the worked cycles: latitude
`-166.73 .. 283.73` and longitude `-431.05 .. 431.05`, which hold the positions of N, O
and P. -/
theorem antipode_request_box :
    boundingBox libmTable antipodeEnv.MY_LATITUDE antipodeEnv.MY_LONGITUDE
        antipodeGlobals.currentSearchRadius
      = { minLat := Ieee.finite (-1365813 / 8192)
          maxLat := Ieee.finite (2324277 / 8192)
          minLon := Ieee.finite (-7062393 / 16384)
          maxLon := Ieee.finite (7062393 / 16384) } := by
  have hPI : libmTable.PI = Ieee.finite (884279719003555 / 281474976710656) := rfl
  have hcos : libmTable.cos (Ieee.finite (2299127269409243 / 2251799813685248))
      = Ieee.finite (4706248682712733 / 9007199254740992) := by decide!
  have b1 :
      binary64.div (Ieee.finite 25000) (Ieee.finite 111)
        = Ieee.finite (7924408128115315 / 35184372088832) := by decide!
  have b2 :
      binary32.cast (Ieee.finite (7924408128115315 / 35184372088832))
        = Ieee.finite (1845045 / 8192) := by decide!
  have b3 :
      binary64.mul (Ieee.finite (117 / 2)) (Ieee.finite (884279719003555 / 281474976710656))
        = Ieee.finite (808286930651687 / 4398046511104) := by decide!
  have b4 :
      binary64.div (Ieee.finite (808286930651687 / 4398046511104)) (Ieee.finite 180)
        = Ieee.finite (2299127269409243 / 2251799813685248) := by decide!
  have b5 :
      binary64.mul (Ieee.finite 111) (Ieee.finite (4706248682712733 / 9007199254740992))
        = Ieee.finite (1020300007384987 / 17592186044416) := by decide!
  have b6 :
      binary64.div (Ieee.finite 25000) (Ieee.finite (1020300007384987 / 17592186044416))
        = Ieee.finite (7583186503510627 / 17592186044416) := by decide!
  have b7 :
      binary32.cast (Ieee.finite (7583186503510627 / 17592186044416))
        = Ieee.finite (7062393 / 16384) := by decide!
  have b8 :
      binary64.sub (Ieee.finite (117 / 2)) (Ieee.finite (1845045 / 8192))
        = Ieee.finite (-1365813 / 8192) := by decide!
  have b9 :
      binary32.cast (Ieee.finite (-1365813 / 8192))
        = Ieee.finite (-1365813 / 8192) := by decide!
  have b10 :
      binary64.add (Ieee.finite (117 / 2)) (Ieee.finite (1845045 / 8192))
        = Ieee.finite (2324277 / 8192) := by decide!
  have b11 :
      binary32.cast (Ieee.finite (2324277 / 8192))
        = Ieee.finite (2324277 / 8192) := by decide!
  have b12 :
      binary64.sub (Ieee.finite 0) (Ieee.finite (7062393 / 16384))
        = Ieee.finite (-7062393 / 16384) := by decide!
  have b13 :
      binary32.cast (Ieee.finite (-7062393 / 16384))
        = Ieee.finite (-7062393 / 16384) := by decide!
  have b14 :
      binary64.add (Ieee.finite 0) (Ieee.finite (7062393 / 16384))
        = Ieee.finite (7062393 / 16384) := by decide!
  have b15 :
      binary32.cast (Ieee.finite (7062393 / 16384))
        = Ieee.finite (7062393 / 16384) := by decide!
  show boundingBox libmTable (Ieee.finite (117 / 2)) (Ieee.finite 0) (Ieee.finite 25000) = _
  simp only [boundingBox, hPI, hcos, b1, b2, b3, b4, b5, b6, b7, b8, b9, b10, b11, b12, b13,
    b14, b15]

/-- The cells of the registry after a cycle of `antipodeEnv` on the feed N, O: N with a NaN
in cell 0 and O with 0 km in cell 1, because the one comparison of the sort, `0 < NaN`, is
false. -/
theorem antipode_cycle_cells :
    (updateAircraftData antipodeEnv antipodeGlobals).aircraftCount = 2 ∧
      ((updateAircraftData antipodeEnv antipodeGlobals).aircraft 0).icao24 = "n1" ∧
      ((updateAircraftData antipodeEnv antipodeGlobals).aircraft 0).distance = Ieee.nan ∧
      ((updateAircraftData antipodeEnv antipodeGlobals).aircraft 1).icao24 = "o2" ∧
      ((updateAircraftData antipodeEnv antipodeGlobals).aircraft 1).distance
        = Ieee.finite 0 := by
  have hlow : ¬ (Ieee.finite 9000 > Ieee.finite 12000) := by decide!
  have hupd : updateAircraftData antipodeEnv antipodeGlobals
      = { rebuild antipodeEnv antipodeFeed
            { antipodeGlobals with serial := antipodeGlobals.serial ++ [SerialEvent.fetching] }
          with lastUpdate := antipodeEnv.millis } := rfl
  obtain ⟨hc, hkeep, -⟩ := rebuild_two_cells antipodeEnv antipodeFeed stateN stateO
    { antipodeGlobals with serial := antipodeGlobals.serial ++ [SerialEvent.fetching] } rfl
    (by decide!) (fun h => hlow h.2) (by decide!) (fun h => hlow h.2)
  obtain ⟨hi0, hd0, hi1, hd1⟩ := hkeep (by
    show ¬ (antipodeEnv.calculateDistance antipodeEnv.MY_LATITUDE antipodeEnv.MY_LONGITUDE
        (Ieee.finite (117 / 2)) (Ieee.finite 0)
      < antipodeEnv.calculateDistance antipodeEnv.MY_LATITUDE antipodeEnv.MY_LONGITUDE
        (Ieee.finite (-117 / 2)) (Ieee.finite 180))
    rw [antipodeEnv_distance_N]
    exact Ieee.not_lt_nan _)
  rw [hupd]
  exact ⟨hc, hi0, hd0.trans antipodeEnv_distance_N, hi1, hd1.trans antipodeEnv_distance_O⟩

/-- The cells of the registry after a cycle of `northEnv` on the feed P, O: the comparison
of the sort, `0 < 111.19492`, is true and the two records are exchanged, O with 0 km in
cell 0 and P in cell 1. -/
theorem north_cycle_cells :
    (updateAircraftData northEnv antipodeGlobals).aircraftCount = 2 ∧
      ((updateAircraftData northEnv antipodeGlobals).aircraft 0).icao24 = "o2" ∧
      ((updateAircraftData northEnv antipodeGlobals).aircraft 0).distance = Ieee.finite 0 ∧
      ((updateAircraftData northEnv antipodeGlobals).aircraft 1).icao24 = "p3" ∧
      ((updateAircraftData northEnv antipodeGlobals).aircraft 1).distance
        = Ieee.finite (14574541 / 131072) := by
  have hlow : ¬ (Ieee.finite 9000 > Ieee.finite 12000) := by decide!
  have hupd : updateAircraftData northEnv antipodeGlobals
      = { rebuild northEnv northFeed
            { antipodeGlobals with serial := antipodeGlobals.serial ++ [SerialEvent.fetching] }
          with lastUpdate := northEnv.millis } := rfl
  have hP : northEnv.calculateDistance northEnv.MY_LATITUDE northEnv.MY_LONGITUDE
      (Ieee.finite (119 / 2)) (Ieee.finite 0) = Ieee.finite (14574541 / 131072) :=
    antipodeEnv_distance_P
  have hO : northEnv.calculateDistance northEnv.MY_LATITUDE northEnv.MY_LONGITUDE
      (Ieee.finite (117 / 2)) (Ieee.finite 0) = Ieee.finite 0 := antipodeEnv_distance_O
  obtain ⟨hc, -, hswap⟩ := rebuild_two_cells northEnv northFeed stateP stateO
    { antipodeGlobals with serial := antipodeGlobals.serial ++ [SerialEvent.fetching] } rfl
    (by decide!) (fun h => hlow h.2) (by decide!) (fun h => hlow h.2)
  obtain ⟨hi0, hd0, hi1, hd1⟩ := hswap (by
    show northEnv.calculateDistance northEnv.MY_LATITUDE northEnv.MY_LONGITUDE
        (Ieee.finite (117 / 2)) (Ieee.finite 0)
      < northEnv.calculateDistance northEnv.MY_LATITUDE northEnv.MY_LONGITUDE
        (Ieee.finite (119 / 2)) (Ieee.finite 0)
    rw [hP, hO]
    decide!)
  rw [hupd]
  exact ⟨hc, hi0, hd0.trans hO, hi1, hd1.trans hP⟩

end UnsortedLemmas

section UnsortedClaims

/-- C2 does not hold of the `float` code. Observer at (58.5, 0), radius 25000 km, ceiling
12000 m, and a cycle whose feed is N (at the antipode (-58.5, 180)) then O (above the
observer), both airborne at 9000 m. `calculateDistance` returns a NaN for N and 0 for O; the sort compares
`0 < NaN`, which is false, and exchanges nothing. The registry is N, O: the adjacent pair
at index 0 is not in ascending order (`NaN <= 0` is false) and the record in cell 0 is not
the one of minimal distance, which is O with 0 km. On the feed P, O, with P one degree
north at `111.19492` km, the same cycle does sort: the registry is O, P. -/
theorem cycle_nan_distance_unsorted :
    (registry (updateAircraftData antipodeEnv antipodeGlobals)).map
        (fun r => (r.icao24, r.distance)) = [("n1", Ieee.nan), ("o2", Ieee.finite 0)] ∧
      ¬ (((updateAircraftData antipodeEnv antipodeGlobals).aircraft 0).distance
          ≤ ((updateAircraftData antipodeEnv antipodeGlobals).aircraft 1).distance) ∧
      (∃ r ∈ registry (updateAircraftData antipodeEnv antipodeGlobals),
        ¬ (((updateAircraftData antipodeEnv antipodeGlobals).aircraft 0).distance
          ≤ r.distance)) ∧
      (registry (updateAircraftData northEnv antipodeGlobals)).map
        (fun r => (r.icao24, r.distance))
          = [("o2", Ieee.finite 0), ("p3", Ieee.finite (14574541 / 131072))] := by
  obtain ⟨hc, hi0, hd0, hi1, hd1⟩ := antipode_cycle_cells
  obtain ⟨kc, ki0, kd0, ki1, kd1⟩ := north_cycle_cells
  have hreg : registry (updateAircraftData antipodeEnv antipodeGlobals)
      = [(updateAircraftData antipodeEnv antipodeGlobals).aircraft 0,
         (updateAircraftData antipodeEnv antipodeGlobals).aircraft 1] := by
    simp [registry, hc, List.range_succ]
  have kreg : registry (updateAircraftData northEnv antipodeGlobals)
      = [(updateAircraftData northEnv antipodeGlobals).aircraft 0,
         (updateAircraftData northEnv antipodeGlobals).aircraft 1] := by
    simp [registry, kc, List.range_succ]
  have hnot : ¬ (((updateAircraftData antipodeEnv antipodeGlobals).aircraft 0).distance
      ≤ ((updateAircraftData antipodeEnv antipodeGlobals).aircraft 1).distance) := by
    rw [hd0]
    exact Ieee.not_nan_le _
  refine ⟨?_, hnot, ?_, ?_⟩
  · rw [hreg]
    simp only [List.map_cons, List.map_nil, hi0, hd0, hi1, hd1]
  · refine ⟨(updateAircraftData antipodeEnv antipodeGlobals).aircraft 1, ?_, hnot⟩
    rw [hreg]
    simp
  · rw [kreg]
    simp only [List.map_cons, List.map_nil, ki0, kd0, ki1, kd1]

end UnsortedClaims

end AirplaneTracker
